import Mathlib

/-!
Verification development for the falling-sand simulator
(`src/sim/World.js`, `src/sim/Person.js`).

The grid engine is embedded shallowly: the three parallel per-cell arrays
`cells`, `timer`, `updated` of `createWorld` become functions `ℕ → _`, and
every `Math.random()` call reads one value from an explicit stream
`ρ : ℕ → ℚ` at a cursor that is threaded through the computation in source
order.  Two extra per-cell counters (`writes`, `dispatches`) instrument the
state exactly as §8 of the design document asks ("instrument `step()` and
assert the updated-mask count of writes per cell ≤ 1"); they are written
only by the mutation primitives / the dispatch of the tick driver and are
never read by the embedded program.

The ragdoll (`Person.js`) is embedded over `ℝ` (JS numbers idealised as
reals, `Math.hypot` as a square root); a parallel `ℚ`-valued shadow of the
stick relaxation on collinear configurations is defined for evaluation and
proved equal to the real model on lifted configurations.
-/

namespace Sand

/-- Modelled from the spec: the material identifier table of
`src/sim/materials.js` is not under `src/` (only its importers are).  Per
§3 of the spec the materials form a closed enumeration of distinct small
integer identifiers with identifier 0 reserved for "empty"; the concrete
nonzero values below are an arbitrary enumeration (no code under
verification depends on anything but distinctness and `empty = 0`). -/
def emptyId : ℕ := 0

def stoneId : ℕ := 1

def sandId : ℕ := 2

def waterId : ℕ := 3

def concreteId : ℕ := 4

def oilId : ℕ := 5

def woodId : ℕ := 6

def fireId : ℕ := 7

def smokeId : ℕ := 8

def steamId : ℕ := 9

def lavaId : ℕ := 10

def glassId : ℕ := 11

def emberId : ℕ := 12

def ashId : ℕ := 13

def iceId : ℕ := 14

def acidId : ℕ := 15

def plasmaId : ℕ := 16

def electricityId : ℕ := 17

/-- Random source: the stream of values produced by successive
`Math.random()` calls.  Each call reads the stream at the current cursor
and advances the cursor by one; genuine JS draws lie in `[0,1)`. -/
abbrev Rnd := ℕ → ℚ

/-- Grid state of `createWorld` (World.js lines 13–15): parallel per-cell
arrays `cells` (material ids), `timer` (ember countdowns) and `updated`
(the per-tick processed mask), indexed by `y * width + x`, plus the two
instrumentation counters described in the file header. -/
structure W where
  width : ℤ
  height : ℤ
  cells : ℕ → ℕ
  timer : ℕ → ℕ
  updated : ℕ → Bool
  writes : ℕ → ℕ
  dispatches : ℕ → ℕ

/-- World.js `index(x, y) = y * width + x`. -/
def idx (w : W) (x y : ℤ) : ℕ := (y * w.width + x).toNat

/-- World.js `inBounds(x, y)`. -/
def inBounds (w : W) (x y : ℤ) : Prop :=
  0 ≤ x ∧ x < w.width ∧ 0 ≤ y ∧ y < w.height

instance (w : W) (x y : ℤ) : Decidable (inBounds w x y) := by
  unfold inBounds; infer_instance

/-- World.js `EMBER_LIFETIME = 1800`. -/
def EMBER_LIFETIME : ℕ := 1800

/-- World.js `getAt`: out-of-bounds reads return stone. -/
def getAt (w : W) (x y : ℤ) : ℕ :=
  if inBounds w x y then w.cells (idx w x y) else stoneId

/-- Instrumentation helper: count one write to cell `i`. -/
def bumpWrite (f : ℕ → ℕ) (i : ℕ) : ℕ → ℕ := Function.update f i (f i + 1)

/-- World.js `setAt`: out-of-bounds writes are ignored; writing ember arms
the cell timer if it was clear, writing anything else clears it. -/
def setAt (w : W) (x y : ℤ) (m : ℕ) : W :=
  if inBounds w x y then
    let i := idx w x y
    { w with
      cells := Function.update w.cells i m
      timer := Function.update w.timer i
        (if m = emberId then (if w.timer i = 0 then EMBER_LIFETIME else w.timer i) else 0)
      writes := bumpWrite w.writes i }
  else w

/-- World.js `setEmber`: place an ember and (re)arm its timer. -/
def setEmber (w : W) (x y : ℤ) : W :=
  if inBounds w x y then
    let i := idx w x y
    { w with
      cells := Function.update w.cells i emberId
      timer := Function.update w.timer i EMBER_LIFETIME
      writes := bumpWrite w.writes i }
  else w

/-- World.js `swap`: exchange material and timer of two cells and mark the
destination cell processed ("dest cell already processed"). -/
def swap (w : W) (x1 y1 x2 y2 : ℤ) : W :=
  let i1 := idx w x1 y1
  let i2 := idx w x2 y2
  { w with
    cells := Function.update (Function.update w.cells i1 (w.cells i2)) i2 (w.cells i1)
    timer := Function.update (Function.update w.timer i1 (w.timer i2)) i2 (w.timer i1)
    updated := Function.update w.updated i2 true
    writes := bumpWrite (bumpWrite w.writes i1) i2 }

/-- World.js `tryFallPowder` (sand): fall into empty or water, else a
random-side diagonal fall. -/
def tryFallPowder (ρ : Rnd) (w : W) (c : ℕ) (x y : ℤ) : Bool × W × ℕ :=
  let below := getAt w x (y+1)
  if below = emptyId ∨ below = waterId then (true, swap w x y x (y+1), c)
  else
    let dir : ℤ := if ρ c < 0.5 then -1 else 1
    let c := c + 1
    let dl := getAt w (x - dir) (y+1)
    if dl = emptyId ∨ dl = waterId then (true, swap w x y (x - dir) (y+1), c)
    else
      let dr := getAt w (x + dir) (y+1)
      if dr = emptyId ∨ dr = waterId then (true, swap w x y (x + dir) (y+1), c)
      else (false, w, c)

/-- The lateral-spread scan `for (dx = 1; dx <= maxSpread; dx++) if
(getAt(x + s*dx, y) === empty) ...`: first offset `d` in the list whose
cell `(x + s*d, y)` is empty. -/
def firstEmptyDx (w : W) (x y s : ℤ) : List ℤ → Option ℤ
  | [] => none
  | d :: rest => if getAt w (x + s * d) y = emptyId then some d else firstEmptyDx w x y s rest

/-- The offsets `1, 2, …, m` tried by a lateral-spread scan. -/
def dxList (m : ℕ) : List ℤ := (List.range m).map (fun k : ℕ => (k : ℤ) + 1)

/-- World.js line 446: `5 + (Math.random() * 5) | 0`, i.e. `⌊5 + r·5⌋`. -/
def waterMaxSpread (r : ℚ) : ℤ := ⌊(5 : ℚ) + r * 5⌋

/-- World.js line 570: `4 + (Math.random() * 3) | 0`. -/
def oilMaxSpread (r : ℚ) : ℤ := ⌊(4 : ℚ) + r * 3⌋

/-- World.js line 629: `2 + (Math.random() * 2) | 0`. -/
def lavaMaxSpread (r : ℚ) : ℤ := ⌊(2 : ℚ) + r * 2⌋

/-- World.js line 759: `3 + (Math.random() * 3) | 0`. -/
def acidMaxSpread (r : ℚ) : ℤ := ⌊(3 : ℚ) + r * 3⌋

/-- World.js `tryFlowWater`: fall into empty, sink below oil, random-side
diagonal fall, else lateral spread to the first empty cell within a
randomized distance, trying a randomized side first. -/
def tryFlowWater (ρ : Rnd) (w : W) (c : ℕ) (x y : ℤ) : Bool × W × ℕ :=
  let below := getAt w x (y+1)
  if below = emptyId then (true, swap w x y x (y+1), c)
  else if below = oilId then (true, swap w x y x (y+1), c)
  else
    let dir : ℤ := if ρ c < 0.5 then -1 else 1
    let c := c + 1
    if getAt w (x - dir) (y+1) = emptyId then (true, swap w x y (x - dir) (y+1), c)
    else if getAt w (x + dir) (y+1) = emptyId then (true, swap w x y (x + dir) (y+1), c)
    else
      let m := (waterMaxSpread (ρ c)).toNat
      let c := c + 1
      let leftFirst := ρ c < 0.5
      let c := c + 1
      if leftFirst then
        match firstEmptyDx w x y (-1) (dxList m) with
        | some d => (true, swap w x y (x + (-1) * d) y, c)
        | none =>
          match firstEmptyDx w x y 1 (dxList m) with
          | some d => (true, swap w x y (x + 1 * d) y, c)
          | none => (false, w, c)
      else
        match firstEmptyDx w x y 1 (dxList m) with
        | some d => (true, swap w x y (x + 1 * d) y, c)
        | none =>
          match firstEmptyDx w x y (-1) (dxList m) with
          | some d => (true, swap w x y (x + (-1) * d) y, c)
          | none => (false, w, c)

/-- World.js `tryFlowOil`: like water but only falls into empty and always
scans right before left, with a shorter randomized spread. -/
def tryFlowOil (ρ : Rnd) (w : W) (c : ℕ) (x y : ℤ) : Bool × W × ℕ :=
  if getAt w x (y+1) = emptyId then (true, swap w x y x (y+1), c)
  else
    let dir : ℤ := if ρ c < 0.5 then -1 else 1
    let c := c + 1
    if getAt w (x - dir) (y+1) = emptyId then (true, swap w x y (x - dir) (y+1), c)
    else if getAt w (x + dir) (y+1) = emptyId then (true, swap w x y (x + dir) (y+1), c)
    else
      let m := (oilMaxSpread (ρ c)).toNat
      let c := c + 1
      match firstEmptyDx w x y 1 (dxList m) with
      | some d => (true, swap w x y (x + 1 * d) y, c)
      | none =>
        match firstEmptyDx w x y (-1) (dxList m) with
        | some d => (true, swap w x y (x + (-1) * d) y, c)
        | none => (false, w, c)

/-- The `igniteNeighbor` closure of World.js `tryRiseFire`: wood may shift
to ember (p = 0.05), oil may catch fire (p = 0.5). -/
def igniteNeighborFire (ρ : Rnd) (w : W) (c : ℕ) (xx yy : ℤ) : W × ℕ :=
  let m := getAt w xx yy
  if m = woodId then (if ρ c < 0.05 then setEmber w xx yy else w, c + 1)
  else if m = oilId then (if ρ c < 0.5 then setAt w xx yy fireId else w, c + 1)
  else (w, c)

/-- World.js `tryRiseFire`: ignite the four neighbours, maybe decay to
smoke (less often near fuel), and rise into empty when not near fuel. -/
def tryRiseFire (ρ : Rnd) (w : W) (c : ℕ) (x y : ℤ) : Bool × W × ℕ :=
  let s := igniteNeighborFire ρ w c (x+1) y
  let s := igniteNeighborFire ρ s.1 s.2 (x-1) y
  let s := igniteNeighborFire ρ s.1 s.2 x (y+1)
  let s := igniteNeighborFire ρ s.1 s.2 x (y-1)
  let w := s.1
  let c := s.2
  let nearFuel :=
    getAt w (x+1) y = woodId ∨ getAt w (x-1) y = woodId ∨
    getAt w x (y+1) = woodId ∨ getAt w x (y-1) = woodId ∨
    getAt w (x+1) y = oilId ∨ getAt w (x-1) y = oilId ∨
    getAt w x (y+1) = oilId ∨ getAt w x (y-1) = oilId
  let smokeChance : ℚ := if nearFuel then 0.01 else 0.05
  if ρ c < smokeChance then (true, setAt w x y smokeId, c + 1)
  else
    let c := c + 1
    if ¬ nearFuel then
      if getAt w x (y-1) = emptyId then (true, swap w x y x (y-1), c)
      else
        let dir : ℤ := if ρ c < 0.5 then -1 else 1
        let c := c + 1
        if getAt w (x + dir) (y-1) = emptyId then (true, swap w x y (x + dir) (y-1), c)
        else if getAt w (x - dir) (y-1) = emptyId then (true, swap w x y (x - dir) (y-1), c)
        else (false, w, c)
    else (false, w, c)

/-- World.js `tryRiseSmoke`: 2% chance to vanish, else rise straight up or
to a random-side upper diagonal. -/
def tryRiseSmoke (ρ : Rnd) (w : W) (c : ℕ) (x y : ℤ) : Bool × W × ℕ :=
  if ρ c < 0.02 then (true, setAt w x y emptyId, c + 1)
  else
    let c := c + 1
    if getAt w x (y-1) = emptyId then (true, swap w x y x (y-1), c)
    else
      let dir : ℤ := if ρ c < 0.5 then -1 else 1
      let c := c + 1
      if getAt w (x + dir) (y-1) = emptyId then (true, swap w x y (x + dir) (y-1), c)
      else if getAt w (x - dir) (y-1) = emptyId then (true, swap w x y (x - dir) (y-1), c)
      else (false, w, c)

/-- World.js `tryRiseSteam`: as smoke with a 3% vanish chance. -/
def tryRiseSteam (ρ : Rnd) (w : W) (c : ℕ) (x y : ℤ) : Bool × W × ℕ :=
  if ρ c < 0.03 then (true, setAt w x y emptyId, c + 1)
  else
    let c := c + 1
    if getAt w x (y-1) = emptyId then (true, swap w x y x (y-1), c)
    else
      let dir : ℤ := if ρ c < 0.5 then -1 else 1
      let c := c + 1
      if getAt w (x + dir) (y-1) = emptyId then (true, swap w x y (x + dir) (y-1), c)
      else if getAt w (x - dir) (y-1) = emptyId then (true, swap w x y (x - dir) (y-1), c)
      else (false, w, c)

/-- World.js `tryFlowLava`: a slow short-range liquid. -/
def tryFlowLava (ρ : Rnd) (w : W) (c : ℕ) (x y : ℤ) : Bool × W × ℕ :=
  if getAt w x (y+1) = emptyId then (true, swap w x y x (y+1), c)
  else
    let dir : ℤ := if ρ c < 0.5 then -1 else 1
    let c := c + 1
    if getAt w (x - dir) (y+1) = emptyId then (true, swap w x y (x - dir) (y+1), c)
    else if getAt w (x + dir) (y+1) = emptyId then (true, swap w x y (x + dir) (y+1), c)
    else
      let m := (lavaMaxSpread (ρ c)).toNat
      let c := c + 1
      match firstEmptyDx w x y 1 (dxList m) with
      | some d => (true, swap w x y (x + 1 * d) y, c)
      | none =>
        match firstEmptyDx w x y (-1) (dxList m) with
        | some d => (true, swap w x y (x + (-1) * d) y, c)
        | none => (false, w, c)

/-- World.js `tryEmber`: drift down with probability 1/2 when empty below
(the draw is short-circuited when the cell below is not empty), else a 2%
chance to puff smoke above; an ember never reports a move in that case. -/
def tryEmber (ρ : Rnd) (w : W) (c : ℕ) (x y : ℤ) : Bool × W × ℕ :=
  if getAt w x (y+1) = emptyId then
    if ρ c < 0.5 then (true, swap w x y x (y+1), c + 1)
    else
      if ρ (c+1) < 0.02 then (false, setAt w x (y-1) smokeId, c + 2)
      else (false, w, c + 2)
  else
    if ρ c < 0.02 then (false, setAt w x (y-1) smokeId, c + 1)
    else (false, w, c + 1)

/-- World.js `tryMeltIce`: fall into empty, else melt with probability 0.3
when an eight-neighbourhood cell is fire, lava or plasma. -/
def tryMeltIce (ρ : Rnd) (w : W) (c : ℕ) (x y : ℤ) : Bool × W × ℕ :=
  if getAt w x (y+1) = emptyId then (true, swap w x y x (y+1), c)
  else
    let ns := [getAt w (x+1) y, getAt w (x-1) y, getAt w x (y+1), getAt w x (y-1),
      getAt w (x+1) (y+1), getAt w (x-1) (y+1), getAt w (x+1) (y-1), getAt w (x-1) (y-1)]
    if fireId ∈ ns ∨ lavaId ∈ ns ∨ plasmaId ∈ ns then
      if ρ c < 0.3 then (true, setAt w x y waterId, c + 1) else (false, w, c + 1)
    else (false, w, c)

/-- World.js `tryCorrode` (acid): flows like water with a shorter spread
and no randomized starting side. -/
def tryCorrode (ρ : Rnd) (w : W) (c : ℕ) (x y : ℤ) : Bool × W × ℕ :=
  if getAt w x (y+1) = emptyId then (true, swap w x y x (y+1), c)
  else
    let dir : ℤ := if ρ c < 0.5 then -1 else 1
    let c := c + 1
    if getAt w (x - dir) (y+1) = emptyId then (true, swap w x y (x - dir) (y+1), c)
    else if getAt w (x + dir) (y+1) = emptyId then (true, swap w x y (x + dir) (y+1), c)
    else
      let m := (acidMaxSpread (ρ c)).toNat
      let c := c + 1
      match firstEmptyDx w x y 1 (dxList m) with
      | some d => (true, swap w x y (x + 1 * d) y, c)
      | none =>
        match firstEmptyDx w x y (-1) (dxList m) with
        | some d => (true, swap w x y (x + (-1) * d) y, c)
        | none => (false, w, c)

/-- The eight-neighbour list `[[x+1,y],[x-1,y],[x,y+1],[x,y-1],[x+1,y+1],
[x-1,y+1],[x+1,y-1],[x-1,y-1]]` of the plasma/electricity rules. -/
def neighbors8 (x y : ℤ) : List (ℤ × ℤ) :=
  [(x+1,y),(x-1,y),(x,y+1),(x,y-1),(x+1,y+1),(x-1,y+1),(x+1,y-1),(x-1,y-1)]

/-- The neighbour-spawn loop at the end of World.js `tryPlasma` (each empty
neighbour is seeded with plasma with probability 0.01; the draw is
short-circuited for non-empty neighbours). -/
def plasmaSpread (ρ : Rnd) : W → ℕ → List (ℤ × ℤ) → W × ℕ
  | w, c, [] => (w, c)
  | w, c, p :: rest =>
    if getAt w p.1 p.2 = emptyId then
      plasmaSpread ρ (if ρ c < 0.01 then setAt w p.1 p.2 plasmaId else w) (c + 1) rest
    else plasmaSpread ρ w c rest

/-- World.js `tryPlasma`: 8% decay to smoke, rise like fire, then the
neighbour-spawn loop (after which the rule reports no move). -/
def tryPlasma (ρ : Rnd) (w : W) (c : ℕ) (x y : ℤ) : Bool × W × ℕ :=
  if ρ c < 0.08 then (true, setAt w x y smokeId, c + 1)
  else
    let c := c + 1
    if getAt w x (y-1) = emptyId then (true, swap w x y x (y-1), c)
    else
      let dir : ℤ := if ρ c < 0.5 then -1 else 1
      let c := c + 1
      if getAt w (x + dir) (y-1) = emptyId then (true, swap w x y (x + dir) (y-1), c)
      else if getAt w (x - dir) (y-1) = emptyId then (true, swap w x y (x - dir) (y-1), c)
      else
        let s := plasmaSpread ρ w c (neighbors8 x y)
        (false, s.1, s.2)

/-- World.js line 826: the materials electricity conducts through. -/
def conductiveIds : List ℕ := [stoneId, concreteId, glassId]

/-- The conduction loop of World.js `tryElectricity`: spread into the
first empty (p = 0.02) or conductive (p = 0.01) neighbour; a draw is
consumed only when the corresponding guard tests it. -/
def elecLoop (ρ : Rnd) : W → ℕ → List (ℤ × ℤ) → Bool × W × ℕ
  | w, c, [] => (false, w, c)
  | w, c, p :: rest =>
    let nid := getAt w p.1 p.2
    if nid = emptyId then
      if ρ c < 0.02 then (true, setAt w p.1 p.2 electricityId, c + 1)
      else elecLoop ρ w (c + 1) rest
    else if nid ∈ conductiveIds then
      if ρ c < 0.01 then (true, setAt w p.1 p.2 electricityId, c + 1)
      else elecLoop ρ w (c + 1) rest
    else elecLoop ρ w c rest

/-- World.js `tryElectricity`: 5% decay, a 20% chance to rise into empty
(draw short-circuited when the cell above is not empty), then conduction. -/
def tryElectricity (ρ : Rnd) (w : W) (c : ℕ) (x y : ℤ) : Bool × W × ℕ :=
  if ρ c < 0.05 then (true, setAt w x y emptyId, c + 1)
  else
    let c := c + 1
    if getAt w x (y-1) = emptyId then
      if ρ c < 0.2 then (true, swap w x y x (y-1), c + 1)
      else elecLoop ρ w (c + 1) (neighbors8 x y)
    else elecLoop ρ w c (neighbors8 x y)

/-- Mark cell `i` processed (`updated[i] = 1`). -/
def markUpdated (w : W) (i : ℕ) : W :=
  { w with updated := Function.update w.updated i true }

/-- Instrumentation: count one rule dispatch for cell `i`. -/
def bumpDispatch (w : W) (i : ℕ) : W :=
  { w with dispatches := Function.update w.dispatches i (w.dispatches i + 1) }

/-- After a dispatched rule: `continue` on a move, otherwise fall through
to `updated[i] = 1`. -/
def afterRule (r : Bool × W × ℕ) (i : ℕ) : W × ℕ :=
  if r.1 then (r.2.1, r.2.2) else (markUpdated r.2.1 i, r.2.2)

/-- The material-dispatch switch of the movement pass: run the movement
rule of the material held at cell `i`, or just mark the cell processed
when the material has no movement rule. -/
def dispatchRule (ρ : Rnd) (w : W) (c : ℕ) (x y : ℤ) (i : ℕ) : W × ℕ :=
  if w.cells i = sandId then afterRule (tryFallPowder ρ w c x y) i
  else if w.cells i = waterId then afterRule (tryFlowWater ρ w c x y) i
  else if w.cells i = oilId then afterRule (tryFlowOil ρ w c x y) i
  else if w.cells i = fireId then afterRule (tryRiseFire ρ w c x y) i
  else if w.cells i = smokeId then afterRule (tryRiseSmoke ρ w c x y) i
  else if w.cells i = steamId then afterRule (tryRiseSteam ρ w c x y) i
  else if w.cells i = lavaId then afterRule (tryFlowLava ρ w c x y) i
  else if w.cells i = emberId then afterRule (tryEmber ρ w c x y) i
  else if w.cells i = iceId then afterRule (tryMeltIce ρ w c x y) i
  else if w.cells i = acidId then afterRule (tryCorrode ρ w c x y) i
  else if w.cells i = plasmaId then afterRule (tryPlasma ρ w c x y) i
  else if w.cells i = electricityId then afterRule (tryElectricity ρ w c x y) i
  else (markUpdated w i, c)

/-- One cell of the movement pass of World.js `step` (both traversal
directions share this body): skip cells already processed, otherwise
dispatch on the material, and mark the cell processed if no move
happened.  The dispatch is counted in the instrumentation. -/
def processCell (ρ : Rnd) (w : W) (c : ℕ) (x y : ℤ) : W × ℕ :=
  let i := idx w x y
  if w.updated i then (w, c)
  else dispatchRule ρ (bumpDispatch w i) c x y i

/-- The x-coordinates of one row traversal: left-to-right or its
reverse, chosen per row. -/
def xsFor (width : ℤ) (ltr : Bool) : List ℤ :=
  let l := (List.range width.toNat).map (fun k : ℕ => (k : ℤ))
  if ltr then l else l.reverse

/-- The loop body of one row traversal: process the cell at column `x` of
row `y`, threading world and cursor. -/
def processCellStep (ρ : Rnd) (y : ℤ) (t : W × ℕ) (x : ℤ) : W × ℕ :=
  processCell ρ t.1 t.2 x y

/-- One row of the movement pass: draw the traversal direction, then
process every cell of row `y`. -/
def processRow (ρ : Rnd) (s : W × ℕ) (y : ℤ) : W × ℕ :=
  let ltr := ρ s.2 < 0.5
  let s := (s.1, s.2 + 1)
  (xsFor s.1.width ltr).foldl (processCellStep ρ y) s

/-- The row order of the movement pass: `height - 1` down to `0`. -/
def rowList (height : ℤ) : List ℤ :=
  ((List.range height.toNat).reverse).map (fun k : ℕ => (k : ℤ))

/-- The movement pass of World.js `step` (lines 458–531): bottom-to-top
rows, random lateral traversal per row. -/
def movementPass (ρ : Rnd) (w : W) (c : ℕ) : W × ℕ :=
  (rowList w.height).foldl (processRow ρ) (w, c)

/-- World.js `step` up to the end of the movement pass: clear the updated
mask, then run the movement pass. -/
def stepMovement (ρ : Rnd) (w : W) (c : ℕ) : W × ℕ :=
  movementPass ρ { w with updated := fun _ => false } c

/-- The `tryIgnite` closure of World.js `spreadFire`, called at neighbour
`(xx, yy)` of the fire cell `(x, y)`: wood may shift to ember (p = 0.003),
oil may catch fire (p = 0.4), and a water neighbour turns the fire cell
`(x, y)` itself to steam. -/
def spreadFireIgnite (ρ : Rnd) (w : W) (c : ℕ) (x y xx yy : ℤ) : W × ℕ :=
  let m := getAt w xx yy
  let s : W × ℕ :=
    if m = woodId then (if ρ c < 0.003 then setEmber w xx yy else w, c + 1)
    else if m = oilId then (if ρ c < 0.4 then setAt w xx yy fireId else w, c + 1)
    else (w, c)
  if m = waterId then (setAt s.1 x y steamId, s.2) else s

/-- World.js `spreadFire` (reaction pass rule for a fire cell): `tryIgnite`
on the four neighbours in the order `+x, -x, +y, -y`. -/
def spreadFire (ρ : Rnd) (w : W) (c : ℕ) (x y : ℤ) : W × ℕ :=
  let s := spreadFireIgnite ρ w c x y (x+1) y
  let s := spreadFireIgnite ρ s.1 s.2 x y (x-1) y
  let s := spreadFireIgnite ρ s.1 s.2 x y x (y+1)
  spreadFireIgnite ρ s.1 s.2 x y x (y-1)

/-- The signed offsets `-radius, …, radius` of the explosion loops. -/
def offsRange (radius : ℕ) : List ℤ :=
  (List.range (2 * radius + 1)).map (fun k : ℕ => (k : ℤ) - radius)

/-- The `(dx, dy)` pairs visited by `triggerExplosion`: `dy` outer loop,
`dx` inner loop. -/
def explosionPairs (radius : ℕ) : List (ℤ × ℤ) :=
  (offsRange radius).flatMap (fun dy => (offsRange radius).map (fun dx => (dx, dy)))

/-- One cell of the material-destruction loop of World.js
`triggerExplosion` (lines 154–177): inside the disc, the cell
`(⌊x + dx⌋, ⌊y + dy⌋)` is, when in bounds and neither stone nor empty,
converted to fire (p = 0.3), else smoke (p = 0.5), else empty. -/
def explosionStep (ρ : Rnd) (x y : ℚ) (r2 : ℤ) (s : W × ℕ) (d : ℤ × ℤ) : W × ℕ :=
  if d.1 * d.1 + d.2 * d.2 ≤ r2 then
    let px : ℤ := ⌊x + (d.1 : ℚ)⌋
    let py : ℤ := ⌊y + (d.2 : ℚ)⌋
    if inBounds s.1 px py then
      let mat := getAt s.1 px py
      if mat ≠ stoneId ∧ mat ≠ emptyId then
        if ρ s.2 < 0.3 then (setAt s.1 px py fireId, s.2 + 1)
        else if ρ (s.2 + 1) < 0.5 then (setAt s.1 px py smokeId, s.2 + 2)
        else (setAt s.1 px py emptyId, s.2 + 2)
      else s
    else s
  else s

/-- The grid-mutation part of World.js `triggerExplosion(x, y, radius, power)`
(the visual explosion record and the actor impulse/damage loop touch no
grid cells; the actor scalar logic is modelled separately below). -/
def explosionGrid (ρ : Rnd) (w : W) (c : ℕ) (x y : ℚ) (radius : ℕ) : W × ℕ :=
  (explosionPairs radius).foldl (explosionStep ρ x y ((radius : ℤ) * radius)) (w, c)

/-- The integer coordinates `a, a+1, …, b` (empty when `b < a`). -/
def coordRange (a b : ℤ) : List ℤ :=
  (List.range (b + 1 - a).toNat).map (fun k : ℕ => a + (k : ℤ))

/-- The disc test `dx*dx + dy*dy <= r2` of `paintCircle`. -/
def inDisc (cx cy r2 : ℚ) (x y : ℤ) : Prop :=
  ((x : ℚ) - cx) * ((x : ℚ) - cx) + ((y : ℚ) - cy) * ((y : ℚ) - cy) ≤ r2

instance (cx cy r2 : ℚ) (x y : ℤ) : Decidable (inDisc cx cy r2 x y) := by
  unfold inDisc; infer_instance

/-- The body of `paintCircle`'s inner loop: `setAt` when inside the disc. -/
def paintCell (cx cy r2 : ℚ) (m : ℕ) (y : ℤ) (wx : W) (x : ℤ) : W :=
  if inDisc cx cy r2 x y then setAt wx x y m else wx

/-- One row of `paintCircle`'s double loop. -/
def paintRow (cx cy r2 : ℚ) (m : ℕ) (minX maxX : ℤ) (wy : W) (y : ℤ) : W :=
  (coordRange minX maxX).foldl (paintCell cx cy r2 m y) wy

/-- World.js `paintCircle(cx, cy, r, id)`: bounds-clamped double loop over
the bounding box, `setAt` on every cell of the closed disc. -/
def paintCircle (w : W) (cx cy r : ℚ) (m : ℕ) : W :=
  let r2 := r * r
  let minX : ℤ := max 0 ⌊cx - r⌋
  let maxX : ℤ := min (w.width - 1) ⌈cx + r⌉
  let minY : ℤ := max 0 ⌊cy - r⌋
  let maxY : ℤ := min (w.height - 1) ⌈cy + r⌉
  (coordRange minY maxY).foldl (paintRow cx cy r2 m minX maxX) w

/-- The observable after-painting state of one cell: it holds the painted
material, and its timer is armed exactly for ember (`setAt`'s timer side
effect). -/
def PaintedAt (w : W) (x y : ℤ) (m : ℕ) : Prop :=
  w.cells (idx w x y) = m ∧
  (if m = emberId then w.timer (idx w x y) ≠ 0 else w.timer (idx w x y) = 0)

/-! ### Ragdoll physics (Person.js)

Positions are real numbers; `Math.hypot` is the euclidean norm. -/

/-- A ragdoll joint (Person.js `class Point`): current position, previous
position, pinned flag. -/
structure Pt where
  x : ℝ
  y : ℝ
  oldX : ℝ
  oldY : ℝ
  pinned : Bool

/-- Person.js `Point.update(gravity, friction)`: Verlet step; pinned
points return unchanged.  The source computes `vx, vy`, saves the old
position, then adds `vx` resp. `vy + gravity`. -/
def pointUpdate (gravity friction : ℝ) (p : Pt) : Pt :=
  if p.pinned then p
  else
    { x := p.x + (p.x - p.oldX) * friction
      y := p.y + (p.y - p.oldY) * friction + gravity
      oldX := p.x
      oldY := p.y
      pinned := p.pinned }

/-- `Math.hypot`. -/
noncomputable def hypot (dx dy : ℝ) : ℝ := Real.sqrt (dx ^ 2 + dy ^ 2)

/-- The named joints of the fixed skeleton built by Person.js
`createPerson`. -/
inductive PtId where
  | head | neck | shoulder_l | shoulder_r | elbow_l | elbow_r
  | hand_l | hand_r | hip | hip_l | hip_r | knee_l | knee_r
  | foot_l | foot_r
deriving DecidableEq

/-- A point assignment for the skeleton. -/
abbrev Config := PtId → Pt

/-- Person.js `Stick.update()`: move the two endpoints (unless pinned) by
`±(dx, dy) · percent` with `percent = (length - dist) / dist / 2`.  The
two endpoints of every skeleton stick are distinct joints, so updating
them one after the other matches the aliasing-free source. -/
noncomputable def stickUpdate (s : PtId × PtId × ℚ) (cfg : Config) : Config :=
  let p1 := cfg s.1
  let p2 := cfg s.2.1
  let dx := p2.x - p1.x
  let dy := p2.y - p1.y
  let dist := hypot dx dy
  let percent := ((s.2.2 : ℝ) - dist) / dist / 2
  let offsetX := dx * percent
  let offsetY := dy * percent
  let q1 := if p1.pinned then p1 else { p1 with x := p1.x - offsetX, y := p1.y - offsetY }
  let q2 := if p2.pinned then p2 else { p2 with x := p2.x + offsetX, y := p2.y + offsetY }
  Function.update (Function.update cfg s.1 q1) s.2.1 q2

/-- The stick list of Person.js `createPerson` in source order; every rest
length in the source is an explicit integer literal. -/
def personSticks : List (PtId × PtId × ℚ) :=
  [(.head, .neck, 5), (.neck, .hip, 6),
   (.neck, .shoulder_l, 2), (.neck, .shoulder_r, 2), (.shoulder_l, .shoulder_r, 4),
   (.shoulder_l, .hip, 7), (.shoulder_r, .hip, 7),
   (.shoulder_l, .hip_r, 8), (.shoulder_r, .hip_l, 8),
   (.shoulder_l, .elbow_l, 3), (.shoulder_r, .elbow_r, 3),
   (.elbow_l, .hand_l, 3), (.elbow_r, .hand_r, 3),
   (.hip, .hip_l, 1), (.hip, .hip_r, 1), (.hip_l, .hip_r, 2),
   (.hip_l, .knee_l, 4), (.hip_r, .knee_r, 4),
   (.knee_l, .foot_l, 4), (.knee_r, .foot_r, 4),
   (.hip_l, .knee_r, 5), (.hip_r, .knee_l, 5)]

/-- One constraint-relaxation pass: `for (const stick of person.sticks)
stick.update()`. -/
noncomputable def stickPass (cfg : Config) : Config :=
  personSticks.foldl (fun c s => stickUpdate s c) cfg

/-- The Verlet update of all points (`for (const pt of person.pointsArray)
pt.update(gravity, friction)`; the per-point updates are independent). -/
def updatePoints (g f : ℝ) (cfg : Config) : Config :=
  fun i => pointUpdate g f (cfg i)

/-- Person.js `updateRagdollPhysics`: point updates followed by the
`for (let i = 0; i < 8; i++)` loop of constraint passes. -/
noncomputable def updateRagdollPhysics (g f : ℝ) (cfg : Config) : Config :=
  (List.range 8).foldl (fun c _ => stickPass c) (updatePoints g f cfg)

/-- The constraint error of one stick: `|distance(p1, p2) - restLength|`. -/
noncomputable def stickErr (s : PtId × PtId × ℚ) (cfg : Config) : ℝ :=
  |hypot ((cfg s.2.1).x - (cfg s.1).x) ((cfg s.2.1).y - (cfg s.1).y) - (s.2.2 : ℝ)|

/-- Total constraint error of the skeleton. -/
noncomputable def totalErr (cfg : Config) : ℝ :=
  (personSticks.map (fun s => stickErr s cfg)).sum

/-! A rational shadow of the stick relaxation for collinear configurations
(all joints on the line `y = 0`, nothing pinned): used to evaluate the
real model on concrete inputs, and proved equal to it on lifted
configurations. -/

/-- A collinear configuration: the x-coordinate of each joint. -/
abbrev CfgQ := PtId → ℚ

/-- Shadow of `stickUpdate` on a collinear configuration. -/
def stickUpdateQ (s : PtId × PtId × ℚ) (q : CfgQ) : CfgQ :=
  let x1 := q s.1
  let x2 := q s.2.1
  let dx := x2 - x1
  let percent := (s.2.2 - |dx|) / |dx| / 2
  let off := dx * percent
  Function.update (Function.update q s.1 (x1 - off)) s.2.1 (x2 + off)

/-- Shadow of `stickPass`. -/
def stickPassQ (q : CfgQ) : CfgQ :=
  personSticks.foldl (fun q s => stickUpdateQ s q) q

/-- Shadow of `totalErr`. -/
def totalErrQ (q : CfgQ) : ℚ :=
  (personSticks.map (fun s => |(|q s.2.1 - q s.1|) - s.2.2|)).sum

/-- Lift a collinear configuration to the real model (`y = 0`, previous
positions `0`, nothing pinned). -/
noncomputable def liftQ (q : CfgQ) : Config :=
  fun i => { x := (q i : ℝ), y := 0, oldX := 0, oldY := 0, pinned := false }

/-! ### Actor death / gib bookkeeping (Person.js and the actor loop of
World.js `triggerExplosion`)

The model below is the projection of the actor state onto the scalar
fields that drive the alive→dead transition and skeleton-gib
decomposition (`alive`, `health`, `onFire`/`fireTimer`, and the dynamic
flags `gibsSpawned`, `acidDissolved`, absent at spawn and hence falsy),
plus two instrumentation counters.  Point positions, impulses, limb-detach
flags and blood/gib particle lists do not feed back into these fields
within the modelled code paths; position-derived quantities (the hip
distance to the blast, the per-tick hazard contact counts, water contact)
enter as event parameters. -/

structure P where
  alive : Bool
  health : ℚ
  onFire : Bool
  fireTimer : ℕ
  gibsSpawned : Bool
  acidDissolved : Bool
  deaths : ℕ
  gibEvents : ℕ

/-- Person.js `createPerson` scalar state. -/
def spawnP : P :=
  { alive := true, health := 100, onFire := false, fireTimer := 0,
    gibsSpawned := false, acidDissolved := false, deaths := 0, gibEvents := 0 }

/-- The fire-timer decay at the top of a live `updatePerson` tick. -/
def fireTickP (p : P) : P :=
  if 0 < p.fireTimer then
    (if p.fireTimer - 1 = 0 then { p with fireTimer := 0, onFire := false }
     else { p with fireTimer := p.fireTimer - 1 })
  else p

/-- `checkEnvironment` hazard contact damage (`a` fire, `b` lava, `c`
ember contacts) — damage scaled by 0.1 and the actor set on fire. -/
def hazardP (a b c : ℕ) (p : P) : P :=
  let totalDamage : ℚ := 0.8 * a + 2.0 * b + 0.4 * c
  if 0 < totalDamage then
    { p with health := p.health - totalDamage * 0.1,
             fireTimer := if p.onFire then p.fireTimer else 180,
             onFire := true }
  else p

/-- `checkEnvironment` burn damage while on fire. -/
def burnP (p : P) : P :=
  if p.onFire then { p with health := p.health - 0.1 } else p

/-- `checkEnvironment` water contact: extinguish and slowly heal. -/
def waterP (touchWater : Bool) (p : P) : P :=
  if touchWater then
    { p with onFire := false, fireTimer := 0,
             health := if p.health < 100 then min 100 (p.health + 0.03) else p.health }
  else p

/-- The death check at the end of a live `updatePerson` tick. -/
def deathCheckP (p : P) : P :=
  if p.health ≤ 0 then
    { p with alive := false, health := 0, deaths := p.deaths + 1 }
  else p

/-- One `updatePerson` tick restricted to the modelled fields: dead actors
return immediately after ragdoll physics; live actors decay the fire
timer, run `checkEnvironment` (hazard damage from `a` fire, `b` lava and
`c` ember contacts, burn damage, water extinguish/heal), then die once
when health is ≤ 0. -/
def tickPerson (a b c : ℕ) (touchWater : Bool) (p : P) : P :=
  if p.alive = false then p
  else deathCheckP (waterP touchWater (burnP (hazardP a b c (fireTickP p))))

/-- The actor branch of World.js `triggerExplosion` (lines 180–224)
restricted to the modelled fields: within `1.5 · radius`, falloff damage
(with a flat bonus inside `0.3 · radius`); within `0.2 · radius`, the
gibs-guarded kill branch sets health to 0, kills, sets the flag and
decomposes the skeleton into gibs exactly when `gibsSpawned` was clear. -/
def explosionHitPerson (dist radius : ℚ) (p : P) : P :=
  if dist < radius * 1.5 then
    let forceMult := max 0 (1 - dist / (radius * 1.5))
    let damage := 50 * forceMult + (if dist < radius * 0.3 then 50 else 0)
    let p := { p with health := p.health - damage }
    if dist < radius * 0.2 ∧ p.gibsSpawned = false then
      { p with health := 0, alive := false, gibsSpawned := true,
               deaths := p.deaths + (if p.alive then 1 else 0),
               gibEvents := p.gibEvents + 1 }
    else p
  else p

/-- One acid contact of World.js `acidReactions` (lines 882–934) restricted
to the modelled fields: dead actors are skipped; a touching body part takes
0.02 damage, and death by acid dissolves the actor once (guarded by both
`acidDissolved` and `gibsSpawned`) with a skeleton-gib decomposition. -/
def acidTouchPerson (p : P) : P :=
  if p.alive = false then p
  else
    let p := { p with health := p.health - 0.02 }
    if p.health ≤ 0 ∧ p.acidDissolved = false ∧ p.gibsSpawned = false then
      { p with acidDissolved := true, alive := false, gibsSpawned := true,
               deaths := p.deaths + 1, gibEvents := p.gibEvents + 1 }
    else p

/-- The events that can touch the modelled actor fields. -/
inductive Ev where
  | tick (a b c : ℕ) (touchWater : Bool)
  | boom (dist radius : ℚ)
  | acid

/-- Apply one event. -/
def applyEv (p : P) : Ev → P
  | .tick a b c tw => tickPerson a b c tw p
  | .boom dist radius => explosionHitPerson dist radius p
  | .acid => acidTouchPerson p

/-- Run an actor through a sequence of ticks, explosions and acid
contacts. -/
def runEvents (p : P) (l : List Ev) : P := l.foldl applyEv p

/-! ### Concrete fixtures for witnesses and counterexamples -/

/-- A fresh world of the given dimensions whose first cells are listed
(remaining cells empty, all timers and masks clear). -/
def mkW (width height : ℤ) (l : List ℕ) : W :=
  { width := width, height := height, cells := fun i => l.getD i emptyId,
    timer := fun _ => 0, updated := fun _ => false,
    writes := fun _ => 0, dispatches := fun _ => 0 }

/-- A random stream that always draws 0. -/
def rho0 : Rnd := fun _ => 0

/-- 5 × 1 world `[empty, stone, water, stone, water]`. -/
def wC1 : W := mkW 5 1 [emptyId, stoneId, waterId, stoneId, waterId]

/-- 5 × 1 world with sand in the leftmost cell. -/
def wC2 : W := mkW 5 1 [sandId]

/-- 4 × 1 world `[empty, fire, water, empty]`. -/
def wC6 : W := mkW 4 1 [emptyId, fireId, waterId, emptyId]

/-- An empty 4 × 4 world. -/
def wDemo : W := mkW 4 4 []

/-- 3 × 1 world `[water, empty, empty]`. -/
def wC7 : W := mkW 3 1 [waterId, emptyId]

/-- The state of `wC1` after the movement pass has processed columns 0
and 1 (empty and stone: both just dispatched and marked processed). -/
def wC1b : W :=
  markUpdated (bumpDispatch (markUpdated (bumpDispatch
    { wC1 with updated := fun _ => false } 0) 0) 1) 1

/-- … after the water at column 2 has spread left into column 0. -/
def wC1c : W := swap (bumpDispatch wC1b 2) 2 0 0 0

/-- … after the stone at column 3 is dispatched and marked processed. -/
def wC1d : W := markUpdated (bumpDispatch wC1c 3) 3

/-- … after the water at column 4 has spread left into the cell at
column 2 vacated earlier in the same pass. -/
def wC1e : W := swap (bumpDispatch wC1d 4) 4 0 2 0

/-- A concrete unpinned joint for witnesses. -/
noncomputable def p8 : Pt := { x := 2, y := 3, oldX := 1, oldY := 1, pinned := false }

/-- A concrete skeleton configuration: the head at the origin, every other
joint at `(3, 4)`, nothing pinned. -/
noncomputable def cfg8 : Config :=
  fun i => if i = PtId.head then { x := 0, y := 0, oldX := 0, oldY := 0, pinned := false }
           else { x := 3, y := 4, oldX := 0, oldY := 0, pinned := false }

/-- The head–neck stick (rest length 5) of the skeleton. -/
def s8 : PtId × PtId × ℚ := (.head, .neck, 5)

/-- Stages of the C9 counterexample run: `c9s0` is the initial collinear
perturbation, `c9s(k)` the configuration after the `k`-th stick update of
two relaxation passes (22 updates per pass). -/

def c9s0 : CfgQ := fun i => match i with
  | .head => 31/2
  | .neck => -19
  | .shoulder_l => 24
  | .shoulder_r => -13
  | .elbow_l => 8
  | .elbow_r => -27/2
  | .hand_l => 35
  | .hand_r => -17
  | .hip => -15
  | .hip_l => -12
  | .hip_r => -23
  | .knee_l => -30
  | .knee_r => -31
  | .foot_l => -7
  | .foot_r => -28

def c9s1 : CfgQ := fun i => match i with
  | .head => 3/4
  | .neck => -17/4
  | .shoulder_l => 24
  | .shoulder_r => -13
  | .elbow_l => 8
  | .elbow_r => -27/2
  | .hand_l => 35
  | .hand_r => -17
  | .hip => -15
  | .hip_l => -12
  | .hip_r => -23
  | .knee_l => -30
  | .knee_r => -31
  | .foot_l => -7
  | .foot_r => -28

def c9s2 : CfgQ := fun i => match i with
  | .head => 3/4
  | .neck => -53/8
  | .shoulder_l => 24
  | .shoulder_r => -13
  | .elbow_l => 8
  | .elbow_r => -27/2
  | .hand_l => 35
  | .hand_r => -17
  | .hip => -101/8
  | .hip_l => -12
  | .hip_r => -23
  | .knee_l => -30
  | .knee_r => -31
  | .foot_l => -7
  | .foot_r => -28

def c9s3 : CfgQ := fun i => match i with
  | .head => 3/4
  | .neck => 123/16
  | .shoulder_l => 155/16
  | .shoulder_r => -13
  | .elbow_l => 8
  | .elbow_r => -27/2
  | .hand_l => 35
  | .hand_r => -17
  | .hip => -101/8
  | .hip_l => -12
  | .hip_r => -23
  | .knee_l => -30
  | .knee_r => -31
  | .foot_l => -7
  | .foot_r => -28

def c9s4 : CfgQ := fun i => match i with
  | .head => 3/4
  | .neck => -53/32
  | .shoulder_l => 155/16
  | .shoulder_r => -117/32
  | .elbow_l => 8
  | .elbow_r => -27/2
  | .hand_l => 35
  | .hand_r => -17
  | .hip => -101/8
  | .hip_l => -12
  | .hip_r => -23
  | .knee_l => -30
  | .knee_r => -31
  | .foot_l => -7
  | .foot_r => -28

def c9s5 : CfgQ := fun i => match i with
  | .head => 3/4
  | .neck => -53/32
  | .shoulder_l => 321/64
  | .shoulder_r => 65/64
  | .elbow_l => 8
  | .elbow_r => -27/2
  | .hand_l => 35
  | .hand_r => -17
  | .hip => -101/8
  | .hip_l => -12
  | .hip_r => -23
  | .knee_l => -30
  | .knee_r => -31
  | .foot_l => -7
  | .foot_r => -28

def c9s6 : CfgQ := fun i => match i with
  | .head => 3/4
  | .neck => -53/32
  | .shoulder_l => -39/128
  | .shoulder_r => 65/64
  | .elbow_l => 8
  | .elbow_r => -27/2
  | .hand_l => 35
  | .hand_r => -17
  | .hip => -935/128
  | .hip_l => -12
  | .hip_r => -23
  | .knee_l => -30
  | .knee_r => -31
  | .foot_l => -7
  | .foot_r => -28

def c9s7 : CfgQ := fun i => match i with
  | .head => 3/4
  | .neck => -53/32
  | .shoulder_l => -39/128
  | .shoulder_r => 91/256
  | .elbow_l => 8
  | .elbow_r => -27/2
  | .hand_l => 35
  | .hand_r => -17
  | .hip => -1701/256
  | .hip_l => -12
  | .hip_r => -23
  | .knee_l => -30
  | .knee_r => -31
  | .foot_l => -7
  | .foot_r => -28

def c9s8 : CfgQ := fun i => match i with
  | .head => 3/4
  | .neck => -53/32
  | .shoulder_l => -1959/256
  | .shoulder_r => 91/256
  | .elbow_l => 8
  | .elbow_r => -27/2
  | .hand_l => 35
  | .hand_r => -17
  | .hip => -1701/256
  | .hip_l => -12
  | .hip_r => -4007/256
  | .knee_l => -30
  | .knee_r => -31
  | .foot_l => -7
  | .foot_r => -28

def c9s9 : CfgQ := fun i => match i with
  | .head => 3/4
  | .neck => -53/32
  | .shoulder_l => -1959/256
  | .shoulder_r => -933/512
  | .elbow_l => 8
  | .elbow_r => -27/2
  | .hand_l => 35
  | .hand_r => -17
  | .hip => -1701/256
  | .hip_l => -5029/512
  | .hip_r => -4007/256
  | .knee_l => -30
  | .knee_r => -31
  | .foot_l => -7
  | .foot_r => -28

def c9s10 : CfgQ := fun i => match i with
  | .head => 3/4
  | .neck => -53/32
  | .shoulder_l => -679/512
  | .shoulder_r => -933/512
  | .elbow_l => 857/512
  | .elbow_r => -27/2
  | .hand_l => 35
  | .hand_r => -17
  | .hip => -1701/256
  | .hip_l => -5029/512
  | .hip_r => -4007/256
  | .knee_l => -30
  | .knee_r => -31
  | .foot_l => -7
  | .foot_r => -28

def c9s11 : CfgQ := fun i => match i with
  | .head => 3/4
  | .neck => -53/32
  | .shoulder_l => -679/512
  | .shoulder_r => -6309/1024
  | .elbow_l => 857/512
  | .elbow_r => -9381/1024
  | .hand_l => 35
  | .hand_r => -17
  | .hip => -1701/256
  | .hip_l => -5029/512
  | .hip_r => -4007/256
  | .knee_l => -30
  | .knee_r => -31
  | .foot_l => -7
  | .foot_r => -28

def c9s12 : CfgQ := fun i => match i with
  | .head => 3/4
  | .neck => -53/32
  | .shoulder_l => -679/512
  | .shoulder_r => -6309/1024
  | .elbow_l => 17241/1024
  | .elbow_r => -9381/1024
  | .hand_l => 20313/1024
  | .hand_r => -17
  | .hip => -1701/256
  | .hip_l => -5029/512
  | .hip_r => -4007/256
  | .knee_l => -30
  | .knee_r => -31
  | .foot_l => -7
  | .foot_r => -28

def c9s13 : CfgQ := fun i => match i with
  | .head => 3/4
  | .neck => -53/32
  | .shoulder_l => -679/512
  | .shoulder_r => -6309/1024
  | .elbow_l => 17241/1024
  | .elbow_r => -23717/2048
  | .hand_l => 20313/1024
  | .hand_r => -29861/2048
  | .hip => -1701/256
  | .hip_l => -5029/512
  | .hip_r => -4007/256
  | .knee_l => -30
  | .knee_r => -31
  | .foot_l => -7
  | .foot_r => -28

def c9s14 : CfgQ := fun i => match i with
  | .head => 3/4
  | .neck => -53/32
  | .shoulder_l => -679/512
  | .shoulder_r => -6309/1024
  | .elbow_l => 17241/1024
  | .elbow_r => -23717/2048
  | .hand_l => 20313/1024
  | .hand_r => -29861/2048
  | .hip => -7919/1024
  | .hip_l => -8943/1024
  | .hip_r => -4007/256
  | .knee_l => -30
  | .knee_r => -31
  | .foot_l => -7
  | .foot_r => -28

def c9s15 : CfgQ := fun i => match i with
  | .head => 3/4
  | .neck => -53/32
  | .shoulder_l => -679/512
  | .shoulder_r => -6309/1024
  | .elbow_l => 17241/1024
  | .elbow_r => -23717/2048
  | .hand_l => 20313/1024
  | .hand_r => -29861/2048
  | .hip => -22923/2048
  | .hip_l => -8943/1024
  | .hip_r => -24971/2048
  | .knee_l => -30
  | .knee_r => -31
  | .foot_l => -7
  | .foot_r => -28

def c9s16 : CfgQ := fun i => match i with
  | .head => 3/4
  | .neck => -53/32
  | .shoulder_l => -679/512
  | .shoulder_r => -6309/1024
  | .elbow_l => 17241/1024
  | .elbow_r => -23717/2048
  | .hand_l => 20313/1024
  | .hand_r => -29861/2048
  | .hip => -22923/2048
  | .hip_l => -38761/4096
  | .hip_r => -46953/4096
  | .knee_l => -30
  | .knee_r => -31
  | .foot_l => -7
  | .foot_r => -28

def c9s17 : CfgQ := fun i => match i with
  | .head => 3/4
  | .neck => -53/32
  | .shoulder_l => -679/512
  | .shoulder_r => -6309/1024
  | .elbow_l => 17241/1024
  | .elbow_r => -23717/2048
  | .hand_l => 20313/1024
  | .hand_r => -29861/2048
  | .hip => -22923/2048
  | .hip_l => -145257/8192
  | .hip_r => -46953/4096
  | .knee_l => -178025/8192
  | .knee_r => -31
  | .foot_l => -7
  | .foot_r => -28

def c9s18 : CfgQ := fun i => match i with
  | .head => 3/4
  | .neck => -53/32
  | .shoulder_l => -679/512
  | .shoulder_r => -6309/1024
  | .elbow_l => 17241/1024
  | .elbow_r => -23717/2048
  | .hand_l => 20313/1024
  | .hand_r => -29861/2048
  | .hip => -22923/2048
  | .hip_l => -145257/8192
  | .hip_r => -157545/8192
  | .knee_l => -178025/8192
  | .knee_r => -190313/8192
  | .foot_l => -7
  | .foot_r => -28

def c9s19 : CfgQ := fun i => match i with
  | .head => 3/4
  | .neck => -53/32
  | .shoulder_l => -679/512
  | .shoulder_r => -6309/1024
  | .elbow_l => 17241/1024
  | .elbow_r => -23717/2048
  | .hand_l => 20313/1024
  | .hand_r => -29861/2048
  | .hip => -22923/2048
  | .hip_l => -145257/8192
  | .hip_r => -157545/8192
  | .knee_l => -268137/16384
  | .knee_r => -190313/8192
  | .foot_l => -202601/16384
  | .foot_r => -28

def c9s20 : CfgQ := fun i => match i with
  | .head => 3/4
  | .neck => -53/32
  | .shoulder_l => -679/512
  | .shoulder_r => -6309/1024
  | .elbow_l => 17241/1024
  | .elbow_r => -23717/2048
  | .hand_l => 20313/1024
  | .hand_r => -29861/2048
  | .hip => -22923/2048
  | .hip_l => -145257/8192
  | .hip_r => -157545/8192
  | .knee_l => -268137/16384
  | .knee_r => -386921/16384
  | .foot_l => -202601/16384
  | .foot_r => -452457/16384

def c9s21 : CfgQ := fun i => match i with
  | .head => 3/4
  | .neck => -53/32
  | .shoulder_l => -679/512
  | .shoulder_r => -6309/1024
  | .elbow_l => 17241/1024
  | .elbow_r => -23717/2048
  | .hand_l => 20313/1024
  | .hand_r => -29861/2048
  | .hip => -22923/2048
  | .hip_l => -595515/32768
  | .hip_r => -157545/8192
  | .knee_l => -268137/16384
  | .knee_r => -759355/32768
  | .foot_l => -202601/16384
  | .foot_r => -452457/16384

def c9s22 : CfgQ := fun i => match i with
  | .head => 3/4
  | .neck => -53/32
  | .shoulder_l => -679/512
  | .shoulder_r => -6309/1024
  | .elbow_l => 17241/1024
  | .elbow_r => -23717/2048
  | .hand_l => 20313/1024
  | .hand_r => -29861/2048
  | .hip => -22923/2048
  | .hip_l => -595515/32768
  | .hip_r => -665147/32768
  | .knee_l => -501307/32768
  | .knee_r => -759355/32768
  | .foot_l => -202601/16384
  | .foot_r => -452457/16384

def c9s23 : CfgQ := fun i => match i with
  | .head => 131/64
  | .neck => -189/64
  | .shoulder_l => -679/512
  | .shoulder_r => -6309/1024
  | .elbow_l => 17241/1024
  | .elbow_r => -23717/2048
  | .hand_l => 20313/1024
  | .hand_r => -29861/2048
  | .hip => -22923/2048
  | .hip_l => -595515/32768
  | .hip_r => -665147/32768
  | .knee_l => -501307/32768
  | .knee_r => -759355/32768
  | .foot_l => -202601/16384
  | .foot_r => -452457/16384

def c9s24 : CfgQ := fun i => match i with
  | .head => 131/64
  | .neck => -16683/4096
  | .shoulder_l => -679/512
  | .shoulder_r => -6309/1024
  | .elbow_l => 17241/1024
  | .elbow_r => -23717/2048
  | .hand_l => 20313/1024
  | .hand_r => -29861/2048
  | .hip => -41259/4096
  | .hip_l => -595515/32768
  | .hip_r => -665147/32768
  | .knee_l => -501307/32768
  | .knee_r => -759355/32768
  | .foot_l => -202601/16384
  | .foot_r => -452457/16384

def c9s25 : CfgQ := fun i => match i with
  | .head => 131/64
  | .neck => -30307/8192
  | .shoulder_l => -13923/8192
  | .shoulder_r => -6309/1024
  | .elbow_l => 17241/1024
  | .elbow_r => -23717/2048
  | .hand_l => 20313/1024
  | .hand_r => -29861/2048
  | .hip => -41259/4096
  | .hip_l => -595515/32768
  | .hip_r => -665147/32768
  | .knee_l => -501307/32768
  | .knee_r => -759355/32768
  | .foot_l => -202601/16384
  | .foot_r => -452457/16384

def c9s26 : CfgQ := fun i => match i with
  | .head => 131/64
  | .neck => -64395/16384
  | .shoulder_l => -13923/8192
  | .shoulder_r => -97163/16384
  | .elbow_l => 17241/1024
  | .elbow_r => -23717/2048
  | .hand_l => 20313/1024
  | .hand_r => -29861/2048
  | .hip => -41259/4096
  | .hip_l => -595515/32768
  | .hip_r => -665147/32768
  | .knee_l => -501307/32768
  | .knee_r => -759355/32768
  | .foot_l => -202601/16384
  | .foot_r => -452457/16384

def c9s27 : CfgQ := fun i => match i with
  | .head => 131/64
  | .neck => -64395/16384
  | .shoulder_l => -59473/32768
  | .shoulder_r => -190545/32768
  | .elbow_l => 17241/1024
  | .elbow_r => -23717/2048
  | .hand_l => 20313/1024
  | .hand_r => -29861/2048
  | .hip => -41259/4096
  | .hip_l => -595515/32768
  | .hip_r => -665147/32768
  | .knee_l => -501307/32768
  | .knee_r => -759355/32768
  | .foot_l => -202601/16384
  | .foot_r => -452457/16384

def c9s28 : CfgQ := fun i => match i with
  | .head => 131/64
  | .neck => -64395/16384
  | .shoulder_l => -160169/65536
  | .shoulder_r => -190545/32768
  | .elbow_l => 17241/1024
  | .elbow_r => -23717/2048
  | .hand_l => 20313/1024
  | .hand_r => -29861/2048
  | .hip => -618921/65536
  | .hip_l => -595515/32768
  | .hip_r => -665147/32768
  | .knee_l => -501307/32768
  | .knee_r => -759355/32768
  | .foot_l => -202601/16384
  | .foot_r => -452457/16384

def c9s29 : CfgQ := fun i => match i with
  | .head => 131/64
  | .neck => -64395/16384
  | .shoulder_l => -160169/65536
  | .shoulder_r => -541259/131072
  | .elbow_l => 17241/1024
  | .elbow_r => -23717/2048
  | .hand_l => 20313/1024
  | .hand_r => -29861/2048
  | .hip => -1458763/131072
  | .hip_l => -595515/32768
  | .hip_r => -665147/32768
  | .knee_l => -501307/32768
  | .knee_r => -759355/32768
  | .foot_l => -202601/16384
  | .foot_r => -452457/16384

def c9s30 : CfgQ := fun i => match i with
  | .head => 131/64
  | .neck => -64395/16384
  | .shoulder_l => -966175/131072
  | .shoulder_r => -541259/131072
  | .elbow_l => 17241/1024
  | .elbow_r => -23717/2048
  | .hand_l => 20313/1024
  | .hand_r => -29861/2048
  | .hip => -1458763/131072
  | .hip_l => -595515/32768
  | .hip_r => -2014751/131072
  | .knee_l => -501307/32768
  | .knee_r => -759355/32768
  | .foot_l => -202601/16384
  | .foot_r => -452457/16384

def c9s31 : CfgQ := fun i => match i with
  | .head => 131/64
  | .neck => -64395/16384
  | .shoulder_l => -966175/131072
  | .shoulder_r => -1874743/262144
  | .elbow_l => 17241/1024
  | .elbow_r => -23717/2048
  | .hand_l => 20313/1024
  | .hand_r => -29861/2048
  | .hip => -1458763/131072
  | .hip_l => -3971895/262144
  | .hip_r => -2014751/131072
  | .knee_l => -501307/32768
  | .knee_r => -759355/32768
  | .foot_l => -202601/16384
  | .foot_r => -452457/16384

def c9s32 : CfgQ := fun i => match i with
  | .head => 131/64
  | .neck => -64395/16384
  | .shoulder_l => 847457/262144
  | .shoulder_r => -1874743/262144
  | .elbow_l => 1633889/262144
  | .elbow_r => -23717/2048
  | .hand_l => 20313/1024
  | .hand_r => -29861/2048
  | .hip => -1458763/131072
  | .hip_l => -3971895/262144
  | .hip_r => -2014751/131072
  | .knee_l => -501307/32768
  | .knee_r => -759355/32768
  | .foot_l => -202601/16384
  | .foot_r => -452457/16384

def c9s33 : CfgQ := fun i => match i with
  | .head => 131/64
  | .neck => -64395/16384
  | .shoulder_l => 847457/262144
  | .shoulder_r => -4124087/524288
  | .elbow_l => 1633889/262144
  | .elbow_r => -5696951/524288
  | .hand_l => 20313/1024
  | .hand_r => -29861/2048
  | .hip => -1458763/131072
  | .hip_l => -3971895/262144
  | .hip_r => -2014751/131072
  | .knee_l => -501307/32768
  | .knee_r => -759355/32768
  | .foot_l => -202601/16384
  | .foot_r => -452457/16384

def c9s34 : CfgQ := fun i => match i with
  | .head => 131/64
  | .neck => -64395/16384
  | .shoulder_l => 847457/262144
  | .shoulder_r => -4124087/524288
  | .elbow_l => 6047585/524288
  | .elbow_r => -5696951/524288
  | .hand_l => 7620449/524288
  | .hand_r => -29861/2048
  | .hip => -1458763/131072
  | .hip_l => -3971895/262144
  | .hip_r => -2014751/131072
  | .knee_l => -501307/32768
  | .knee_r => -759355/32768
  | .foot_l => -202601/16384
  | .foot_r => -452457/16384

def c9s35 : CfgQ := fun i => match i with
  | .head => 131/64
  | .neck => -64395/16384
  | .shoulder_l => 847457/262144
  | .shoulder_r => -4124087/524288
  | .elbow_l => 6047585/524288
  | .elbow_r => -11768503/1048576
  | .hand_l => 7620449/524288
  | .hand_r => -14914231/1048576
  | .hip => -1458763/131072
  | .hip_l => -3971895/262144
  | .hip_r => -2014751/131072
  | .knee_l => -501307/32768
  | .knee_r => -759355/32768
  | .foot_l => -202601/16384
  | .foot_r => -452457/16384

def c9s36 : CfgQ := fun i => match i with
  | .head => 131/64
  | .neck => -64395/16384
  | .shoulder_l => 847457/262144
  | .shoulder_r => -4124087/524288
  | .elbow_l => 6047585/524288
  | .elbow_r => -11768503/1048576
  | .hand_l => 7620449/524288
  | .hand_r => -14914231/1048576
  | .hip => -6627277/524288
  | .hip_l => -7151565/524288
  | .hip_r => -2014751/131072
  | .knee_l => -501307/32768
  | .knee_r => -759355/32768
  | .foot_l => -202601/16384
  | .foot_r => -452457/16384

def c9s37 : CfgQ := fun i => match i with
  | .head => 131/64
  | .neck => -64395/16384
  | .shoulder_l => 847457/262144
  | .shoulder_r => -4124087/524288
  | .elbow_l => 6047585/524288
  | .elbow_r => -11768503/1048576
  | .hand_l => 7620449/524288
  | .hand_r => -14914231/1048576
  | .hip => -14161993/1048576
  | .hip_l => -7151565/524288
  | .hip_r => -15210569/1048576
  | .knee_l => -501307/32768
  | .knee_r => -759355/32768
  | .foot_l => -202601/16384
  | .foot_r => -452457/16384

def c9s38 : CfgQ := fun i => match i with
  | .head => 131/64
  | .neck => -64395/16384
  | .shoulder_l => 847457/262144
  | .shoulder_r => -4124087/524288
  | .elbow_l => 6047585/524288
  | .elbow_r => -11768503/1048576
  | .hand_l => 7620449/524288
  | .hand_r => -14914231/1048576
  | .hip => -14161993/1048576
  | .hip_l => -27416547/2097152
  | .hip_r => -31610851/2097152
  | .knee_l => -501307/32768
  | .knee_r => -759355/32768
  | .foot_l => -202601/16384
  | .foot_r => -452457/16384

def c9s39 : CfgQ := fun i => match i with
  | .head => 131/64
  | .neck => -64395/16384
  | .shoulder_l => 847457/262144
  | .shoulder_r => -4124087/524288
  | .elbow_l => 6047585/524288
  | .elbow_r => -11768503/1048576
  | .hand_l => 7620449/524288
  | .hand_r => -14914231/1048576
  | .hip => -14161993/1048576
  | .hip_l => -51111587/4194304
  | .hip_r => -31610851/2097152
  | .knee_l => -67888803/4194304
  | .knee_r => -759355/32768
  | .foot_l => -202601/16384
  | .foot_r => -452457/16384

def c9s40 : CfgQ := fun i => match i with
  | .head => 131/64
  | .neck => -64395/16384
  | .shoulder_l => 847457/262144
  | .shoulder_r => -4124087/524288
  | .elbow_l => 6047585/524288
  | .elbow_r => -11768503/1048576
  | .hand_l => 7620449/524288
  | .hand_r => -14914231/1048576
  | .hip => -14161993/1048576
  | .hip_l => -51111587/4194304
  | .hip_r => -71820963/4194304
  | .knee_l => -67888803/4194304
  | .knee_r => -88598179/4194304
  | .foot_l => -202601/16384
  | .foot_r => -452457/16384

def c9s41 : CfgQ := fun i => match i with
  | .head => 131/64
  | .neck => -64395/16384
  | .shoulder_l => 847457/262144
  | .shoulder_r => -4124087/524288
  | .elbow_l => 6047585/524288
  | .elbow_r => -11768503/1048576
  | .hand_l => 7620449/524288
  | .hand_r => -14914231/1048576
  | .hip => -14161993/1048576
  | .hip_l => -51111587/4194304
  | .hip_r => -71820963/4194304
  | .knee_l => -136531875/8388608
  | .knee_r => -88598179/4194304
  | .foot_l => -102977443/8388608
  | .foot_r => -452457/16384

def c9s42 : CfgQ := fun i => match i with
  | .head => 131/64
  | .neck => -64395/16384
  | .shoulder_l => 847457/262144
  | .shoulder_r => -4124087/524288
  | .elbow_l => 6047585/524288
  | .elbow_r => -11768503/1048576
  | .hand_l => 7620449/524288
  | .hand_r => -14914231/1048576
  | .hip => -14161993/1048576
  | .hip_l => -51111587/4194304
  | .hip_r => -71820963/4194304
  | .knee_l => -136531875/8388608
  | .knee_r => -187649955/8388608
  | .foot_l => -102977443/8388608
  | .foot_r => -221204387/8388608

def c9s43 : CfgQ := fun i => match i with
  | .head => 131/64
  | .neck => -64395/16384
  | .shoulder_l => 847457/262144
  | .shoulder_r => -4124087/524288
  | .elbow_l => 6047585/524288
  | .elbow_r => -11768503/1048576
  | .hand_l => 7620449/524288
  | .hand_r => -14914231/1048576
  | .hip => -14161993/1048576
  | .hip_l => -247930089/16777216
  | .hip_r => -71820963/4194304
  | .knee_l => -136531875/8388608
  | .knee_r => -331816169/16777216
  | .foot_l => -102977443/8388608
  | .foot_r => -221204387/8388608

def c9s44 : CfgQ := fun i => match i with
  | .head => 131/64
  | .neck => -64395/16384
  | .shoulder_l => 847457/262144
  | .shoulder_r => -4124087/524288
  | .elbow_l => 6047585/524288
  | .elbow_r => -11768503/1048576
  | .hand_l => 7620449/524288
  | .hand_r => -14914231/1048576
  | .hip => -14161993/1048576
  | .hip_l => -247930089/16777216
  | .hip_r => -322116841/16777216
  | .knee_l => -238230761/16777216
  | .knee_r => -331816169/16777216
  | .foot_l => -102977443/8388608
  | .foot_r => -221204387/8388608

/-! ## Theorems -/

theorem width_setAt (w : W) (x y : ℤ) (m : ℕ) : (setAt w x y m).width = w.width := by
  unfold setAt; split <;> rfl

theorem height_setAt (w : W) (x y : ℤ) (m : ℕ) : (setAt w x y m).height = w.height := by
  unfold setAt; split <;> rfl

theorem dispatches_setAt (w : W) (x y : ℤ) (m : ℕ) :
    (setAt w x y m).dispatches = w.dispatches := by
  unfold setAt; split <;> rfl

theorem updated_setAt (w : W) (x y : ℤ) (m : ℕ) : (setAt w x y m).updated = w.updated := by
  unfold setAt; split <;> rfl

theorem width_setEmber (w : W) (x y : ℤ) : (setEmber w x y).width = w.width := by
  unfold setEmber; split <;> rfl

theorem height_setEmber (w : W) (x y : ℤ) : (setEmber w x y).height = w.height := by
  unfold setEmber; split <;> rfl

theorem dispatches_setEmber (w : W) (x y : ℤ) : (setEmber w x y).dispatches = w.dispatches := by
  unfold setEmber; split <;> rfl

theorem width_swap (w : W) (x1 y1 x2 y2 : ℤ) : (swap w x1 y1 x2 y2).width = w.width := rfl

theorem height_swap (w : W) (x1 y1 x2 y2 : ℤ) : (swap w x1 y1 x2 y2).height = w.height := rfl

theorem dispatches_swap (w : W) (x1 y1 x2 y2 : ℤ) :
    (swap w x1 y1 x2 y2).dispatches = w.dispatches := rfl

theorem inBounds_setAt (w : W) (a b : ℤ) (m : ℕ) (x y : ℤ) :
    inBounds (setAt w a b m) x y ↔ inBounds w x y := by
  unfold setAt; split <;> exact Iff.rfl

theorem idx_setAt (w : W) (a b : ℤ) (m : ℕ) (x y : ℤ) :
    idx (setAt w a b m) x y = idx w x y := by
  unfold setAt; split <;> rfl

/-- In-bounds coordinates are determined by their cell index. -/
theorem idx_inj (w : W) {x1 y1 x2 y2 : ℤ} (h1 : inBounds w x1 y1) (h2 : inBounds w x2 y2)
    (h : idx w x1 y1 = idx w x2 y2) : x1 = x2 ∧ y1 = y2 := by
  obtain ⟨hx1, hx1w, hy1, hy1h⟩ := h1
  obtain ⟨hx2, hx2w, hy2, hy2h⟩ := h2
  have hW : 0 < w.width := lt_of_le_of_lt hx1 hx1w
  have n1 : 0 ≤ y1 * w.width + x1 := by positivity
  have n2 : 0 ≤ y2 * w.width + x2 := by positivity
  have e : y1 * w.width + x1 = y2 * w.width + x2 := by
    have := congrArg (fun n : ℕ => (n : ℤ)) h
    simpa [idx, Int.toNat_of_nonneg n1, Int.toNat_of_nonneg n2] using this
  have d1 : (y1 * w.width + x1) / w.width = y1 := by
    rw [add_comm, Int.add_mul_ediv_right _ _ (ne_of_gt hW),
      Int.ediv_eq_zero_of_lt hx1 hx1w, zero_add]
  have d2 : (y2 * w.width + x2) / w.width = y2 := by
    rw [add_comm, Int.add_mul_ediv_right _ _ (ne_of_gt hW),
      Int.ediv_eq_zero_of_lt hx2 hx2w, zero_add]
  have hy : y1 = y2 := by rw [← d1, ← d2, e]
  refine ⟨?_, hy⟩
  have : y1 * w.width = y2 * w.width := by rw [hy]
  omega

theorem getAt_setAt_same (w : W) (x y : ℤ) (m : ℕ) (h : inBounds w x y) :
    getAt (setAt w x y m) x y = m := by
  unfold getAt
  rw [if_pos ((inBounds_setAt w x y m x y).2 h), idx_setAt]
  unfold setAt
  rw [if_pos h]
  simp

theorem getAt_setAt_ne (w : W) (x y : ℤ) (m : ℕ) (p q : ℤ) (h : (p, q) ≠ (x, y)) :
    getAt (setAt w x y m) p q = getAt w p q := by
  by_cases hb : inBounds w x y
  · by_cases hp : inBounds w p q
    · have hidx : idx w p q ≠ idx w x y := by
        intro he
        exact h (by
          obtain ⟨e1, e2⟩ := idx_inj w hp hb he
          simp [e1, e2])
      unfold getAt
      rw [if_pos ((inBounds_setAt w x y m p q).2 hp), if_pos hp, idx_setAt]
      unfold setAt
      rw [if_pos hb]
      simp [Function.update_apply, hidx]
    · unfold getAt
      rw [if_neg (fun hc => hp ((inBounds_setAt w x y m p q).1 hc)), if_neg hp]
  · unfold setAt
    rw [if_neg hb]

theorem inBounds_setEmber (w : W) (a b : ℤ) (x y : ℤ) :
    inBounds (setEmber w a b) x y ↔ inBounds w x y := by
  unfold setEmber; split <;> exact Iff.rfl

theorem idx_setEmber (w : W) (a b : ℤ) (x y : ℤ) :
    idx (setEmber w a b) x y = idx w x y := by
  unfold setEmber; split <;> rfl

theorem getAt_setEmber_ne (w : W) (x y : ℤ) (p q : ℤ) (h : (p, q) ≠ (x, y)) :
    getAt (setEmber w x y) p q = getAt w p q := by
  by_cases hb : inBounds w x y
  · by_cases hp : inBounds w p q
    · have hidx : idx w p q ≠ idx w x y := by
        intro he
        exact h (by
          obtain ⟨e1, e2⟩ := idx_inj w hp hb he
          simp [e1, e2])
      unfold getAt
      rw [if_pos ((inBounds_setEmber w x y p q).2 hp), if_pos hp, idx_setEmber]
      unfold setEmber
      rw [if_pos hb]
      simp [Function.update_apply, hidx]
    · unfold getAt
      rw [if_neg (fun hc => hp ((inBounds_setEmber w x y p q).1 hc)), if_neg hp]
  · unfold setEmber
    rw [if_neg hb]

/-- C4 — boundary solidity: out-of-bounds reads return the stone
identifier, and out-of-bounds writes leave the whole grid state (cells and
timers, indeed the entire world record) unchanged. -/
theorem C4_boundary_solidity (w : W) (x y : ℤ) (h : ¬ inBounds w x y) :
    getAt w x y = stoneId ∧ ∀ m : ℕ, setAt w x y m = w := by
  constructor
  · unfold getAt
    rw [if_neg h]
  · intro m
    unfold setAt
    rw [if_neg h]

/-- Witness for C4 at the concrete out-of-bounds coordinate `(-1, 0)` of
the concrete demo world. -/
theorem C4_boundary_solidity_witness :
    getAt wDemo (-1) 0 = stoneId ∧ ∀ m : ℕ, setAt wDemo (-1) 0 m = wDemo :=
  C4_boundary_solidity wDemo (-1) 0 (by decide)

/-- C10 — the swap primitive exchanges the material ids and the per-cell
timers of the two cells, touches no other cell, sets the updated mask on
the destination cell only, and leaves the source cell's mask as it was
(in particular unmasked when it was unmasked). -/
theorem C10_swap_exchanges (w : W) (x1 y1 x2 y2 : ℤ) (h1 : inBounds w x1 y1)
    (h2 : inBounds w x2 y2) (hne : (x1, y1) ≠ (x2, y2)) :
    (swap w x1 y1 x2 y2).cells (idx w x1 y1) = w.cells (idx w x2 y2) ∧
    (swap w x1 y1 x2 y2).cells (idx w x2 y2) = w.cells (idx w x1 y1) ∧
    (swap w x1 y1 x2 y2).timer (idx w x1 y1) = w.timer (idx w x2 y2) ∧
    (swap w x1 y1 x2 y2).timer (idx w x2 y2) = w.timer (idx w x1 y1) ∧
    (∀ j, j ≠ idx w x1 y1 → j ≠ idx w x2 y2 →
      (swap w x1 y1 x2 y2).cells j = w.cells j ∧
      (swap w x1 y1 x2 y2).timer j = w.timer j) ∧
    (swap w x1 y1 x2 y2).updated (idx w x2 y2) = true ∧
    (∀ j, j ≠ idx w x2 y2 → (swap w x1 y1 x2 y2).updated j = w.updated j) := by
  have hidx : idx w x1 y1 ≠ idx w x2 y2 := by
    intro he
    exact hne (by
      obtain ⟨e1, e2⟩ := idx_inj w h1 h2 he
      simp [e1, e2])
  unfold swap
  refine ⟨?_, ?_, ?_, ?_, ?_, ?_, ?_⟩
  · simp [Function.update_apply, hidx]
  · simp [Function.update_apply]
  · simp [Function.update_apply, hidx]
  · simp [Function.update_apply]
  · intro j hj1 hj2
    constructor <;> simp [Function.update_apply, hj1, hj2]
  · simp [Function.update_apply]
  · intro j hj
    simp [Function.update_apply, hj]

/-- The lateral-spread scan finds the first empty offset: on a
strictly-sorted offset list, a hit is a member, its cell is empty, and
every smaller listed offset has a non-empty cell. -/
theorem firstEmptyDx_spec (w : W) (x y s : ℤ) :
    ∀ l : List ℤ, l.Sorted (· < ·) → ∀ d, firstEmptyDx w x y s l = some d →
      d ∈ l ∧ getAt w (x + s * d) y = emptyId ∧
      ∀ d' ∈ l, d' < d → getAt w (x + s * d') y ≠ emptyId := by
  intro l
  induction l with
  | nil => intro _ d hd; simp [firstEmptyDx] at hd
  | cons a t ih =>
    intro hs d hd
    have hcons := List.sorted_cons.1 hs
    unfold firstEmptyDx at hd
    by_cases ha : getAt w (x + s * a) y = emptyId
    · rw [if_pos ha] at hd
      obtain rfl : a = d := by simpa using hd
      refine ⟨List.mem_cons_self _ _, ha, ?_⟩
      intro d' hd' hlt
      rcases List.mem_cons.1 hd' with rfl | hm
      · exact absurd hlt (lt_irrefl _)
      · exact absurd hlt (not_lt_of_gt (hcons.1 d' hm))
    · rw [if_neg ha] at hd
      obtain ⟨hmem, hempty, hmin⟩ := ih hcons.2 d hd
      refine ⟨List.mem_cons_of_mem _ hmem, hempty, ?_⟩
      intro d' hd' hlt
      rcases List.mem_cons.1 hd' with rfl | hm
      · exact ha
      · exact hmin d' hm hlt

theorem dxList_sorted (m : ℕ) : (dxList m).Sorted (· < ·) := by
  unfold dxList
  show List.Pairwise _ _
  rw [List.pairwise_map]
  exact (List.pairwise_lt_range m).imp (fun {a b} h => by omega)

theorem mem_dxList (m : ℕ) (d : ℤ) : d ∈ dxList m ↔ 1 ≤ d ∧ d ≤ (m : ℤ) := by
  unfold dxList
  rw [List.mem_map]
  constructor
  · rintro ⟨k, hk, rfl⟩
    rw [List.mem_range] at hk
    omega
  · rintro ⟨h1, h2⟩
    exact ⟨(d - 1).toNat, List.mem_range.2 (by omega), by omega⟩

/-- The randomized water spread distance `5 + (Math.random() * 5) | 0`
lies in `[5, 9]` for every genuine draw. -/
theorem waterMaxSpread_range (r : ℚ) (h0 : 0 ≤ r) (h1 : r < 1) :
    5 ≤ waterMaxSpread r ∧ waterMaxSpread r ≤ 9 := by
  unfold waterMaxSpread
  constructor
  · exact Int.le_floor.2 (by push_cast; nlinarith)
  · have h10 : ⌊(5 : ℚ) + r * 5⌋ < 10 := Int.floor_lt.2 (by push_cast; nlinarith)
    omega

/-- C7 counterexample — the negation of the claim's "the maximum spread
distance can take the value 10 for some random draw": no draw in `[0, 1)`
yields a maximum spread of 10. -/
theorem C7_max_spread_never_ten :
    ¬ ∃ r : ℚ, 0 ≤ r ∧ r < 1 ∧ waterMaxSpread r = 10 := by
  rintro ⟨r, h0, h1, he⟩
  have := (waterMaxSpread_range r h0 h1).2
  omega

/-- C7 (amended) — when water can neither fall (below is neither empty nor
oil) nor fall diagonally, the rule's randomized maximum lateral distance
lies in 5–9 inclusive (9 is attained, e.g. by the draw 9/10), and any move
it makes goes to the first empty cell within that distance on the side it
scanned, at a distance of at most 9. -/
theorem C7_water_lateral_spread (ρ : Rnd) (w : W) (c : ℕ) (x y : ℤ)
    (hb : getAt w x (y+1) ≠ emptyId) (hbo : getAt w x (y+1) ≠ oilId)
    (hdl : getAt w (x - 1) (y+1) ≠ emptyId) (hdr : getAt w (x + 1) (y+1) ≠ emptyId)
    (hr0 : 0 ≤ ρ (c+1)) (hr1 : ρ (c+1) < 1) :
    (5 ≤ waterMaxSpread (ρ (c+1)) ∧ waterMaxSpread (ρ (c+1)) ≤ 9) ∧
    waterMaxSpread (9/10) = 9 ∧
    ((tryFlowWater ρ w c x y).1 = true →
      ∃ s d : ℤ, (s = -1 ∨ s = 1) ∧ 1 ≤ d ∧ d ≤ 9 ∧
        getAt w (x + s * d) y = emptyId ∧
        (∀ d', 1 ≤ d' → d' < d → getAt w (x + s * d') y ≠ emptyId) ∧
        (tryFlowWater ρ w c x y).2.1 = swap w x y (x + s * d) y) := by
  have hrange := waterMaxSpread_range (ρ (c+1)) hr0 hr1
  have hnine : waterMaxSpread (9/10 : ℚ) = 9 := by
    unfold waterMaxSpread
    norm_num
  refine ⟨hrange, hnine, ?_⟩
  have side : ∀ s : ℤ, ∀ d,
      firstEmptyDx w x y s (dxList (waterMaxSpread (ρ (c+1))).toNat) = some d →
      1 ≤ d ∧ d ≤ 9 ∧ getAt w (x + s * d) y = emptyId ∧
      ∀ d', 1 ≤ d' → d' < d → getAt w (x + s * d') y ≠ emptyId := by
    intro s d hscan
    obtain ⟨hmem, hempty, hmin⟩ :=
      firstEmptyDx_spec w x y s _ (dxList_sorted (waterMaxSpread (ρ (c+1))).toNat) d hscan
    have hd := (mem_dxList _ d).1 hmem
    have hle : ((waterMaxSpread (ρ (c+1))).toNat : ℤ) ≤ 9 := by omega
    refine ⟨hd.1, by omega, hempty, ?_⟩
    intro d' h1 h2
    exact hmin d' ((mem_dxList _ d').2 ⟨h1, by omega⟩) h2
  have hred : tryFlowWater ρ w c x y =
      (if ρ (c+1+1) < 0.5 then
        match firstEmptyDx w x y (-1) (dxList (waterMaxSpread (ρ (c+1))).toNat) with
        | some d => (true, swap w x y (x + (-1) * d) y, c+1+1+1)
        | none =>
          match firstEmptyDx w x y 1 (dxList (waterMaxSpread (ρ (c+1))).toNat) with
          | some d => (true, swap w x y (x + 1 * d) y, c+1+1+1)
          | none => (false, w, c+1+1+1)
      else
        match firstEmptyDx w x y 1 (dxList (waterMaxSpread (ρ (c+1))).toNat) with
        | some d => (true, swap w x y (x + 1 * d) y, c+1+1+1)
        | none =>
          match firstEmptyDx w x y (-1) (dxList (waterMaxSpread (ρ (c+1))).toNat) with
          | some d => (true, swap w x y (x + (-1) * d) y, c+1+1+1)
          | none => (false, w, c+1+1+1)) := by
    simp only [tryFlowWater]
    rw [if_neg hb, if_neg hbo]
    by_cases hdir : ρ c < 0.5
    · rw [if_pos hdir, show x - (-1 : ℤ) = x + 1 from by ring,
        show x + (-1 : ℤ) = x - 1 from by ring, if_neg hdr, if_neg hdl]
    · rw [if_neg hdir, if_neg hdl, if_neg hdr]
  intro hmoved
  rw [hred] at hmoved ⊢
  by_cases hside : ρ (c+1+1) < 0.5
  · rw [if_pos hside] at hmoved ⊢
    rcases hL : firstEmptyDx w x y (-1) (dxList (waterMaxSpread (ρ (c+1))).toNat) with _ | d
    · rw [hL] at hmoved
      rcases hR : firstEmptyDx w x y 1 (dxList (waterMaxSpread (ρ (c+1))).toNat) with _ | d
      · rw [hR] at hmoved; exact absurd hmoved (by simp)
      · obtain ⟨a, b, cc, e⟩ := side 1 d hR
        exact ⟨1, d, Or.inr rfl, a, b, cc, e, rfl⟩
    · obtain ⟨a, b, cc, e⟩ := side (-1) d hL
      exact ⟨-1, d, Or.inl rfl, a, b, cc, e, rfl⟩
  · rw [if_neg hside] at hmoved ⊢
    rcases hR : firstEmptyDx w x y 1 (dxList (waterMaxSpread (ρ (c+1))).toNat) with _ | d
    · rw [hR] at hmoved
      rcases hL : firstEmptyDx w x y (-1) (dxList (waterMaxSpread (ρ (c+1))).toNat) with _ | d
      · rw [hL] at hmoved; exact absurd hmoved (by simp)
      · obtain ⟨a, b, cc, e⟩ := side (-1) d hL
        exact ⟨-1, d, Or.inl rfl, a, b, cc, e, rfl⟩
    · obtain ⟨a, b, cc, e⟩ := side 1 d hR
      exact ⟨1, d, Or.inr rfl, a, b, cc, e, rfl⟩

/-- Witness for C7 at a concrete blocked water cell `(0,0)` of the world
`[water, empty, empty]` with the all-zero draw stream. -/
theorem C7_water_lateral_spread_witness :
    (5 ≤ waterMaxSpread (rho0 (0+1)) ∧ waterMaxSpread (rho0 (0+1)) ≤ 9) ∧
    waterMaxSpread (9/10) = 9 ∧
    ((tryFlowWater rho0 wC7 0 0 0).1 = true →
      ∃ s d : ℤ, (s = -1 ∨ s = 1) ∧ 1 ≤ d ∧ d ≤ 9 ∧
        getAt wC7 (0 + s * d) 0 = emptyId ∧
        (∀ d', 1 ≤ d' → d' < d → getAt wC7 (0 + s * d') 0 ≠ emptyId) ∧
        (tryFlowWater rho0 wC7 0 0 0).2.1 = swap wC7 0 0 (0 + s * d) 0) :=
  C7_water_lateral_spread rho0 wC7 0 0 0 (by decide) (by decide) (by decide) (by decide)
    (by norm_num [rho0]) (by norm_num [rho0])

theorem width_spreadFireIgnite (ρ : Rnd) (w : W) (c : ℕ) (x y xx yy : ℤ) :
    ((spreadFireIgnite ρ w c x y xx yy).1).width = w.width := by
  simp only [spreadFireIgnite]
  repeat' split
  all_goals simp [width_setAt, width_setEmber]

theorem height_spreadFireIgnite (ρ : Rnd) (w : W) (c : ℕ) (x y xx yy : ℤ) :
    ((spreadFireIgnite ρ w c x y xx yy).1).height = w.height := by
  simp only [spreadFireIgnite]
  repeat' split
  all_goals simp [height_setAt, height_setEmber]

theorem inBounds_spreadFireIgnite (ρ : Rnd) (w : W) (c : ℕ) (x y xx yy p q : ℤ) :
    inBounds (spreadFireIgnite ρ w c x y xx yy).1 p q ↔ inBounds w p q := by
  unfold inBounds
  rw [width_spreadFireIgnite, height_spreadFireIgnite]

/-- A cell other than the fire cell and other than the neighbour being
processed is untouched by one `tryIgnite` call. -/
theorem spreadFireIgnite_frame (ρ : Rnd) (w : W) (c : ℕ) (x y xx yy p q : ℤ)
    (h1 : (p, q) ≠ (x, y)) (h2 : (p, q) ≠ (xx, yy)) :
    getAt (spreadFireIgnite ρ w c x y xx yy).1 p q = getAt w p q := by
  simp only [spreadFireIgnite]
  by_cases hwd : getAt w xx yy = woodId
  · rw [if_pos hwd]
    have hnw : getAt w xx yy ≠ waterId := by rw [hwd]; decide
    rw [if_neg hnw]
    split
    · show getAt (setEmber w xx yy) p q = getAt w p q
      exact getAt_setEmber_ne w xx yy p q h2
    · rfl
  · rw [if_neg hwd]
    by_cases hol : getAt w xx yy = oilId
    · rw [if_pos hol]
      have hnw : getAt w xx yy ≠ waterId := by rw [hol]; decide
      rw [if_neg hnw]
      split
      · show getAt (setAt w xx yy fireId) p q = getAt w p q
        exact getAt_setAt_ne w xx yy fireId p q h2
      · rfl
    · rw [if_neg hol]
      by_cases hwa : getAt w xx yy = waterId
      · rw [if_pos hwa]
        show getAt (setAt w x y steamId) p q = getAt w p q
        exact getAt_setAt_ne w x y steamId p q h1
      · rw [if_neg hwa]

/-- A water cell other than the fire cell keeps its water through one
`tryIgnite` call (the wood/oil writes require the neighbour to be wood or
oil, and the steam write targets the fire cell). -/
theorem spreadFireIgnite_water (ρ : Rnd) (w : W) (c : ℕ) (x y xx yy p q : ℤ)
    (hw : getAt w p q = waterId) (h1 : (p, q) ≠ (x, y)) :
    getAt (spreadFireIgnite ρ w c x y xx yy).1 p q = waterId := by
  by_cases h2 : (p, q) = (xx, yy)
  · injection h2 with ha hb
    subst ha
    subst hb
    simp only [spreadFireIgnite]
    rw [hw]
    rw [if_neg (show waterId ≠ woodId from by decide),
      if_neg (show waterId ≠ oilId from by decide), if_pos rfl]
    show getAt (setAt w x y steamId) p q = waterId
    rw [getAt_setAt_ne w x y steamId p q h1]
    exact hw
  · rw [spreadFireIgnite_frame ρ w c x y xx yy p q h1 h2]
    exact hw

/-- The fire cell after one `tryIgnite` call: steam when the processed
neighbour holds water, otherwise unchanged. -/
theorem spreadFireIgnite_center (ρ : Rnd) (w : W) (c : ℕ) (x y xx yy : ℤ)
    (hin : inBounds w x y) (hne : (xx, yy) ≠ (x, y)) :
    getAt (spreadFireIgnite ρ w c x y xx yy).1 x y =
      if getAt w xx yy = waterId then steamId else getAt w x y := by
  have hxyne : (x, y) ≠ (xx, yy) := Ne.symm hne
  simp only [spreadFireIgnite]
  by_cases hwd : getAt w xx yy = woodId
  · rw [if_pos hwd]
    have hnw : getAt w xx yy ≠ waterId := by rw [hwd]; decide
    rw [if_neg hnw, if_neg hnw]
    split
    · show getAt (setEmber w xx yy) x y = getAt w x y
      exact getAt_setEmber_ne w xx yy x y hxyne
    · rfl
  · rw [if_neg hwd]
    by_cases hol : getAt w xx yy = oilId
    · rw [if_pos hol]
      have hnw : getAt w xx yy ≠ waterId := by rw [hol]; decide
      rw [if_neg hnw, if_neg hnw]
      split
      · show getAt (setAt w xx yy fireId) x y = getAt w x y
        exact getAt_setAt_ne w xx yy fireId x y hxyne
      · rfl
    · rw [if_neg hol]
      by_cases hwa : getAt w xx yy = waterId
      · rw [if_pos hwa, if_pos hwa]
        show getAt (setAt w x y steamId) x y = steamId
        exact getAt_setAt_same w x y steamId hin
      · rw [if_neg hwa, if_neg hwa]

/-- C6 counterexample — in the world `[empty, fire, water, empty]` the fire
cell at `(1,0)` has water at `(2,0)`; after the fire reaction the water
cell still holds water (it is the fire cell that turned to steam), while
the claim says the water cell becomes steam. -/
theorem C6_water_cell_not_steam_cex :
    getAt wC6 1 0 = fireId ∧ getAt wC6 2 0 = waterId ∧
    getAt (spreadFire rho0 wC6 0 1 0).1 2 0 = waterId ∧
    getAt (spreadFire rho0 wC6 0 1 0).1 1 0 = steamId ∧ waterId ≠ steamId := by
  refine ⟨by decide, by decide, by decide, by decide, by decide⟩

/-- C6 (amended) — during the reaction pass, a fire cell with a water cell
in one of its four adjacent positions is itself converted to steam (fire is
extinguished into steam by adjacent water), and every adjacent water cell
is left unchanged by the reaction. -/
theorem C6_fire_steam_amended (ρ : Rnd) (w : W) (c : ℕ) (x y : ℤ)
    (hfire : getAt w x y = fireId)
    (hw : getAt w (x+1) y = waterId ∨ getAt w (x-1) y = waterId ∨
      getAt w x (y+1) = waterId ∨ getAt w x (y-1) = waterId) :
    getAt (spreadFire ρ w c x y).1 x y = steamId ∧
    (∀ xx yy : ℤ, ((xx, yy) = (x+1, y) ∨ (xx, yy) = (x-1, y) ∨
        (xx, yy) = (x, y+1) ∨ (xx, yy) = (x, y-1)) →
      getAt w xx yy = waterId → getAt (spreadFire ρ w c x y).1 xx yy = waterId) := by
  have hin : inBounds w x y := by
    by_contra h
    rw [getAt, if_neg h] at hfire
    exact absurd hfire (by decide)
  have hne1 : ((x+1 : ℤ), y) ≠ (x, y) := by intro h; injection h with e1 e2; omega
  have hne2 : ((x-1 : ℤ), y) ≠ (x, y) := by intro h; injection h with e1 e2; omega
  have hne3 : ((x : ℤ), y+1) ≠ (x, y) := by intro h; injection h with e1 e2; omega
  have hne4 : ((x : ℤ), y-1) ≠ (x, y) := by intro h; injection h with e1 e2; omega
  have hd12 : ((x+1 : ℤ), y) ≠ (x-1, y) := by intro h; injection h with e1 e2; omega
  have hd13 : ((x+1 : ℤ), y) ≠ (x, y+1) := by intro h; injection h with e1 e2; omega
  have hd14 : ((x+1 : ℤ), y) ≠ (x, y-1) := by intro h; injection h with e1 e2; omega
  have hd23 : ((x-1 : ℤ), y) ≠ (x, y+1) := by intro h; injection h with e1 e2; omega
  have hd24 : ((x-1 : ℤ), y) ≠ (x, y-1) := by intro h; injection h with e1 e2; omega
  have hd34 : ((x : ℤ), y+1) ≠ (x, y-1) := by intro h; injection h with e1 e2; omega
  unfold spreadFire
  set s1 := spreadFireIgnite ρ w c x y (x+1) y with hs1
  set s2 := spreadFireIgnite ρ s1.1 s1.2 x y (x-1) y with hs2
  set s3 := spreadFireIgnite ρ s2.1 s2.2 x y x (y+1) with hs3
  have hin1 : inBounds s1.1 x y := (inBounds_spreadFireIgnite ρ w c x y (x+1) y x y).2 hin
  have hin2 : inBounds s2.1 x y :=
    (inBounds_spreadFireIgnite ρ s1.1 s1.2 x y (x-1) y x y).2 hin1
  have hin3 : inBounds s3.1 x y :=
    (inBounds_spreadFireIgnite ρ s2.1 s2.2 x y x (y+1) x y).2 hin2
  -- the untouched-neighbour values at the time each one is processed
  have hv2 : getAt s1.1 (x-1) y = getAt w (x-1) y :=
    spreadFireIgnite_frame ρ w c x y (x+1) y (x-1) y hne2 hd12.symm
  have hv3 : getAt s2.1 x (y+1) = getAt w x (y+1) := by
    rw [hs2]
    rw [spreadFireIgnite_frame ρ s1.1 s1.2 x y (x-1) y x (y+1) hne3 hd23.symm]
    exact spreadFireIgnite_frame ρ w c x y (x+1) y x (y+1) hne3 hd13.symm
  have hv4 : getAt s3.1 x (y-1) = getAt w x (y-1) := by
    rw [hs3]
    rw [spreadFireIgnite_frame ρ s2.1 s2.2 x y x (y+1) x (y-1) hne4 hd34.symm]
    rw [hs2]
    rw [spreadFireIgnite_frame ρ s1.1 s1.2 x y (x-1) y x (y-1) hne4 hd24.symm]
    exact spreadFireIgnite_frame ρ w c x y (x+1) y x (y-1) hne4 hd14.symm
  have hc1 : getAt s1.1 x y = if getAt w (x+1) y = waterId then steamId else getAt w x y :=
    spreadFireIgnite_center ρ w c x y (x+1) y hin hne1
  have hc2 : getAt s2.1 x y =
      if getAt w (x-1) y = waterId then steamId else getAt s1.1 x y := by
    rw [hs2, spreadFireIgnite_center ρ s1.1 s1.2 x y (x-1) y hin1 hne2, hv2]
  have hc3 : getAt s3.1 x y =
      if getAt w x (y+1) = waterId then steamId else getAt s2.1 x y := by
    rw [hs3, spreadFireIgnite_center ρ s2.1 s2.2 x y x (y+1) hin2 hne3, hv3]
  have hc4 : getAt (spreadFireIgnite ρ s3.1 s3.2 x y x (y-1)).1 x y =
      if getAt w x (y-1) = waterId then steamId else getAt s3.1 x y := by
    rw [spreadFireIgnite_center ρ s3.1 s3.2 x y x (y-1) hin3 hne4, hv4]
  constructor
  · rw [hc4, hc3, hc2, hc1]
    rcases hw with h | h | h | h <;> rw [h] <;> simp
  · intro xx yy hmem hwv
    have hnec : (xx, yy) ≠ (x, y) := by
      rcases hmem with h | h | h | h <;> rw [h]
      · exact hne1
      · exact hne2
      · exact hne3
      · exact hne4
    have p1 : getAt s1.1 xx yy = waterId :=
      spreadFireIgnite_water ρ w c x y (x+1) y xx yy hwv hnec
    have p2 : getAt s2.1 xx yy = waterId :=
      spreadFireIgnite_water ρ s1.1 s1.2 x y (x-1) y xx yy p1 hnec
    have p3 : getAt s3.1 xx yy = waterId :=
      spreadFireIgnite_water ρ s2.1 s2.2 x y x (y+1) xx yy p2 hnec
    exact spreadFireIgnite_water ρ s3.1 s3.2 x y x (y-1) xx yy p3 hnec

/-- Witness for C6 (amended) at the concrete fire cell `(1,0)` of the world
`[empty, fire, water, empty]`. -/
theorem C6_fire_steam_amended_witness :
    getAt (spreadFire rho0 wC6 0 1 0).1 1 0 = steamId ∧
    (∀ xx yy : ℤ, ((xx, yy) = (1+1, 0) ∨ (xx, yy) = (1-1, 0) ∨
        (xx, yy) = (1, 0+1) ∨ (xx, yy) = (1, 0-1)) →
      getAt wC6 xx yy = waterId → getAt (spreadFire rho0 wC6 0 1 0).1 xx yy = waterId) :=
  C6_fire_steam_amended rho0 wC6 0 1 0 (by decide) (Or.inl (by decide))

theorem explosionStep_outside (ρ : Rnd) (x y : ℚ) (r2 : ℤ) (s : W × ℕ) (d : ℤ × ℤ)
    (p q : ℤ) (hd : d.1 * d.1 + d.2 * d.2 ≤ r2 → (p, q) ≠ (⌊x⌋ + d.1, ⌊y⌋ + d.2)) :
    getAt (explosionStep ρ x y r2 s d).1 p q = getAt s.1 p q := by
  simp only [explosionStep]
  by_cases hdisc : d.1 * d.1 + d.2 * d.2 ≤ r2
  · rw [if_pos hdisc, Int.floor_add_int, Int.floor_add_int]
    have hne := hd hdisc
    by_cases hb : inBounds s.1 (⌊x⌋ + d.1) (⌊y⌋ + d.2)
    · rw [if_pos hb]
      split
      · split
        · exact getAt_setAt_ne s.1 _ _ fireId p q hne
        · split
          · exact getAt_setAt_ne s.1 _ _ smokeId p q hne
          · exact getAt_setAt_ne s.1 _ _ emptyId p q hne
      · rfl
    · rw [if_neg hb]
  · rw [if_neg hdisc]

theorem explosionStep_stone (ρ : Rnd) (x y : ℚ) (r2 : ℤ) (s : W × ℕ) (d : ℤ × ℤ)
    (p q : ℤ) (hst : getAt s.1 p q = stoneId) :
    getAt (explosionStep ρ x y r2 s d).1 p q = stoneId := by
  by_cases heq : (p, q) = (⌊x⌋ + d.1, ⌊y⌋ + d.2)
  · simp only [explosionStep]
    by_cases hdisc : d.1 * d.1 + d.2 * d.2 ≤ r2
    · rw [if_pos hdisc, Int.floor_add_int, Int.floor_add_int]
      injection heq with e1 e2
      rw [← e1, ← e2]
      by_cases hb : inBounds s.1 p q
      · rw [if_pos hb, hst]
        rw [if_neg (by simp)]
        exact hst
      · rw [if_neg hb]
        exact hst
    · rw [if_neg hdisc]
      exact hst
  · rw [explosionStep_outside ρ x y r2 s d p q (fun _ => heq)]
    exact hst

theorem explosionFold_outside (ρ : Rnd) (x y : ℚ) (r2 : ℤ) (p q : ℤ) :
    ∀ (L : List (ℤ × ℤ)) (s : W × ℕ),
      (∀ d ∈ L, d.1 * d.1 + d.2 * d.2 ≤ r2 → (p, q) ≠ (⌊x⌋ + d.1, ⌊y⌋ + d.2)) →
      getAt (L.foldl (explosionStep ρ x y r2) s).1 p q = getAt s.1 p q := by
  intro L
  induction L with
  | nil => intro s _; rfl
  | cons a t ih =>
    intro s h
    rw [List.foldl_cons]
    rw [ih _ (fun d hd => h d (List.mem_cons_of_mem a hd))]
    exact explosionStep_outside ρ x y r2 s a p q (h a (List.mem_cons_self a t))

theorem explosionFold_stone (ρ : Rnd) (x y : ℚ) (r2 : ℤ) (p q : ℤ) :
    ∀ (L : List (ℤ × ℤ)) (s : W × ℕ), getAt s.1 p q = stoneId →
      getAt (L.foldl (explosionStep ρ x y r2) s).1 p q = stoneId := by
  intro L
  induction L with
  | nil => intro s h; exact h
  | cons a t ih =>
    intro s h
    rw [List.foldl_cons]
    exact ih _ (explosionStep_stone ρ x y r2 s a p q h)

/-- C2 (amended) — the explosion's material mutation only reaches cells
whose squared distance to the cell `(⌊x⌋, ⌊y⌋)` containing the blast
centre is at most `radius²` (the loop mutates `(⌊x+dx⌋, ⌊y+dy⌋) =
(⌊x⌋+dx, ⌊y⌋+dy)` for integer offsets with `dx²+dy² ≤ radius²`), and a
cell holding stone is never converted. -/
theorem C2_explosion_containment (ρ : Rnd) (w : W) (c : ℕ) (x y : ℚ) (radius : ℕ) :
    (∀ px py : ℤ, (px - ⌊x⌋) ^ 2 + (py - ⌊y⌋) ^ 2 > (radius : ℤ) ^ 2 →
      getAt (explosionGrid ρ w c x y radius).1 px py = getAt w px py) ∧
    (∀ px py : ℤ, getAt w px py = stoneId →
      getAt (explosionGrid ρ w c x y radius).1 px py = stoneId) := by
  constructor
  · intro px py hfar
    unfold explosionGrid
    apply explosionFold_outside
    intro d _ hdisc heq
    injection heq with e1 e2
    apply absurd hfar
    push_neg
    rw [show px - ⌊x⌋ = d.1 from by omega, show py - ⌊y⌋ = d.2 from by omega]
    calc d.1 ^ 2 + d.2 ^ 2 = d.1 * d.1 + d.2 * d.2 := by ring
    _ ≤ (radius : ℤ) * radius := hdisc
    _ = (radius : ℤ) ^ 2 := by ring
  · intro px py hst
    unfold explosionGrid
    exact explosionFold_stone ρ x y _ px py _ (w, c) hst

theorem explosionStep_skip (ρ : Rnd) (x y : ℚ) (r2 : ℤ) (s : W × ℕ) (d : ℤ × ℤ)
    (h : ¬ inBounds s.1 ⌊x + (d.1 : ℚ)⌋ ⌊y + (d.2 : ℚ)⌋) :
    explosionStep ρ x y r2 s d = s := by
  simp only [explosionStep]
  by_cases hdisc : d.1 * d.1 + d.2 * d.2 ≤ r2
  · rw [if_pos hdisc, if_neg h]
  · rw [if_neg hdisc]

theorem explosionFold_skip (ρ : Rnd) (x y : ℚ) (r2 : ℤ) :
    ∀ (L : List (ℤ × ℤ)) (s : W × ℕ),
      (∀ d ∈ L, ¬ inBounds s.1 ⌊x + (d.1 : ℚ)⌋ ⌊y + (d.2 : ℚ)⌋) →
      L.foldl (explosionStep ρ x y r2) s = s := by
  intro L
  induction L with
  | nil => intro s _; rfl
  | cons a t ih =>
    intro s h
    rw [List.foldl_cons, explosionStep_skip ρ x y r2 s a (h a (List.mem_cons_self a t))]
    exact ih s (fun d hd => h d (List.mem_cons_of_mem a hd))

/-- C2 counterexample — with blast centre `(5/2, 0)` and radius 2 on the
world whose only sand cell is `(0,0)`, the explosion converts `(0,0)` to
fire even though its squared distance to the centre `(5/2, 0)` is
`25/4 > 4 = radius²`: the containment disc of the claim is measured at the
fractional centre, but the code mutates cells around `(⌊x⌋, ⌊y⌋)`. -/
theorem C2_outside_disc_mutated_cex :
    ((0 : ℚ) - 5/2) ^ 2 + ((0 : ℚ) - 0) ^ 2 > (2 : ℚ) ^ 2 ∧
    getAt wC2 0 0 = sandId ∧
    getAt (explosionGrid rho0 wC2 0 (5/2) 0 2).1 0 0 = fireId ∧
    fireId ≠ sandId := by
  refine ⟨by norm_num, by decide, ?_, by decide⟩
  have hsplit : explosionPairs 2 =
      [((-2 : ℤ), (-2 : ℤ)), (-1,-2), (0,-2), (1,-2), (2,-2),
       (-2,-1), (-1,-1), (0,-1), (1,-1), (2,-1)] ++ (-2, 0) ::
      [((-1 : ℤ), (0 : ℤ)), (0,0), (1,0), (2,0),
       (-2,1), (-1,1), (0,1), (1,1), (2,1),
       (-2,2), (-1,2), (0,2), (1,2), (2,2)] := by decide
  unfold explosionGrid
  rw [hsplit, List.foldl_append, List.foldl_cons]
  have hfx : ∀ d : ℤ, (⌊(5/2 : ℚ) + (d : ℚ)⌋ : ℤ) = 2 + d := by
    intro d
    rw [Int.floor_add_int]
    norm_num
  have hfy : ∀ d : ℤ, (⌊(0 : ℚ) + (d : ℚ)⌋ : ℤ) = d := by
    intro d
    rw [Int.floor_add_int]
    norm_num
  have hpre : List.foldl (explosionStep rho0 (5/2) 0 (((2 : ℕ) : ℤ) * ((2 : ℕ) : ℤ)))
      (wC2, 0)
      [((-2 : ℤ), (-2 : ℤ)), (-1,-2), (0,-2), (1,-2), (2,-2),
       (-2,-1), (-1,-1), (0,-1), (1,-1), (2,-1)] = (wC2, 0) := by
    apply explosionFold_skip
    intro d hd
    rw [hfx, hfy]
    fin_cases hd <;> decide
  rw [hpre]
  have hmid : explosionStep rho0 (5/2) 0 (((2 : ℕ) : ℤ) * ((2 : ℕ) : ℤ)) (wC2, 0)
      ((-2 : ℤ), (0 : ℤ)) = (setAt wC2 0 0 fireId, 1) := by
    simp only [explosionStep]
    rw [if_pos (by norm_num)]
    rw [show ((((-2 : ℤ), (0 : ℤ)).1 : ℚ)) = ((-2 : ℤ) : ℚ) from rfl,
      show ((((-2 : ℤ), (0 : ℤ)).2 : ℚ)) = ((0 : ℤ) : ℚ) from rfl, hfx, hfy]
    norm_num
    rw [if_pos (show inBounds (wC2, 0).1 0 0 from by decide)]
    rw [show getAt (wC2, (0 : ℕ)).1 0 0 = sandId from by decide]
    rw [if_pos (by decide)]
    rw [if_pos (show rho0 0 < 3/10 from by norm_num [rho0])]
  rw [hmid]
  have hpost : getAt (List.foldl
      (explosionStep rho0 (5/2) 0 (((2 : ℕ) : ℤ) * ((2 : ℕ) : ℤ)))
      (setAt wC2 0 0 fireId, 1)
      [((-1 : ℤ), (0 : ℤ)), (0,0), (1,0), (2,0),
       (-2,1), (-1,1), (0,1), (1,1), (2,1),
       (-2,2), (-1,2), (0,2), (1,2), (2,2)]).1 0 0 =
      getAt (setAt wC2 0 0 fireId, 1).1 0 0 := by
    apply explosionFold_outside
    intro d hd _
    rw [show (⌊(5/2 : ℚ)⌋ : ℤ) = 2 from by norm_num, show (⌊(0 : ℚ)⌋ : ℤ) = 0 from by norm_num]
    fin_cases hd <;> decide
  rw [hpost]
  exact getAt_setAt_same wC2 0 0 fireId (by decide)

/-- Witness for C2 (amended): the far cell `(0,5)` is untouched and the
out-of-bounds stone read at `(-1,0)` stays stone, for a radius-2 blast at
`(5/2, 0)` on the sand world. -/
theorem C2_explosion_containment_witness :
    getAt (explosionGrid rho0 wC2 0 (5/2) 0 2).1 0 5 = getAt wC2 0 5 ∧
    getAt (explosionGrid rho0 wC2 0 (5/2) 0 2).1 (-1) 0 = stoneId :=
  ⟨(C2_explosion_containment rho0 wC2 0 (5/2) 0 2).1 0 5 (by norm_num),
   (C2_explosion_containment rho0 wC2 0 (5/2) 0 2).2 (-1) 0 (by decide)⟩

theorem mem_coordRange (a b p : ℤ) : p ∈ coordRange a b ↔ a ≤ p ∧ p ≤ b := by
  unfold coordRange
  rw [List.mem_map]
  constructor
  · rintro ⟨k, hk, rfl⟩
    rw [List.mem_range] at hk
    omega
  · rintro ⟨h1, h2⟩
    exact ⟨(p - a).toNat, List.mem_range.2 (by omega), by omega⟩

theorem nodup_coordRange (a b : ℤ) : (coordRange a b).Nodup := by
  unfold coordRange
  exact (List.nodup_range _).map (fun p q h => by omega)

theorem idx_congr {w1 w2 : W} (h : w1.width = w2.width) (x y : ℤ) :
    idx w1 x y = idx w2 x y := by
  unfold idx
  rw [h]

theorem inBounds_congr {w1 w2 : W} (hw : w1.width = w2.width) (hh : w1.height = w2.height)
    (x y : ℤ) : inBounds w1 x y ↔ inBounds w2 x y := by
  unfold inBounds
  rw [hw, hh]

theorem cells_setAt_same (w : W) (x y : ℤ) (m : ℕ) (h : inBounds w x y) :
    (setAt w x y m).cells (idx w x y) = m := by
  unfold setAt
  rw [if_pos h]
  simp

theorem timer_setAt_same (w : W) (x y : ℤ) (m : ℕ) (h : inBounds w x y) :
    (setAt w x y m).timer (idx w x y) =
      if m = emberId then (if w.timer (idx w x y) = 0 then EMBER_LIFETIME else w.timer (idx w x y))
      else 0 := by
  unfold setAt
  rw [if_pos h]
  simp

theorem cells_setAt_ne (w : W) (x y : ℤ) (m : ℕ) (p q : ℤ) (hpq : (p, q) ≠ (x, y))
    (hp : inBounds w p q) :
    (setAt w x y m).cells (idx w p q) = w.cells (idx w p q) := by
  by_cases hb : inBounds w x y
  · have hidx : idx w p q ≠ idx w x y := by
      intro he
      exact hpq (by
        obtain ⟨e1, e2⟩ := idx_inj w hp hb he
        simp [e1, e2])
    unfold setAt
    rw [if_pos hb]
    simp [Function.update_apply, hidx]
  · unfold setAt
    rw [if_neg hb]

theorem timer_setAt_ne (w : W) (x y : ℤ) (m : ℕ) (p q : ℤ) (hpq : (p, q) ≠ (x, y))
    (hp : inBounds w p q) :
    (setAt w x y m).timer (idx w p q) = w.timer (idx w p q) := by
  by_cases hb : inBounds w x y
  · have hidx : idx w p q ≠ idx w x y := by
      intro he
      exact hpq (by
        obtain ⟨e1, e2⟩ := idx_inj w hp hb he
        simp [e1, e2])
    unfold setAt
    rw [if_pos hb]
    simp [Function.update_apply, hidx]
  · unfold setAt
    rw [if_neg hb]

/-- `setAt` establishes the painted-cell observation. -/
theorem setAt_painted (w : W) (x y : ℤ) (m : ℕ) (h : inBounds w x y) :
    PaintedAt (setAt w x y m) x y m := by
  have hW : (setAt w x y m).width = w.width := width_setAt w x y m
  unfold PaintedAt
  rw [idx_congr hW, cells_setAt_same w x y m h, timer_setAt_same w x y m h]
  refine ⟨rfl, ?_⟩
  by_cases he : m = emberId
  · rw [if_pos he, if_pos he]
    split
    · exact (by decide : EMBER_LIFETIME ≠ 0)
    · assumption
  · rw [if_neg he, if_neg he]

/-- `setAt` on a cell that already carries the painted observation changes
none of the cell arrays (the instrumentation counter aside). -/
theorem setAt_stable (w : W) (x y : ℤ) (m : ℕ) (hP : PaintedAt w x y m) :
    (setAt w x y m).cells = w.cells ∧ (setAt w x y m).timer = w.timer ∧
    (setAt w x y m).updated = w.updated := by
  obtain ⟨hc, ht⟩ := hP
  by_cases hb : inBounds w x y
  · unfold setAt
    rw [if_pos hb]
    refine ⟨?_, ?_, rfl⟩
    · show Function.update w.cells (idx w x y) m = w.cells
      rw [← hc]
      exact Function.update_eq_self _ _
    · show Function.update w.timer (idx w x y) _ = w.timer
      by_cases he : m = emberId
      · rw [if_pos he] at ht ⊢
        rw [if_neg ht]
        exact Function.update_eq_self _ _
      · rw [if_neg he] at ht ⊢
        rw [← ht]
        exact Function.update_eq_self _ _
  · unfold setAt
    rw [if_neg hb]
    exact ⟨rfl, rfl, rfl⟩

theorem width_paintCell (cx cy r2 : ℚ) (m : ℕ) (y₀ : ℤ) (wx : W) (x : ℤ) :
    (paintCell cx cy r2 m y₀ wx x).width = wx.width := by
  unfold paintCell
  split
  · exact width_setAt wx x y₀ m
  · rfl

theorem height_paintCell (cx cy r2 : ℚ) (m : ℕ) (y₀ : ℤ) (wx : W) (x : ℤ) :
    (paintCell cx cy r2 m y₀ wx x).height = wx.height := by
  unfold paintCell
  split
  · exact height_setAt wx x y₀ m
  · rfl

theorem updated_paintCell (cx cy r2 : ℚ) (m : ℕ) (y₀ : ℤ) (wx : W) (x : ℤ) :
    (paintCell cx cy r2 m y₀ wx x).updated = wx.updated := by
  unfold paintCell
  split
  · exact updated_setAt wx x y₀ m
  · rfl

theorem width_paintCellFold (cx cy r2 : ℚ) (m : ℕ) (y₀ : ℤ) :
    ∀ (xs : List ℤ) (wy : W), (xs.foldl (paintCell cx cy r2 m y₀) wy).width = wy.width := by
  intro xs
  induction xs with
  | nil => intro wy; rfl
  | cons a t ih =>
    intro wy
    rw [List.foldl_cons, ih]
    exact width_paintCell cx cy r2 m y₀ wy a

theorem height_paintCellFold (cx cy r2 : ℚ) (m : ℕ) (y₀ : ℤ) :
    ∀ (xs : List ℤ) (wy : W), (xs.foldl (paintCell cx cy r2 m y₀) wy).height = wy.height := by
  intro xs
  induction xs with
  | nil => intro wy; rfl
  | cons a t ih =>
    intro wy
    rw [List.foldl_cons, ih]
    exact height_paintCell cx cy r2 m y₀ wy a

theorem updated_paintCellFold (cx cy r2 : ℚ) (m : ℕ) (y₀ : ℤ) :
    ∀ (xs : List ℤ) (wy : W), (xs.foldl (paintCell cx cy r2 m y₀) wy).updated = wy.updated := by
  intro xs
  induction xs with
  | nil => intro wy; rfl
  | cons a t ih =>
    intro wy
    rw [List.foldl_cons, ih]
    exact updated_paintCell cx cy r2 m y₀ wy a

theorem width_paintRowFold (cx cy r2 : ℚ) (m : ℕ) (minX maxX : ℤ) :
    ∀ (ys : List ℤ) (w0 : W),
      (ys.foldl (paintRow cx cy r2 m minX maxX) w0).width = w0.width := by
  intro ys
  induction ys with
  | nil => intro w0; rfl
  | cons a t ih =>
    intro w0
    rw [List.foldl_cons, ih]
    exact width_paintCellFold cx cy r2 m a _ w0

theorem height_paintRowFold (cx cy r2 : ℚ) (m : ℕ) (minX maxX : ℤ) :
    ∀ (ys : List ℤ) (w0 : W),
      (ys.foldl (paintRow cx cy r2 m minX maxX) w0).height = w0.height := by
  intro ys
  induction ys with
  | nil => intro w0; rfl
  | cons a t ih =>
    intro w0
    rw [List.foldl_cons, ih]
    exact height_paintCellFold cx cy r2 m a _ w0

theorem updated_paintRowFold (cx cy r2 : ℚ) (m : ℕ) (minX maxX : ℤ) :
    ∀ (ys : List ℤ) (w0 : W),
      (ys.foldl (paintRow cx cy r2 m minX maxX) w0).updated = w0.updated := by
  intro ys
  induction ys with
  | nil => intro w0; rfl
  | cons a t ih =>
    intro w0
    rw [List.foldl_cons, ih]
    exact updated_paintCellFold cx cy r2 m a _ w0

/-- One paint-loop body does not touch a cell that is a different
coordinate or outside the disc. -/
theorem paintCell_frame (cx cy r2 : ℚ) (m : ℕ) (y₀ : ℤ) (wx : W) (x p q : ℤ)
    (h : (p, q) ≠ (x, y₀) ∨ ¬ inDisc cx cy r2 p q) (hp : inBounds wx p q) :
    (paintCell cx cy r2 m y₀ wx x).cells (idx wx p q) = wx.cells (idx wx p q) ∧
    (paintCell cx cy r2 m y₀ wx x).timer (idx wx p q) = wx.timer (idx wx p q) := by
  unfold paintCell
  by_cases hc : inDisc cx cy r2 x y₀
  · rw [if_pos hc]
    have hne : (p, q) ≠ (x, y₀) := by
      rcases h with h | h
      · exact h
      · intro he
        apply h
        injection he with e1 e2
        rw [e1, e2]
        exact hc
    exact ⟨cells_setAt_ne wx x y₀ m p q hne hp, timer_setAt_ne wx x y₀ m p q hne hp⟩
  · rw [if_neg hc]
    exact ⟨rfl, rfl⟩

/-- A row fold does not touch a cell that none of its steps writes. -/
theorem paintCellFold_frame (cx cy r2 : ℚ) (m : ℕ) (y₀ p q : ℤ) :
    ∀ (xs : List ℤ) (wy : W),
      (∀ x ∈ xs, (p, q) ≠ (x, y₀) ∨ ¬ inDisc cx cy r2 p q) → inBounds wy p q →
      (xs.foldl (paintCell cx cy r2 m y₀) wy).cells (idx wy p q) = wy.cells (idx wy p q) ∧
      (xs.foldl (paintCell cx cy r2 m y₀) wy).timer (idx wy p q) = wy.timer (idx wy p q) := by
  intro xs
  induction xs with
  | nil => intro wy _ _; exact ⟨rfl, rfl⟩
  | cons a t ih =>
    intro wy h hp
    rw [List.foldl_cons]
    have hW : (paintCell cx cy r2 m y₀ wy a).width = wy.width := width_paintCell cx cy r2 m y₀ wy a
    have hH : (paintCell cx cy r2 m y₀ wy a).height = wy.height :=
      height_paintCell cx cy r2 m y₀ wy a
    have hp' : inBounds (paintCell cx cy r2 m y₀ wy a) p q := (inBounds_congr hW hH p q).2 hp
    obtain ⟨ic, it⟩ := ih (paintCell cx cy r2 m y₀ wy a)
      (fun x hx => h x (List.mem_cons_of_mem a hx)) hp'
    rw [idx_congr hW] at ic it
    rw [ic, it]
    exact paintCell_frame cx cy r2 m y₀ wy a p q (h a (List.mem_cons_self a t)) hp

/-- A row fold paints every listed in-disc cell of its row. -/
theorem paintCellFold_painted (cx cy r2 : ℚ) (m : ℕ) (y₀ px : ℤ) :
    ∀ (xs : List ℤ) (wy : W), xs.Nodup → px ∈ xs → inDisc cx cy r2 px y₀ →
      inBounds wy px y₀ →
      PaintedAt (xs.foldl (paintCell cx cy r2 m y₀) wy) px y₀ m := by
  intro xs
  induction xs with
  | nil => intro wy _ hmem; exact absurd hmem (List.not_mem_nil px)
  | cons a t ih =>
    intro wy hnd hmem hdisc hb
    rw [List.foldl_cons]
    have hW : (paintCell cx cy r2 m y₀ wy a).width = wy.width := width_paintCell cx cy r2 m y₀ wy a
    have hH : (paintCell cx cy r2 m y₀ wy a).height = wy.height :=
      height_paintCell cx cy r2 m y₀ wy a
    by_cases hax : px = a
    · subst hax
    -- the head writes the cell, the (nodup) tail leaves it alone
      have hstep : PaintedAt (paintCell cx cy r2 m y₀ wy px) px y₀ m := by
        unfold paintCell
        rw [if_pos hdisc]
        exact setAt_painted wy px y₀ m hb
      have hb' : inBounds (paintCell cx cy r2 m y₀ wy px) px y₀ :=
        (inBounds_congr hW hH px y₀).2 hb
      have hnot : ∀ x ∈ t, ((px : ℤ), y₀) ≠ (x, y₀) := by
        intro x hx he
        injection he with e1 _
        rw [e1] at hnd
        exact (List.nodup_cons.1 hnd).1 hx
      obtain ⟨fc, ft⟩ := paintCellFold_frame cx cy r2 m y₀ px y₀ t
        (paintCell cx cy r2 m y₀ wy px) (fun x hx => Or.inl (hnot x hx)) hb'
      have hWf : (t.foldl (paintCell cx cy r2 m y₀) (paintCell cx cy r2 m y₀ wy px)).width =
          (paintCell cx cy r2 m y₀ wy px).width := width_paintCellFold cx cy r2 m y₀ t _
      unfold PaintedAt at hstep ⊢
      rw [idx_congr hWf, fc, ft]
      exact hstep
    · have hmem' : px ∈ t := by
        rcases List.mem_cons.1 hmem with h | h
        · exact absurd h hax
        · exact h
      have hb' : inBounds (paintCell cx cy r2 m y₀ wy a) px y₀ :=
        (inBounds_congr hW hH px y₀).2 hb
      exact ih (paintCell cx cy r2 m y₀ wy a) (List.nodup_cons.1 hnd).2 hmem' hdisc hb'

/-- The outer fold does not touch a cell in none of its rows' writes. -/
theorem paintRowFold_frame (cx cy r2 : ℚ) (m : ℕ) (minX maxX p q : ℤ) :
    ∀ (ys : List ℤ) (w0 : W),
      (∀ y ∈ ys, q ≠ y ∨ ¬ inDisc cx cy r2 p q) → inBounds w0 p q →
      (ys.foldl (paintRow cx cy r2 m minX maxX) w0).cells (idx w0 p q) =
        w0.cells (idx w0 p q) ∧
      (ys.foldl (paintRow cx cy r2 m minX maxX) w0).timer (idx w0 p q) =
        w0.timer (idx w0 p q) := by
  intro ys
  induction ys with
  | nil => intro w0 _ _; exact ⟨rfl, rfl⟩
  | cons a t ih =>
    intro w0 h hp
    rw [List.foldl_cons]
    have hW : (paintRow cx cy r2 m minX maxX w0 a).width = w0.width :=
      width_paintCellFold cx cy r2 m a _ w0
    have hH : (paintRow cx cy r2 m minX maxX w0 a).height = w0.height :=
      height_paintCellFold cx cy r2 m a _ w0
    have hp' : inBounds (paintRow cx cy r2 m minX maxX w0 a) p q :=
      (inBounds_congr hW hH p q).2 hp
    obtain ⟨ic, it⟩ := ih (paintRow cx cy r2 m minX maxX w0 a)
      (fun y hy => h y (List.mem_cons_of_mem a hy)) hp'
    rw [idx_congr hW] at ic it
    rw [ic, it]
    unfold paintRow
    apply paintCellFold_frame
    · intro x _
      rcases h a (List.mem_cons_self a t) with hqa | hnd
      · exact Or.inl (by
          intro he
          injection he with _ e2
          exact hqa e2)
      · exact Or.inr hnd
    · exact hp

/-- The whole double loop paints every in-disc cell whose coordinates both
lie in the clamped ranges. -/
theorem paintRowFold_painted (cx cy r2 : ℚ) (m : ℕ) (minX maxX px py : ℤ)
    (hpx : px ∈ coordRange minX maxX) :
    ∀ (ys : List ℤ) (w0 : W), ys.Nodup → py ∈ ys → inDisc cx cy r2 px py →
      inBounds w0 px py →
      PaintedAt (ys.foldl (paintRow cx cy r2 m minX maxX) w0) px py m := by
  intro ys
  induction ys with
  | nil => intro w0 _ hmem; exact absurd hmem (List.not_mem_nil py)
  | cons a t ih =>
    intro w0 hnd hmem hdisc hb
    rw [List.foldl_cons]
    have hW : (paintRow cx cy r2 m minX maxX w0 a).width = w0.width :=
      width_paintCellFold cx cy r2 m a _ w0
    have hH : (paintRow cx cy r2 m minX maxX w0 a).height = w0.height :=
      height_paintCellFold cx cy r2 m a _ w0
    by_cases hay : py = a
    · subst hay
      have hstep : PaintedAt (paintRow cx cy r2 m minX maxX w0 py) px py m := by
        unfold paintRow
        exact paintCellFold_painted cx cy r2 m py px (coordRange minX maxX) w0
          (nodup_coordRange minX maxX) hpx hdisc hb
      have hb' : inBounds (paintRow cx cy r2 m minX maxX w0 py) px py :=
        (inBounds_congr hW hH px py).2 hb
      have hnot : ∀ y ∈ t, (py : ℤ) ≠ y := by
        intro y hy he
        rw [he] at hnd
        exact (List.nodup_cons.1 hnd).1 hy
      obtain ⟨fc, ft⟩ := paintRowFold_frame cx cy r2 m minX maxX px py t
        (paintRow cx cy r2 m minX maxX w0 py) (fun y hy => Or.inl (hnot y hy)) hb'
      have hWf : (t.foldl (paintRow cx cy r2 m minX maxX)
          (paintRow cx cy r2 m minX maxX w0 py)).width =
          (paintRow cx cy r2 m minX maxX w0 py).width := width_paintRowFold cx cy r2 m minX maxX t _
      unfold PaintedAt at hstep ⊢
      rw [idx_congr hWf, fc, ft]
      exact hstep
    · have hmem' : py ∈ t := by
        rcases List.mem_cons.1 hmem with h | h
        · exact absurd h hay
        · exact h
      have hb' : inBounds (paintRow cx cy r2 m minX maxX w0 a) px py :=
        (inBounds_congr hW hH px py).2 hb
      exact ih (paintRow cx cy r2 m minX maxX w0 a) (List.nodup_cons.1 hnd).2 hmem' hdisc hb'

theorem PaintedAt_congr {w1 w2 : W} (hW : w1.width = w2.width) (hc : w1.cells = w2.cells)
    (ht : w1.timer = w2.timer) (x y : ℤ) (m : ℕ) :
    PaintedAt w1 x y m ↔ PaintedAt w2 x y m := by
  unfold PaintedAt
  rw [idx_congr hW, hc, ht]

theorem paintCell_stable (cx cy r2 : ℚ) (m : ℕ) (y₀ : ℤ) (wx : W) (x : ℤ)
    (hP : inDisc cx cy r2 x y₀ → inBounds wx x y₀ → PaintedAt wx x y₀ m) :
    (paintCell cx cy r2 m y₀ wx x).cells = wx.cells ∧
    (paintCell cx cy r2 m y₀ wx x).timer = wx.timer ∧
    (paintCell cx cy r2 m y₀ wx x).updated = wx.updated := by
  unfold paintCell
  by_cases hd : inDisc cx cy r2 x y₀
  · rw [if_pos hd]
    by_cases hb : inBounds wx x y₀
    · exact setAt_stable wx x y₀ m (hP hd hb)
    · unfold setAt
      rw [if_neg hb]
      exact ⟨rfl, rfl, rfl⟩
  · rw [if_neg hd]
    exact ⟨rfl, rfl, rfl⟩

theorem paintCellFold_stable (cx cy r2 : ℚ) (m : ℕ) (y₀ : ℤ) :
    ∀ (xs : List ℤ) (wy : W),
      (∀ x ∈ xs, inDisc cx cy r2 x y₀ → inBounds wy x y₀ → PaintedAt wy x y₀ m) →
      (xs.foldl (paintCell cx cy r2 m y₀) wy).cells = wy.cells ∧
      (xs.foldl (paintCell cx cy r2 m y₀) wy).timer = wy.timer ∧
      (xs.foldl (paintCell cx cy r2 m y₀) wy).updated = wy.updated := by
  intro xs
  induction xs with
  | nil => intro wy _; exact ⟨rfl, rfl, rfl⟩
  | cons a t ih =>
    intro wy h
    rw [List.foldl_cons]
    obtain ⟨sc, st, su⟩ := paintCell_stable cx cy r2 m y₀ wy a (h a (List.mem_cons_self a t))
    have hW : (paintCell cx cy r2 m y₀ wy a).width = wy.width := width_paintCell cx cy r2 m y₀ wy a
    have hH : (paintCell cx cy r2 m y₀ wy a).height = wy.height :=
      height_paintCell cx cy r2 m y₀ wy a
    obtain ⟨ic, it, iu⟩ := ih (paintCell cx cy r2 m y₀ wy a) (fun x hx hd hb =>
      (PaintedAt_congr hW sc st x y₀ m).2
        (h x (List.mem_cons_of_mem a hx) hd ((inBounds_congr hW hH x y₀).1 hb)))
    rw [ic, it, iu, sc, st, su]
    exact ⟨rfl, rfl, rfl⟩

theorem paintRowFold_stable (cx cy r2 : ℚ) (m : ℕ) (minX maxX : ℤ) :
    ∀ (ys : List ℤ) (w0 : W),
      (∀ y ∈ ys, ∀ x ∈ coordRange minX maxX,
        inDisc cx cy r2 x y → inBounds w0 x y → PaintedAt w0 x y m) →
      (ys.foldl (paintRow cx cy r2 m minX maxX) w0).cells = w0.cells ∧
      (ys.foldl (paintRow cx cy r2 m minX maxX) w0).timer = w0.timer ∧
      (ys.foldl (paintRow cx cy r2 m minX maxX) w0).updated = w0.updated := by
  intro ys
  induction ys with
  | nil => intro w0 _; exact ⟨rfl, rfl, rfl⟩
  | cons a t ih =>
    intro w0 h
    rw [List.foldl_cons]
    obtain ⟨sc, st, su⟩ : (paintRow cx cy r2 m minX maxX w0 a).cells = w0.cells ∧
        (paintRow cx cy r2 m minX maxX w0 a).timer = w0.timer ∧
        (paintRow cx cy r2 m minX maxX w0 a).updated = w0.updated := by
      unfold paintRow
      exact paintCellFold_stable cx cy r2 m a (coordRange minX maxX) w0
        (fun x hx => h a (List.mem_cons_self a t) x hx)
    have hW : (paintRow cx cy r2 m minX maxX w0 a).width = w0.width :=
      width_paintCellFold cx cy r2 m a _ w0
    have hH : (paintRow cx cy r2 m minX maxX w0 a).height = w0.height :=
      height_paintCellFold cx cy r2 m a _ w0
    obtain ⟨ic, it, iu⟩ := ih (paintRow cx cy r2 m minX maxX w0 a) (fun y hy x hx hd hb =>
      (PaintedAt_congr hW sc st x y m).2
        (h y (List.mem_cons_of_mem a hy) x hx hd ((inBounds_congr hW hH x y).1 hb)))
    rw [ic, it, iu, sc, st, su]
    exact ⟨rfl, rfl, rfl⟩

theorem paintCircle_eq (w : W) (cx cy r : ℚ) (m : ℕ) :
    paintCircle w cx cy r m =
      (coordRange (max 0 ⌊cy - r⌋) (min (w.height - 1) ⌈cy + r⌉)).foldl
        (paintRow cx cy (r * r) m (max 0 ⌊cx - r⌋) (min (w.width - 1) ⌈cx + r⌉)) w := rfl

theorem width_paintCircle (w : W) (cx cy r : ℚ) (m : ℕ) :
    (paintCircle w cx cy r m).width = w.width := by
  unfold paintCircle
  exact width_paintRowFold cx cy (r * r) m _ _ _ w

theorem height_paintCircle (w : W) (cx cy r : ℚ) (m : ℕ) :
    (paintCircle w cx cy r m).height = w.height := by
  unfold paintCircle
  exact height_paintRowFold cx cy (r * r) m _ _ _ w

/-- Every in-bounds cell of the closed disc lies in the clamped bounding
box of `paintCircle` (this needs `0 ≤ r`). -/
theorem disc_mem_box (w : W) (cx cy r : ℚ) (px py : ℤ) (hr : 0 ≤ r)
    (hb : inBounds w px py) (hd : inDisc cx cy (r * r) px py) :
    px ∈ coordRange (max 0 ⌊cx - r⌋) (min (w.width - 1) ⌈cx + r⌉) ∧
    py ∈ coordRange (max 0 ⌊cy - r⌋) (min (w.height - 1) ⌈cy + r⌉) := by
  unfold inDisc at hd
  obtain ⟨h1, h2, h3, h4⟩ := hb
  have hx1 : cx - r ≤ (px : ℚ) := by nlinarith [mul_self_nonneg ((py : ℚ) - cy)]
  have hx2 : (px : ℚ) ≤ cx + r := by nlinarith [mul_self_nonneg ((py : ℚ) - cy)]
  have hy1 : cy - r ≤ (py : ℚ) := by nlinarith [mul_self_nonneg ((px : ℚ) - cx)]
  have hy2 : (py : ℚ) ≤ cy + r := by nlinarith [mul_self_nonneg ((px : ℚ) - cx)]
  constructor
  · rw [mem_coordRange]
    constructor
    · refine max_le h1 ?_
      have := Int.floor_mono hx1
      rwa [Int.floor_intCast] at this
    · refine le_min (by omega) ?_
      have := Int.ceil_mono hx2
      rwa [Int.ceil_intCast] at this
  · rw [mem_coordRange]
    constructor
    · refine max_le h3 ?_
      have := Int.floor_mono hy1
      rwa [Int.floor_intCast] at this
    · refine le_min (by omega) ?_
      have := Int.ceil_mono hy2
      rwa [Int.ceil_intCast] at this

/-- C5 — paint/read round-trip and idempotence: after `paintCircle`, every
in-bounds cell of the closed disc reads back the painted id, every cell
outside the disc keeps its material, and repeating the identical call
changes none of the grid state (cells, timers, mask; the ghost write
counters are instrumentation, not program state). -/
theorem C5_paint_roundtrip (w : W) (cx cy r : ℚ) (m : ℕ) (hr : 0 ≤ r) :
    (∀ px py : ℤ, inBounds w px py → inDisc cx cy (r * r) px py →
      getAt (paintCircle w cx cy r m) px py = m) ∧
    (∀ px py : ℤ, ¬ inDisc cx cy (r * r) px py →
      getAt (paintCircle w cx cy r m) px py = getAt w px py) ∧
    (paintCircle (paintCircle w cx cy r m) cx cy r m).cells = (paintCircle w cx cy r m).cells ∧
    (paintCircle (paintCircle w cx cy r m) cx cy r m).timer = (paintCircle w cx cy r m).timer ∧
    (paintCircle (paintCircle w cx cy r m) cx cy r m).updated =
      (paintCircle w cx cy r m).updated := by
  have hWp : (paintCircle w cx cy r m).width = w.width := width_paintCircle w cx cy r m
  have hHp : (paintCircle w cx cy r m).height = w.height := height_paintCircle w cx cy r m
  refine ⟨?_, ?_, ?_⟩
  · intro px py hb hd
    obtain ⟨hmx, hmy⟩ := disc_mem_box w cx cy r px py hr hb hd
    have hP : PaintedAt (paintCircle w cx cy r m) px py m := by
      unfold paintCircle
      exact paintRowFold_painted cx cy (r * r) m _ _ px py hmx _ w
        (nodup_coordRange _ _) hmy hd hb
    unfold getAt
    rw [if_pos ((inBounds_congr hWp hHp px py).2 hb)]
    exact hP.1
  · intro px py hd
    by_cases hb : inBounds w px py
    · have hfr := paintRowFold_frame cx cy (r * r) m
        (max 0 ⌊cx - r⌋) (min (w.width - 1) ⌈cx + r⌉) px py
        (coordRange (max 0 ⌊cy - r⌋) (min (w.height - 1) ⌈cy + r⌉)) w
        (fun y _ => Or.inr hd) hb
      unfold getAt
      rw [if_pos ((inBounds_congr hWp hHp px py).2 hb), if_pos hb]
      have : (paintCircle w cx cy r m).cells (idx w px py) = w.cells (idx w px py) := by
        unfold paintCircle
        exact hfr.1
      rw [idx_congr hWp px py]
      exact this
    · unfold getAt
      rw [if_neg (fun hc => hb ((inBounds_congr hWp hHp px py).1 hc)), if_neg hb]
  · -- idempotence: the second call repaints cells that already carry the
    -- painted observation
    have hprem : ∀ y ∈ coordRange (max 0 ⌊cy - r⌋) (min (w.height - 1) ⌈cy + r⌉),
        ∀ x ∈ coordRange (max 0 ⌊cx - r⌋) (min (w.width - 1) ⌈cx + r⌉),
        inDisc cx cy (r * r) x y → inBounds (paintCircle w cx cy r m) x y →
        PaintedAt (paintCircle w cx cy r m) x y m := by
      intro y hy x hx hd hb
      unfold paintCircle
      exact paintRowFold_painted cx cy (r * r) m _ _ x y hx _ w
        (nodup_coordRange _ _) hy hd ((inBounds_congr hWp hHp x y).1 hb)
    have hout := paintCircle_eq (paintCircle w cx cy r m) cx cy r m
    rw [hWp, hHp] at hout
    rw [hout]
    exact paintRowFold_stable cx cy (r * r) m (max 0 ⌊cx - r⌋) (min (w.width - 1) ⌈cx + r⌉)
      (coordRange (max 0 ⌊cy - r⌋) (min (w.height - 1) ⌈cy + r⌉))
      (paintCircle w cx cy r m) hprem

/-- Witness for C5 at the concrete call `paintCircle(1, 1, 1, sand)` on the
empty 4 × 4 demo world. -/
theorem C5_paint_roundtrip_witness :
    (∀ px py : ℤ, inBounds wDemo px py → inDisc 1 1 ((1 : ℚ) * 1) px py →
      getAt (paintCircle wDemo 1 1 1 sandId) px py = sandId) ∧
    (∀ px py : ℤ, ¬ inDisc 1 1 ((1 : ℚ) * 1) px py →
      getAt (paintCircle wDemo 1 1 1 sandId) px py = getAt wDemo px py) ∧
    (paintCircle (paintCircle wDemo 1 1 1 sandId) 1 1 1 sandId).cells =
      (paintCircle wDemo 1 1 1 sandId).cells ∧
    (paintCircle (paintCircle wDemo 1 1 1 sandId) 1 1 1 sandId).timer =
      (paintCircle wDemo 1 1 1 sandId).timer ∧
    (paintCircle (paintCircle wDemo 1 1 1 sandId) 1 1 1 sandId).updated =
      (paintCircle wDemo 1 1 1 sandId).updated :=
  C5_paint_roundtrip wDemo 1 1 1 sandId (by norm_num)

/-- Witness for C10 at the concrete cells `(0,0)` and `(1,0)` of the demo
world. -/
theorem C10_swap_exchanges_witness :
    (swap wDemo 0 0 1 0).cells (idx wDemo 0 0) = wDemo.cells (idx wDemo 1 0) ∧
    (swap wDemo 0 0 1 0).cells (idx wDemo 1 0) = wDemo.cells (idx wDemo 0 0) ∧
    (swap wDemo 0 0 1 0).timer (idx wDemo 0 0) = wDemo.timer (idx wDemo 1 0) ∧
    (swap wDemo 0 0 1 0).timer (idx wDemo 1 0) = wDemo.timer (idx wDemo 0 0) ∧
    (∀ j, j ≠ idx wDemo 0 0 → j ≠ idx wDemo 1 0 →
      (swap wDemo 0 0 1 0).cells j = wDemo.cells j ∧
      (swap wDemo 0 0 1 0).timer j = wDemo.timer j) ∧
    (swap wDemo 0 0 1 0).updated (idx wDemo 1 0) = true ∧
    (∀ j, j ≠ idx wDemo 1 0 → (swap wDemo 0 0 1 0).updated j = wDemo.updated j) :=
  C10_swap_exchanges wDemo 0 0 1 0 (by decide) (by decide) (by decide)

theorem width_markUpdated (w : W) (i : ℕ) : (markUpdated w i).width = w.width := rfl

theorem width_bumpDispatch (w : W) (i : ℕ) : (bumpDispatch w i).width = w.width := rfl

theorem dispatches_markUpdated (w : W) (i : ℕ) :
    (markUpdated w i).dispatches = w.dispatches := rfl

theorem dispatches_bumpDispatch (w : W) (i : ℕ) :
    (bumpDispatch w i).dispatches = Function.update w.dispatches i (w.dispatches i + 1) := rfl

theorem width_tryFallPowder (ρ : Rnd) (w : W) (c : ℕ) (x y : ℤ) :
    ((tryFallPowder ρ w c x y).2.1).width = w.width := by
  simp only [tryFallPowder]
  repeat' split
  all_goals simp [width_swap]

theorem dispatches_tryFallPowder (ρ : Rnd) (w : W) (c : ℕ) (x y : ℤ) :
    ((tryFallPowder ρ w c x y).2.1).dispatches = w.dispatches := by
  simp only [tryFallPowder]
  repeat' split
  all_goals simp [dispatches_swap]

theorem width_tryFlowWater (ρ : Rnd) (w : W) (c : ℕ) (x y : ℤ) :
    ((tryFlowWater ρ w c x y).2.1).width = w.width := by
  simp only [tryFlowWater]
  repeat' split
  all_goals simp [width_swap]

theorem dispatches_tryFlowWater (ρ : Rnd) (w : W) (c : ℕ) (x y : ℤ) :
    ((tryFlowWater ρ w c x y).2.1).dispatches = w.dispatches := by
  simp only [tryFlowWater]
  repeat' split
  all_goals simp [dispatches_swap]

theorem width_tryFlowOil (ρ : Rnd) (w : W) (c : ℕ) (x y : ℤ) :
    ((tryFlowOil ρ w c x y).2.1).width = w.width := by
  simp only [tryFlowOil]
  repeat' split
  all_goals simp [width_swap]

theorem dispatches_tryFlowOil (ρ : Rnd) (w : W) (c : ℕ) (x y : ℤ) :
    ((tryFlowOil ρ w c x y).2.1).dispatches = w.dispatches := by
  simp only [tryFlowOil]
  repeat' split
  all_goals simp [dispatches_swap]

theorem width_igniteNeighborFire (ρ : Rnd) (w : W) (c : ℕ) (xx yy : ℤ) :
    ((igniteNeighborFire ρ w c xx yy).1).width = w.width := by
  simp only [igniteNeighborFire]
  repeat' split
  all_goals simp [width_setEmber, width_setAt]

theorem dispatches_igniteNeighborFire (ρ : Rnd) (w : W) (c : ℕ) (xx yy : ℤ) :
    ((igniteNeighborFire ρ w c xx yy).1).dispatches = w.dispatches := by
  simp only [igniteNeighborFire]
  repeat' split
  all_goals simp [dispatches_setEmber, dispatches_setAt]

theorem width_tryRiseFire (ρ : Rnd) (w : W) (c : ℕ) (x y : ℤ) :
    ((tryRiseFire ρ w c x y).2.1).width = w.width := by
  simp only [tryRiseFire]
  repeat' split
  all_goals simp [width_setAt, width_swap, width_igniteNeighborFire]

theorem dispatches_tryRiseFire (ρ : Rnd) (w : W) (c : ℕ) (x y : ℤ) :
    ((tryRiseFire ρ w c x y).2.1).dispatches = w.dispatches := by
  simp only [tryRiseFire]
  repeat' split
  all_goals simp [dispatches_setAt, dispatches_swap, dispatches_igniteNeighborFire]

theorem width_tryRiseSmoke (ρ : Rnd) (w : W) (c : ℕ) (x y : ℤ) :
    ((tryRiseSmoke ρ w c x y).2.1).width = w.width := by
  simp only [tryRiseSmoke]
  repeat' split
  all_goals simp [width_setAt, width_swap]

theorem dispatches_tryRiseSmoke (ρ : Rnd) (w : W) (c : ℕ) (x y : ℤ) :
    ((tryRiseSmoke ρ w c x y).2.1).dispatches = w.dispatches := by
  simp only [tryRiseSmoke]
  repeat' split
  all_goals simp [dispatches_setAt, dispatches_swap]

theorem width_tryRiseSteam (ρ : Rnd) (w : W) (c : ℕ) (x y : ℤ) :
    ((tryRiseSteam ρ w c x y).2.1).width = w.width := by
  simp only [tryRiseSteam]
  repeat' split
  all_goals simp [width_setAt, width_swap]

theorem dispatches_tryRiseSteam (ρ : Rnd) (w : W) (c : ℕ) (x y : ℤ) :
    ((tryRiseSteam ρ w c x y).2.1).dispatches = w.dispatches := by
  simp only [tryRiseSteam]
  repeat' split
  all_goals simp [dispatches_setAt, dispatches_swap]

theorem width_tryFlowLava (ρ : Rnd) (w : W) (c : ℕ) (x y : ℤ) :
    ((tryFlowLava ρ w c x y).2.1).width = w.width := by
  simp only [tryFlowLava]
  repeat' split
  all_goals simp [width_swap]

theorem dispatches_tryFlowLava (ρ : Rnd) (w : W) (c : ℕ) (x y : ℤ) :
    ((tryFlowLava ρ w c x y).2.1).dispatches = w.dispatches := by
  simp only [tryFlowLava]
  repeat' split
  all_goals simp [dispatches_swap]

theorem width_tryEmber (ρ : Rnd) (w : W) (c : ℕ) (x y : ℤ) :
    ((tryEmber ρ w c x y).2.1).width = w.width := by
  simp only [tryEmber]
  repeat' split
  all_goals simp [width_setAt, width_swap]

theorem dispatches_tryEmber (ρ : Rnd) (w : W) (c : ℕ) (x y : ℤ) :
    ((tryEmber ρ w c x y).2.1).dispatches = w.dispatches := by
  simp only [tryEmber]
  repeat' split
  all_goals simp [dispatches_setAt, dispatches_swap]

theorem width_tryMeltIce (ρ : Rnd) (w : W) (c : ℕ) (x y : ℤ) :
    ((tryMeltIce ρ w c x y).2.1).width = w.width := by
  simp only [tryMeltIce]
  repeat' split
  all_goals simp [width_setAt, width_swap]

theorem dispatches_tryMeltIce (ρ : Rnd) (w : W) (c : ℕ) (x y : ℤ) :
    ((tryMeltIce ρ w c x y).2.1).dispatches = w.dispatches := by
  simp only [tryMeltIce]
  repeat' split
  all_goals simp [dispatches_setAt, dispatches_swap]

theorem width_tryCorrode (ρ : Rnd) (w : W) (c : ℕ) (x y : ℤ) :
    ((tryCorrode ρ w c x y).2.1).width = w.width := by
  simp only [tryCorrode]
  repeat' split
  all_goals simp [width_swap]

theorem dispatches_tryCorrode (ρ : Rnd) (w : W) (c : ℕ) (x y : ℤ) :
    ((tryCorrode ρ w c x y).2.1).dispatches = w.dispatches := by
  simp only [tryCorrode]
  repeat' split
  all_goals simp [dispatches_swap]

theorem width_plasmaSpread (ρ : Rnd) (l : List (ℤ × ℤ)) : ∀ (w : W) (c : ℕ),
    ((plasmaSpread ρ w c l).1).width = w.width := by
  induction l with
  | nil => intro w c; rfl
  | cons p rest ih =>
    intro w c
    simp only [plasmaSpread]
    split
    · rw [ih]
      split
      · exact width_setAt w p.1 p.2 plasmaId
      · rfl
    · exact ih w c

theorem dispatches_plasmaSpread (ρ : Rnd) (l : List (ℤ × ℤ)) : ∀ (w : W) (c : ℕ),
    ((plasmaSpread ρ w c l).1).dispatches = w.dispatches := by
  induction l with
  | nil => intro w c; rfl
  | cons p rest ih =>
    intro w c
    simp only [plasmaSpread]
    split
    · rw [ih]
      split
      · exact dispatches_setAt w p.1 p.2 plasmaId
      · rfl
    · exact ih w c

theorem width_tryPlasma (ρ : Rnd) (w : W) (c : ℕ) (x y : ℤ) :
    ((tryPlasma ρ w c x y).2.1).width = w.width := by
  simp only [tryPlasma]
  repeat' split
  all_goals simp [width_setAt, width_swap, width_plasmaSpread]

theorem dispatches_tryPlasma (ρ : Rnd) (w : W) (c : ℕ) (x y : ℤ) :
    ((tryPlasma ρ w c x y).2.1).dispatches = w.dispatches := by
  simp only [tryPlasma]
  repeat' split
  all_goals simp [dispatches_setAt, dispatches_swap, dispatches_plasmaSpread]

theorem width_elecLoop (ρ : Rnd) (l : List (ℤ × ℤ)) : ∀ (w : W) (c : ℕ),
    ((elecLoop ρ w c l).2.1).width = w.width := by
  induction l with
  | nil => intro w c; rfl
  | cons p rest ih =>
    intro w c
    simp only [elecLoop]
    repeat' split
    all_goals simp [width_setAt, ih]

theorem dispatches_elecLoop (ρ : Rnd) (l : List (ℤ × ℤ)) : ∀ (w : W) (c : ℕ),
    ((elecLoop ρ w c l).2.1).dispatches = w.dispatches := by
  induction l with
  | nil => intro w c; rfl
  | cons p rest ih =>
    intro w c
    simp only [elecLoop]
    repeat' split
    all_goals simp [dispatches_setAt, ih]

theorem width_tryElectricity (ρ : Rnd) (w : W) (c : ℕ) (x y : ℤ) :
    ((tryElectricity ρ w c x y).2.1).width = w.width := by
  simp only [tryElectricity]
  repeat' split
  all_goals simp [width_setAt, width_swap, width_elecLoop]

theorem dispatches_tryElectricity (ρ : Rnd) (w : W) (c : ℕ) (x y : ℤ) :
    ((tryElectricity ρ w c x y).2.1).dispatches = w.dispatches := by
  simp only [tryElectricity]
  repeat' split
  all_goals simp [dispatches_setAt, dispatches_swap, dispatches_elecLoop]

theorem width_afterRule (r : Bool × W × ℕ) (i : ℕ) :
    ((afterRule r i).1).width = r.2.1.width := by
  unfold afterRule; split <;> rfl

theorem dispatches_afterRule (r : Bool × W × ℕ) (i : ℕ) :
    ((afterRule r i).1).dispatches = r.2.1.dispatches := by
  unfold afterRule; split <;> rfl

theorem dispatchRule_pres (ρ : Rnd) (w : W) (c : ℕ) (x y : ℤ) (i : ℕ) :
    ((dispatchRule ρ w c x y i).1).width = w.width ∧
    ((dispatchRule ρ w c x y i).1).dispatches = w.dispatches := by
  have hA : ∀ r : Bool × W × ℕ, r.2.1.width = w.width → r.2.1.dispatches = w.dispatches →
      ((afterRule r i).1).width = w.width ∧ ((afterRule r i).1).dispatches = w.dispatches :=
    fun r h1 h2 => ⟨(width_afterRule r i).trans h1, (dispatches_afterRule r i).trans h2⟩
  delta dispatchRule
  by_cases h1 : w.cells i = sandId
  · rw [if_pos h1]
    exact hA _ (width_tryFallPowder ρ w c x y) (dispatches_tryFallPowder ρ w c x y)
  rw [if_neg h1]
  by_cases h2 : w.cells i = waterId
  · rw [if_pos h2]
    exact hA _ (width_tryFlowWater ρ w c x y) (dispatches_tryFlowWater ρ w c x y)
  rw [if_neg h2]
  by_cases h3 : w.cells i = oilId
  · rw [if_pos h3]
    exact hA _ (width_tryFlowOil ρ w c x y) (dispatches_tryFlowOil ρ w c x y)
  rw [if_neg h3]
  by_cases h4 : w.cells i = fireId
  · rw [if_pos h4]
    exact hA _ (width_tryRiseFire ρ w c x y) (dispatches_tryRiseFire ρ w c x y)
  rw [if_neg h4]
  by_cases h5 : w.cells i = smokeId
  · rw [if_pos h5]
    exact hA _ (width_tryRiseSmoke ρ w c x y) (dispatches_tryRiseSmoke ρ w c x y)
  rw [if_neg h5]
  by_cases h6 : w.cells i = steamId
  · rw [if_pos h6]
    exact hA _ (width_tryRiseSteam ρ w c x y) (dispatches_tryRiseSteam ρ w c x y)
  rw [if_neg h6]
  by_cases h7 : w.cells i = lavaId
  · rw [if_pos h7]
    exact hA _ (width_tryFlowLava ρ w c x y) (dispatches_tryFlowLava ρ w c x y)
  rw [if_neg h7]
  by_cases h8 : w.cells i = emberId
  · rw [if_pos h8]
    exact hA _ (width_tryEmber ρ w c x y) (dispatches_tryEmber ρ w c x y)
  rw [if_neg h8]
  by_cases h9 : w.cells i = iceId
  · rw [if_pos h9]
    exact hA _ (width_tryMeltIce ρ w c x y) (dispatches_tryMeltIce ρ w c x y)
  rw [if_neg h9]
  by_cases h10 : w.cells i = acidId
  · rw [if_pos h10]
    exact hA _ (width_tryCorrode ρ w c x y) (dispatches_tryCorrode ρ w c x y)
  rw [if_neg h10]
  by_cases h11 : w.cells i = plasmaId
  · rw [if_pos h11]
    exact hA _ (width_tryPlasma ρ w c x y) (dispatches_tryPlasma ρ w c x y)
  rw [if_neg h11]
  by_cases h12 : w.cells i = electricityId
  · rw [if_pos h12]
    exact hA _ (width_tryElectricity ρ w c x y) (dispatches_tryElectricity ρ w c x y)
  rw [if_neg h12]
  exact ⟨rfl, rfl⟩

theorem width_dispatchRule (ρ : Rnd) (w : W) (c : ℕ) (x y : ℤ) (i : ℕ) :
    ((dispatchRule ρ w c x y i).1).width = w.width :=
  (dispatchRule_pres ρ w c x y i).1

theorem dispatches_dispatchRule (ρ : Rnd) (w : W) (c : ℕ) (x y : ℤ) (i : ℕ) :
    ((dispatchRule ρ w c x y i).1).dispatches = w.dispatches :=
  (dispatchRule_pres ρ w c x y i).2

theorem width_processCell (ρ : Rnd) (w : W) (c : ℕ) (x y : ℤ) :
    ((processCell ρ w c x y).1).width = w.width := by
  simp only [processCell]
  split
  · rfl
  · rw [width_dispatchRule, width_bumpDispatch]

theorem update_succ_le (f : ℕ → ℕ) (i j : ℕ) :
    Function.update f i (f i + 1) j ≤ f j + (if j = i then 1 else 0) := by
  rw [Function.update_apply]
  by_cases h : j = i
  · subst h; simp
  · simp [h]

theorem dispatches_processCell_le (ρ : Rnd) (w : W) (c : ℕ) (x y : ℤ) (j : ℕ) :
    ((processCell ρ w c x y).1).dispatches j ≤
      w.dispatches j + (if j = idx w x y then 1 else 0) := by
  simp only [processCell]
  split
  · exact Nat.le_add_right _ _
  · rw [dispatches_dispatchRule, dispatches_bumpDispatch]
    exact update_succ_le w.dispatches (idx w x y) j

theorem dispatches_processCell_ne (ρ : Rnd) (w : W) (c : ℕ) (x y : ℤ) (j : ℕ)
    (hj : j ≠ idx w x y) :
    ((processCell ρ w c x y).1).dispatches j = w.dispatches j := by
  simp only [processCell]
  split
  · rfl
  · rw [dispatches_dispatchRule, dispatches_bumpDispatch]
    exact Function.update_noteq hj _ _

/-- Row·width+column indices of in-range cells are pairwise distinct
across the traversal box. -/
theorem toIdx_inj (W0 : ℤ) {x1 y1 x2 y2 : ℤ} (hx1 : 0 ≤ x1) (hxw1 : x1 < W0) (hy1 : 0 ≤ y1)
    (hx2 : 0 ≤ x2) (hxw2 : x2 < W0) (hy2 : 0 ≤ y2)
    (h : (y1 * W0 + x1).toNat = (y2 * W0 + x2).toNat) : x1 = x2 ∧ y1 = y2 := by
  have hW : 0 < W0 := lt_of_le_of_lt hx1 hxw1
  have n1 : 0 ≤ y1 * W0 + x1 := add_nonneg (mul_nonneg hy1 hW.le) hx1
  have n2 : 0 ≤ y2 * W0 + x2 := add_nonneg (mul_nonneg hy2 hW.le) hx2
  have e : y1 * W0 + x1 = y2 * W0 + x2 := by
    have := congrArg (fun n : ℕ => (n : ℤ)) h
    simpa [Int.toNat_of_nonneg n1, Int.toNat_of_nonneg n2] using this
  have d1 : (y1 * W0 + x1) / W0 = y1 := by
    rw [add_comm, Int.add_mul_ediv_right _ _ (ne_of_gt hW),
      Int.ediv_eq_zero_of_lt hx1 hxw1, zero_add]
  have d2 : (y2 * W0 + x2) / W0 = y2 := by
    rw [add_comm, Int.add_mul_ediv_right _ _ (ne_of_gt hW),
      Int.ediv_eq_zero_of_lt hx2 hxw2, zero_add]
  have hy : y1 = y2 := by rw [← d1, ← d2, e]
  subst hy
  exact ⟨add_left_cancel e, rfl⟩

theorem idx_eq_toIdx (w : W) (W0 x y : ℤ) (hw : w.width = W0) :
    idx w x y = (y * W0 + x).toNat := by
  unfold idx
  rw [hw]

theorem mem_xsFor (W0 : ℤ) (b : Bool) (x : ℤ) : x ∈ xsFor W0 b ↔ 0 ≤ x ∧ x < W0 := by
  have base : x ∈ (List.range W0.toNat).map (fun k : ℕ => (k : ℤ)) ↔ 0 ≤ x ∧ x < W0 := by
    rw [List.mem_map]
    constructor
    · rintro ⟨k, hk, rfl⟩
      rw [List.mem_range] at hk
      omega
    · intro h
      refine ⟨x.toNat, ?_, by omega⟩
      rw [List.mem_range]
      omega
  cases b
  · exact Iff.trans List.mem_reverse base
  · exact base

theorem nodup_xsFor (W0 : ℤ) (b : Bool) : (xsFor W0 b).Nodup := by
  have base : ((List.range W0.toNat).map (fun k : ℕ => (k : ℤ))).Nodup :=
    (List.nodup_range W0.toNat).map (fun a b h => by exact_mod_cast h)
  cases b
  · exact List.nodup_reverse.2 base
  · exact base

theorem nodup_xsFor_keys (W0 : ℤ) (b : Bool) (y : ℤ) (hy : 0 ≤ y) :
    ((xsFor W0 b).map (fun x => (y * W0 + x).toNat)).Nodup := by
  refine (nodup_xsFor W0 b).map_on ?_
  intro x1 h1 x2 h2 he
  rw [mem_xsFor] at h1 h2
  have hW : 0 < W0 := lt_of_le_of_lt h1.1 h1.2
  have n1 : 0 ≤ y * W0 + x1 := add_nonneg (mul_nonneg hy hW.le) h1.1
  have n2 : 0 ≤ y * W0 + x2 := add_nonneg (mul_nonneg hy hW.le) h2.1
  have : y * W0 + x1 = y * W0 + x2 := by
    have := congrArg (fun n : ℕ => (n : ℤ)) he
    simpa [Int.toNat_of_nonneg n1, Int.toNat_of_nonneg n2] using this
  exact add_left_cancel this

theorem mem_rowList (h : ℤ) (y : ℤ) : y ∈ rowList h ↔ 0 ≤ y ∧ y < h := by
  unfold rowList
  rw [List.mem_map]
  constructor
  · rintro ⟨k, hk, rfl⟩
    rw [List.mem_reverse, List.mem_range] at hk
    omega
  · intro hy
    refine ⟨y.toNat, ?_, by omega⟩
    rw [List.mem_reverse, List.mem_range]
    omega

theorem nodup_rowList (h : ℤ) : (rowList h).Nodup := by
  unfold rowList
  exact (List.nodup_reverse.2 (List.nodup_range h.toNat)).map (fun a b hab => by exact_mod_cast hab)

theorem width_cellsFold (ρ : Rnd) (y : ℤ) (xs : List ℤ) : ∀ s : W × ℕ,
    ((xs.foldl (processCellStep ρ y) s).1).width = s.1.width := by
  induction xs with
  | nil => intro s; rfl
  | cons a t ih =>
    intro s
    rw [List.foldl_cons]
    exact (ih _).trans (width_processCell ρ s.1 s.2 a y)

/-- A cell whose index is hit by no column of the scan keeps its dispatch
count through the row's cell loop. -/
theorem dispatches_cellsFold_ne (ρ : Rnd) (y : ℤ) (W0 : ℤ) (xs : List ℤ) :
    ∀ (s : W × ℕ) (j : ℕ), s.1.width = W0 → (∀ x ∈ xs, j ≠ (y * W0 + x).toNat) →
    ((xs.foldl (processCellStep ρ y) s).1).dispatches j = s.1.dispatches j := by
  induction xs with
  | nil => intro s j _ _; rfl
  | cons a t ih =>
    intro s j hw hno
    rw [List.foldl_cons]
    have hja : j ≠ idx s.1 a y := by
      rw [idx_eq_toIdx s.1 W0 a y hw]
      exact hno a (List.mem_cons_self a t)
    have h1 : ((processCellStep ρ y s a).1).dispatches j = s.1.dispatches j :=
      dispatches_processCell_ne ρ s.1 s.2 a y j hja
    have hw1 : ((processCellStep ρ y s a).1).width = W0 :=
      (width_processCell ρ s.1 s.2 a y).trans hw
    rw [ih (processCellStep ρ y s a) j hw1
      (fun x hx => hno x (List.mem_cons_of_mem a hx)), h1]

/-- One row's cell loop raises any single cell's dispatch count by at most
one (the scanned indices are pairwise distinct). -/
theorem dispatches_cellsFold_le (ρ : Rnd) (y : ℤ) (W0 : ℤ) (xs : List ℤ) :
    ∀ (s : W × ℕ) (j : ℕ), s.1.width = W0 →
    (xs.map (fun x => (y * W0 + x).toNat)).Nodup →
    ((xs.foldl (processCellStep ρ y) s).1).dispatches j ≤ s.1.dispatches j + 1 := by
  induction xs with
  | nil => intro s j _ _; exact Nat.le_add_right _ _
  | cons a t ih =>
    intro s j hw hnd
    rw [List.map_cons, List.nodup_cons] at hnd
    rw [List.foldl_cons]
    have hw1 : ((processCellStep ρ y s a).1).width = W0 :=
      (width_processCell ρ s.1 s.2 a y).trans hw
    by_cases hja : j = (y * W0 + a).toNat
    · have hfr : ((t.foldl (processCellStep ρ y) (processCellStep ρ y s a)).1).dispatches j =
          ((processCellStep ρ y s a).1).dispatches j :=
        dispatches_cellsFold_ne ρ y W0 t (processCellStep ρ y s a) j hw1
          (fun x hx hjx => hnd.1 (by
            rw [hja.symm.trans hjx]
            exact List.mem_map.2 ⟨x, hx, rfl⟩))
      rw [hfr]
      have hle : ((processCellStep ρ y s a).1).dispatches j ≤
          s.1.dispatches j + (if j = idx s.1 a y then 1 else 0) :=
        dispatches_processCell_le ρ s.1 s.2 a y j
      have hite : (if j = idx s.1 a y then 1 else 0) ≤ 1 := by split <;> omega
      omega
    · have h1 : ((processCellStep ρ y s a).1).dispatches j = s.1.dispatches j :=
        dispatches_processCell_ne ρ s.1 s.2 a y j (by
          rw [idx_eq_toIdx s.1 W0 a y hw]
          exact hja)
      have h2 := ih (processCellStep ρ y s a) j hw1 hnd.2
      omega

theorem width_processRow (ρ : Rnd) (s : W × ℕ) (y : ℤ) :
    ((processRow ρ s y).1).width = s.1.width := by
  simp only [processRow]
  exact width_cellsFold ρ y _ (s.1, s.2 + 1)

theorem dispatches_processRow_le (ρ : Rnd) (W0 : ℤ) (s : W × ℕ) (y : ℤ) (j : ℕ)
    (hw : s.1.width = W0) (hy : 0 ≤ y) :
    ((processRow ρ s y).1).dispatches j ≤ s.1.dispatches j + 1 := by
  simp only [processRow]
  have hw' : ((s.1, s.2 + 1) : W × ℕ).1.width = W0 := hw
  rw [hw']
  exact dispatches_cellsFold_le ρ y W0 _ (s.1, s.2 + 1) j hw'
    (nodup_xsFor_keys W0 _ y hy)

theorem dispatches_processRow_ne (ρ : Rnd) (W0 : ℤ) (s : W × ℕ) (y : ℤ) (j : ℕ)
    (hw : s.1.width = W0)
    (hno : ∀ x : ℤ, 0 ≤ x → x < W0 → j ≠ (y * W0 + x).toNat) :
    ((processRow ρ s y).1).dispatches j = s.1.dispatches j := by
  simp only [processRow]
  have hw' : ((s.1, s.2 + 1) : W × ℕ).1.width = W0 := hw
  rw [hw']
  exact dispatches_cellsFold_ne ρ y W0 _ (s.1, s.2 + 1) j hw'
    (fun x hx =>
      hno x ((mem_xsFor W0 _ x).1 hx).1 ((mem_xsFor W0 _ x).1 hx).2)

theorem width_rowsFold (ρ : Rnd) (ys : List ℤ) : ∀ s : W × ℕ,
    ((ys.foldl (processRow ρ) s).1).width = s.1.width := by
  induction ys with
  | nil => intro s; rfl
  | cons a t ih =>
    intro s
    rw [List.foldl_cons]
    exact (ih _).trans (width_processRow ρ s a)

/-- A cell whose index is hit by no listed row keeps its dispatch count
through the rows of the movement pass. -/
theorem dispatches_rowsFold_ne (ρ : Rnd) (W0 : ℤ) (ys : List ℤ) :
    ∀ (s : W × ℕ) (j : ℕ), s.1.width = W0 →
    (∀ y ∈ ys, ∀ x : ℤ, 0 ≤ x → x < W0 → j ≠ (y * W0 + x).toNat) →
    ((ys.foldl (processRow ρ) s).1).dispatches j = s.1.dispatches j := by
  induction ys with
  | nil => intro s j _ _; rfl
  | cons a t ih =>
    intro s j hw hno
    rw [List.foldl_cons]
    have h1 : ((processRow ρ s a).1).dispatches j = s.1.dispatches j :=
      dispatches_processRow_ne ρ W0 s a j hw (hno a (List.mem_cons_self a t))
    have hw1 : ((processRow ρ s a).1).width = W0 := (width_processRow ρ s a).trans hw
    rw [ih (processRow ρ s a) j hw1
      (fun y hy => hno y (List.mem_cons_of_mem a hy)), h1]

/-- The whole movement pass raises any single cell's dispatch count by at
most one: each cell belongs to exactly one row of the traversal, and
within a row the scanned indices are pairwise distinct. -/
theorem dispatches_rowsFold_le (ρ : Rnd) (W0 : ℤ) (ys : List ℤ) :
    ∀ (s : W × ℕ) (j : ℕ), s.1.width = W0 → (∀ y ∈ ys, 0 ≤ y) → ys.Nodup →
    ((ys.foldl (processRow ρ) s).1).dispatches j ≤ s.1.dispatches j + 1 := by
  induction ys with
  | nil => intro s j _ _ _; exact Nat.le_add_right _ _
  | cons a t ih =>
    intro s j hw hpos hnd
    rw [List.nodup_cons] at hnd
    rw [List.foldl_cons]
    have hw1 : ((processRow ρ s a).1).width = W0 := (width_processRow ρ s a).trans hw
    by_cases hja : ∃ x : ℤ, 0 ≤ x ∧ x < W0 ∧ j = (a * W0 + x).toNat
    · obtain ⟨x0, hx0, hx0W, hjx0⟩ := hja
      have hfr : ((t.foldl (processRow ρ) (processRow ρ s a)).1).dispatches j =
          ((processRow ρ s a).1).dispatches j := by
        refine dispatches_rowsFold_ne ρ W0 t (processRow ρ s a) j hw1 ?_
        intro yy hyy x hx hxW hj
        have hya : 0 ≤ a := hpos a (List.mem_cons_self a t)
        have hyy0 : 0 ≤ yy := hpos yy (List.mem_cons_of_mem a hyy)
        have heq := toIdx_inj W0 hx0 hx0W hya hx hxW hyy0 (hjx0.symm.trans hj)
        exact hnd.1 (by rw [heq.2]; exact hyy)
      rw [hfr]
      exact dispatches_processRow_le ρ W0 s a j hw (hpos a (List.mem_cons_self a t))
    · have h1 : ((processRow ρ s a).1).dispatches j = s.1.dispatches j :=
        dispatches_processRow_ne ρ W0 s a j hw (fun x hx hxW hj => hja ⟨x, hx, hxW, hj⟩)
      have h2 := ih (processRow ρ s a) j hw1
        (fun y hy => hpos y (List.mem_cons_of_mem a hy)) hnd.2
      omega

/-- C1 — counterexample: one movement pass can mutate a single grid cell
twice.  In the 5 × 1 world `[empty, stone, water, stone, water]` with the
all-zero draw stream, the water at column 2 spreads left into column 0
(first mutation of cell 2, as the source of a move), and the water at
column 4 then spreads left into the now-empty cell 2 (second mutation, as
the destination of a move): the instrumented write counter of cell 2 ends
the pass at 2. -/
theorem C1_cell_written_twice_cex :
    ((stepMovement rho0 wC1 0).1).writes 2 = 2 := by
  have h2 : tryFlowWater rho0 (bumpDispatch wC1b 2) 1 2 0 =
      (true, swap (bumpDispatch wC1b 2) 2 0 0 0, 4) := by
    simp only [tryFlowWater]
    rw [if_pos (show rho0 1 < (0.5 : ℚ) from by norm_num [rho0]),
      show (waterMaxSpread (rho0 (1+1))).toNat = 5 from by
        rw [show waterMaxSpread (rho0 (1+1)) = 5 from by norm_num [waterMaxSpread, rho0]]
        decide,
      if_pos (show rho0 (1+1+1) < (0.5 : ℚ) from by norm_num [rho0])]
    rfl
  have h4 : tryFlowWater rho0 (bumpDispatch wC1d 4) 4 4 0 =
      (true, swap (bumpDispatch wC1d 4) 4 0 2 0, 7) := by
    simp only [tryFlowWater]
    rw [if_pos (show rho0 4 < (0.5 : ℚ) from by norm_num [rho0]),
      show (waterMaxSpread (rho0 (4+1))).toNat = 5 from by
        rw [show waterMaxSpread (rho0 (4+1)) = 5 from by norm_num [waterMaxSpread, rho0]]
        decide,
      if_pos (show rho0 (4+1+1) < (0.5 : ℚ) from by norm_num [rho0])]
    rfl
  have hstep : stepMovement rho0 wC1 0 =
      List.foldl (processCellStep rho0 0) ({ wC1 with updated := fun _ => false }, 1)
        (xsFor 5 (decide (rho0 0 < 0.5))) := rfl
  rw [decide_eq_true (show rho0 0 < (0.5 : ℚ) from by norm_num [rho0])] at hstep
  have e01 : List.foldl (processCellStep rho0 0) ({ wC1 with updated := fun _ => false }, 1)
      (xsFor 5 true) = List.foldl (processCellStep rho0 0) (wC1b, 1) [2, 3, 4] := rfl
  have e2 : List.foldl (processCellStep rho0 0) (wC1b, 1) [2, 3, 4] =
      List.foldl (processCellStep rho0 0)
        (afterRule (tryFlowWater rho0 (bumpDispatch wC1b 2) 1 2 0) 2) [3, 4] := rfl
  have e3 : List.foldl (processCellStep rho0 0) (wC1c, 4) [3, 4] =
      List.foldl (processCellStep rho0 0)
        (afterRule (tryFlowWater rho0 (bumpDispatch wC1d 4) 4 4 0) 4) [] := rfl
  rw [hstep, e01, e2, h2,
    show afterRule (true, swap (bumpDispatch wC1b 2) 2 0 0 0, 4) 2 = (wC1c, 4) from rfl,
    e3, h4,
    show afterRule (true, swap (bumpDispatch wC1d 4) 4 0 2 0, 7) 4 = (wC1e, 7) from rfl]
  decide

/-- C1 (amended) — no cell is processed twice in one tick: the movement
pass of `step()` dispatches a movement rule to each grid cell at most
once (the bottom-up row traversal visits every cell index exactly once,
whatever lateral direction each row draws, and a masked cell is skipped
without a dispatch).  A cell can however be *mutated* twice in one pass —
as the source of one move and the destination of a later one — since only
the destination of a move is masked. -/
theorem C1_cell_dispatched_at_most_once (ρ : Rnd) (w : W) (c : ℕ) (j : ℕ)
    (h0 : w.dispatches j = 0) :
    ((stepMovement ρ w c).1).dispatches j ≤ 1 := by
  have hres : ((stepMovement ρ w c).1).dispatches j ≤
      ({ w with updated := fun _ => false } : W).dispatches j + 1 :=
    dispatches_rowsFold_le ρ w.width (rowList w.height)
      ({ w with updated := fun _ => false }, c) j rfl
      (fun y hy => ((mem_rowList w.height y).1 hy).1)
      (nodup_rowList w.height)
  have h0' : ({ w with updated := fun _ => false } : W).dispatches j = 0 := h0
  omega

/-- Witness for the amended C1 at cell 2 of the counterexample world: the
very cell that is written twice is still dispatched only once. -/
theorem C1_cell_dispatched_at_most_once_witness :
    wC1.dispatches 2 = 0 ∧ ((stepMovement rho0 wC1 0).1).dispatches 2 ≤ 1 :=
  ⟨rfl, C1_cell_dispatched_at_most_once rho0 wC1 0 2 rfl⟩

theorem fireTickP_pres (p : P) :
    (fireTickP p).alive = p.alive ∧ (fireTickP p).deaths = p.deaths ∧
    (fireTickP p).gibsSpawned = p.gibsSpawned ∧ (fireTickP p).gibEvents = p.gibEvents := by
  unfold fireTickP
  repeat' split
  all_goals exact ⟨rfl, rfl, rfl, rfl⟩

theorem hazardP_pres (a b c : ℕ) (p : P) :
    (hazardP a b c p).alive = p.alive ∧ (hazardP a b c p).deaths = p.deaths ∧
    (hazardP a b c p).gibsSpawned = p.gibsSpawned ∧
    (hazardP a b c p).gibEvents = p.gibEvents := by
  simp only [hazardP]
  repeat' split
  all_goals exact ⟨rfl, rfl, rfl, rfl⟩

theorem burnP_pres (p : P) :
    (burnP p).alive = p.alive ∧ (burnP p).deaths = p.deaths ∧
    (burnP p).gibsSpawned = p.gibsSpawned ∧ (burnP p).gibEvents = p.gibEvents := by
  unfold burnP
  repeat' split
  all_goals exact ⟨rfl, rfl, rfl, rfl⟩

theorem waterP_pres (tw : Bool) (p : P) :
    (waterP tw p).alive = p.alive ∧ (waterP tw p).deaths = p.deaths ∧
    (waterP tw p).gibsSpawned = p.gibsSpawned ∧ (waterP tw p).gibEvents = p.gibEvents := by
  unfold waterP
  repeat' split
  all_goals exact ⟨rfl, rfl, rfl, rfl⟩

/-- One event preserves the bookkeeping invariant: the death counter holds
exactly the number of alive→dead transitions seen so far (0 while alive, 1
once dead), and the gib counter is 1 exactly when the gibs-spawned guard
flag is set. -/
theorem applyEv_inv (p : P) (e : Ev)
    (h1 : p.deaths = if p.alive then 0 else 1)
    (h2 : p.gibEvents = if p.gibsSpawned then 1 else 0) :
    ((applyEv p e).deaths = if (applyEv p e).alive then 0 else 1) ∧
    ((applyEv p e).gibEvents = if (applyEv p e).gibsSpawned then 1 else 0) := by
  cases e with
  | tick a b c tw =>
    show ((tickPerson a b c tw p).deaths =
        if (tickPerson a b c tw p).alive then 0 else 1) ∧
      ((tickPerson a b c tw p).gibEvents =
        if (tickPerson a b c tw p).gibsSpawned then 1 else 0)
    by_cases halive : p.alive = false
    · rw [show tickPerson a b c tw p = p from by
        simp only [tickPerson]; rw [if_pos halive]]
      exact ⟨h1, h2⟩
    · rw [show tickPerson a b c tw p =
          deathCheckP (waterP tw (burnP (hazardP a b c (fireTickP p)))) from by
        simp only [tickPerson]; rw [if_neg halive]]
      obtain ⟨f1, f2, f3, f4⟩ := fireTickP_pres p
      obtain ⟨z1, z2, z3, z4⟩ := hazardP_pres a b c (fireTickP p)
      obtain ⟨b1, b2, b3, b4⟩ := burnP_pres (hazardP a b c (fireTickP p))
      obtain ⟨w1, w2, w3, w4⟩ := waterP_pres tw (burnP (hazardP a b c (fireTickP p)))
      have hpt : p.alive = true := by revert halive; cases p.alive <;> simp
      have qa : (waterP tw (burnP (hazardP a b c (fireTickP p)))).alive = true := by
        rw [w1, b1, z1, f1, hpt]
      have qd : (waterP tw (burnP (hazardP a b c (fireTickP p)))).deaths = 0 := by
        rw [w2, b2, z2, f2, h1, hpt]
        rfl
      have qg : (waterP tw (burnP (hazardP a b c (fireTickP p)))).gibsSpawned =
          p.gibsSpawned := by rw [w3, b3, z3, f3]
      have qe : (waterP tw (burnP (hazardP a b c (fireTickP p)))).gibEvents =
          p.gibEvents := by rw [w4, b4, z4, f4]
      unfold deathCheckP
      split
      · exact ⟨by simp [qd], by simp [qe, qg, h2]⟩
      · exact ⟨by simp [qd, qa], by simp [qe, qg, h2]⟩
  | boom dist radius =>
    show ((explosionHitPerson dist radius p).deaths =
        if (explosionHitPerson dist radius p).alive then 0 else 1) ∧
      ((explosionHitPerson dist radius p).gibEvents =
        if (explosionHitPerson dist radius p).gibsSpawned then 1 else 0)
    simp only [explosionHitPerson]
    split
    · split
      · rename_i hguard
        have hg : p.gibsSpawned = false := by simpa using hguard.2
        constructor
        · cases hpa : p.alive <;> simp [hpa, h1]
        · simp [h2, hg]
      · exact ⟨by simp [h1], by simp [h2]⟩
    · exact ⟨h1, h2⟩
  | acid =>
    show ((acidTouchPerson p).deaths = if (acidTouchPerson p).alive then 0 else 1) ∧
      ((acidTouchPerson p).gibEvents = if (acidTouchPerson p).gibsSpawned then 1 else 0)
    simp only [acidTouchPerson]
    split
    · exact ⟨h1, h2⟩
    · rename_i halive
      have hpt : p.alive = true := by revert halive; cases p.alive <;> simp
      split
      · rename_i hguard
        have hg : p.gibsSpawned = false := by simpa using hguard.2.2
        constructor
        · simp [h1, hpt]
        · simp [h2, hg]
      · exact ⟨by simp [h1, hpt], by simp [h2]⟩

theorem runEvents_inv (l : List Ev) : ∀ p : P,
    (p.deaths = if p.alive then 0 else 1) ∧
    (p.gibEvents = if p.gibsSpawned then 1 else 0) →
    ((runEvents p l).deaths = if (runEvents p l).alive then 0 else 1) ∧
    ((runEvents p l).gibEvents = if (runEvents p l).gibsSpawned then 1 else 0) := by
  induction l with
  | nil => intro p h; exact h
  | cons e t ih => intro p h; exact ih (applyEv p e) (applyEv_inv p e h.1 h.2)

/-- C8 — ragdoll integration: one physics update sets
`newPos = pos + (pos - prevPos) · friction + gravity` (gravity on the
vertical component only) and saves the old position; pinned points are
completely unchanged; `updateRagdollPhysics` is exactly 8
constraint-relaxation passes over all sticks after the point updates; and
one stick update moves both non-pinned endpoints by opposite offsets
proportional to the current displacement, with factor
`(rest − dist) / dist / 2`, touching no other joint. -/
theorem C8_verlet_and_passes (g f : ℝ) (p : Pt) (cfg : Config) (s : PtId × PtId × ℚ)
    (hp : p.pinned = false)
    (h1 : (cfg s.1).pinned = false) (h2 : (cfg s.2.1).pinned = false)
    (hne : s.1 ≠ s.2.1) :
    pointUpdate g f p =
      { x := p.x + (p.x - p.oldX) * f,
        y := p.y + (p.y - p.oldY) * f + g,
        oldX := p.x,
        oldY := p.y,
        pinned := false } ∧
    (∀ q : Pt, q.pinned = true → pointUpdate g f q = q) ∧
    updateRagdollPhysics g f cfg = stickPass^[8] (updatePoints g f cfg) ∧
    (stickUpdate s cfg) s.1 =
      { cfg s.1 with
        x := (cfg s.1).x - ((cfg s.2.1).x - (cfg s.1).x) *
          (((s.2.2 : ℝ) -
              hypot ((cfg s.2.1).x - (cfg s.1).x) ((cfg s.2.1).y - (cfg s.1).y)) /
            hypot ((cfg s.2.1).x - (cfg s.1).x) ((cfg s.2.1).y - (cfg s.1).y) / 2),
        y := (cfg s.1).y - ((cfg s.2.1).y - (cfg s.1).y) *
          (((s.2.2 : ℝ) -
              hypot ((cfg s.2.1).x - (cfg s.1).x) ((cfg s.2.1).y - (cfg s.1).y)) /
            hypot ((cfg s.2.1).x - (cfg s.1).x) ((cfg s.2.1).y - (cfg s.1).y) / 2) } ∧
    (stickUpdate s cfg) s.2.1 =
      { cfg s.2.1 with
        x := (cfg s.2.1).x + ((cfg s.2.1).x - (cfg s.1).x) *
          (((s.2.2 : ℝ) -
              hypot ((cfg s.2.1).x - (cfg s.1).x) ((cfg s.2.1).y - (cfg s.1).y)) /
            hypot ((cfg s.2.1).x - (cfg s.1).x) ((cfg s.2.1).y - (cfg s.1).y) / 2),
        y := (cfg s.2.1).y + ((cfg s.2.1).y - (cfg s.1).y) *
          (((s.2.2 : ℝ) -
              hypot ((cfg s.2.1).x - (cfg s.1).x) ((cfg s.2.1).y - (cfg s.1).y)) /
            hypot ((cfg s.2.1).x - (cfg s.1).x) ((cfg s.2.1).y - (cfg s.1).y) / 2) } ∧
    (∀ i : PtId, i ≠ s.1 → i ≠ s.2.1 → (stickUpdate s cfg) i = cfg i) := by
  refine ⟨?_, ?_, ?_, ?_, ?_, ?_⟩
  · simp [pointUpdate, hp]
  · intro q hq
    simp [pointUpdate, hq]
  · rfl
  · simp only [stickUpdate]
    rw [Function.update_noteq hne, Function.update_same]
    simp [h1]
  · simp only [stickUpdate]
    rw [Function.update_same]
    simp [h2]
  · intro i hi1 hi2
    simp only [stickUpdate]
    rw [Function.update_noteq hi2, Function.update_noteq hi1]

/-- Witness for C8 at gravity 1, friction 2, the concrete joint `p8` and
the head–neck stick of the configuration `cfg8`. -/
theorem C8_verlet_and_passes_witness :
    pointUpdate 1 2 p8 =
      { x := p8.x + (p8.x - p8.oldX) * 2,
        y := p8.y + (p8.y - p8.oldY) * 2 + 1,
        oldX := p8.x,
        oldY := p8.y,
        pinned := false } ∧
    (∀ q : Pt, q.pinned = true → pointUpdate 1 2 q = q) ∧
    updateRagdollPhysics 1 2 cfg8 = stickPass^[8] (updatePoints 1 2 cfg8) ∧
    (stickUpdate s8 cfg8) s8.1 =
      { cfg8 s8.1 with
        x := (cfg8 s8.1).x - ((cfg8 s8.2.1).x - (cfg8 s8.1).x) *
          (((s8.2.2 : ℝ) -
              hypot ((cfg8 s8.2.1).x - (cfg8 s8.1).x) ((cfg8 s8.2.1).y - (cfg8 s8.1).y)) /
            hypot ((cfg8 s8.2.1).x - (cfg8 s8.1).x) ((cfg8 s8.2.1).y - (cfg8 s8.1).y) / 2),
        y := (cfg8 s8.1).y - ((cfg8 s8.2.1).y - (cfg8 s8.1).y) *
          (((s8.2.2 : ℝ) -
              hypot ((cfg8 s8.2.1).x - (cfg8 s8.1).x) ((cfg8 s8.2.1).y - (cfg8 s8.1).y)) /
            hypot ((cfg8 s8.2.1).x - (cfg8 s8.1).x) ((cfg8 s8.2.1).y - (cfg8 s8.1).y) / 2) } ∧
    (stickUpdate s8 cfg8) s8.2.1 =
      { cfg8 s8.2.1 with
        x := (cfg8 s8.2.1).x + ((cfg8 s8.2.1).x - (cfg8 s8.1).x) *
          (((s8.2.2 : ℝ) -
              hypot ((cfg8 s8.2.1).x - (cfg8 s8.1).x) ((cfg8 s8.2.1).y - (cfg8 s8.1).y)) /
            hypot ((cfg8 s8.2.1).x - (cfg8 s8.1).x) ((cfg8 s8.2.1).y - (cfg8 s8.1).y) / 2),
        y := (cfg8 s8.2.1).y + ((cfg8 s8.2.1).y - (cfg8 s8.1).y) *
          (((s8.2.2 : ℝ) -
              hypot ((cfg8 s8.2.1).x - (cfg8 s8.1).x) ((cfg8 s8.2.1).y - (cfg8 s8.1).y)) /
            hypot ((cfg8 s8.2.1).x - (cfg8 s8.1).x) ((cfg8 s8.2.1).y - (cfg8 s8.1).y) / 2) } ∧
    (∀ i : PtId, i ≠ s8.1 → i ≠ s8.2.1 → (stickUpdate s8 cfg8) i = cfg8 i) :=
  C8_verlet_and_passes 1 2 p8 cfg8 s8 rfl rfl rfl (by decide)

theorem hypot_abs (a : ℝ) : hypot a 0 = |a| := by
  unfold hypot
  rw [show a ^ 2 + 0 ^ 2 = a ^ 2 from by ring]
  exact Real.sqrt_sq_eq_abs a

theorem hypot_smul (a b c : ℝ) : hypot (a * c) (b * c) = |c| * hypot a b := by
  unfold hypot
  rw [show (a * c) ^ 2 + (b * c) ^ 2 = c ^ 2 * (a ^ 2 + b ^ 2) from by ring,
    Real.sqrt_mul (sq_nonneg c), Real.sqrt_sq_eq_abs]

/-- On a collinear unpinned configuration the real stick update is the
lift of its rational shadow (the division-by-zero conventions of `ℝ` and
`ℚ` agree, so no nondegeneracy hypothesis is needed). -/
theorem liftQ_stickUpdate (s : PtId × PtId × ℚ) (q : CfgQ) :
    stickUpdate s (liftQ q) = liftQ (stickUpdateQ s q) := by
  funext i
  simp only [stickUpdate, stickUpdateQ, liftQ, Function.update_apply, Bool.false_eq_true,
    if_false]
  rw [show ((0 : ℝ) - 0) = 0 from by ring, hypot_abs]
  split_ifs with hA hB
  · simp only [Pt.mk.injEq]
    refine ⟨?_, ?_, by trivial, by trivial, by trivial⟩
    · push_cast
      ring
    · ring
  · simp only [Pt.mk.injEq]
    refine ⟨?_, ?_, by trivial, by trivial, by trivial⟩
    · push_cast
      ring
    · ring
  · rfl

theorem liftQ_foldUpdates (l : List (PtId × PtId × ℚ)) : ∀ q : CfgQ,
    l.foldl (fun c s => stickUpdate s c) (liftQ q) =
      liftQ (l.foldl (fun q s => stickUpdateQ s q) q) := by
  induction l with
  | nil => intro q; rfl
  | cons a t ih =>
    intro q
    rw [List.foldl_cons, List.foldl_cons, liftQ_stickUpdate]
    exact ih (stickUpdateQ a q)

theorem liftQ_pass (q : CfgQ) : stickPass (liftQ q) = liftQ (stickPassQ q) :=
  liftQ_foldUpdates personSticks q

theorem stickErr_lift (s : PtId × PtId × ℚ) (q : CfgQ) :
    stickErr s (liftQ q) = ((|(|q s.2.1 - q s.1|) - s.2.2| : ℚ) : ℝ) := by
  unfold stickErr
  simp only [liftQ]
  rw [show ((0 : ℝ) - (0 : ℝ)) = 0 from by ring, hypot_abs]
  push_cast
  ring_nf

theorem totalErr_lift (q : CfgQ) : totalErr (liftQ q) = ((totalErrQ q : ℚ) : ℝ) := by
  unfold totalErr totalErrQ
  have h : ∀ l : List (PtId × PtId × ℚ),
      ((l.map (fun s => stickErr s (liftQ q))).sum : ℝ) =
        (((l.map (fun s => |(|q s.2.1 - q s.1|) - s.2.2|)).sum : ℚ) : ℝ) := by
    intro l
    induction l with
    | nil => simp
    | cons a t ih =>
      rw [List.map_cons, List.map_cons, List.sum_cons, List.sum_cons, ih, stickErr_lift]
      push_cast
      ring
  exact h personSticks

/-- C3 — death idempotency: starting from a fresh actor, any sequence of
ticks, explosion hits and acid contacts produces at most one alive→dead
transition (exactly one once the actor is dead) and at most one
skeleton-gib decomposition, no matter how many further events see the
actor with health ≤ 0. -/
theorem C3_death_idempotent (l : List Ev) :
    (runEvents spawnP l).deaths ≤ 1 ∧
    (runEvents spawnP l).gibEvents ≤ 1 ∧
    ((runEvents spawnP l).alive = false → (runEvents spawnP l).deaths = 1) := by
  obtain ⟨h1, h2⟩ := runEvents_inv l spawnP ⟨rfl, rfl⟩
  refine ⟨?_, ?_, ?_⟩
  · rw [h1]; split <;> omega
  · rw [h2]; split <;> omega
  · intro hd
    rw [h1, hd]
    rfl

theorem c9e1 : stickUpdateQ (PtId.head, PtId.neck, 5) c9s0 = c9s1 := by
  funext i
  cases i <;>
    norm_num [stickUpdateQ, c9s0, c9s1, Function.update_apply, abs_of_nonneg,
      abs_of_nonpos] <;>
    simp

theorem c9e2 : stickUpdateQ (PtId.neck, PtId.hip, 6) c9s1 = c9s2 := by
  funext i
  cases i <;>
    norm_num [stickUpdateQ, c9s1, c9s2, Function.update_apply, abs_of_nonneg,
      abs_of_nonpos] <;>
    simp

theorem c9e3 : stickUpdateQ (PtId.neck, PtId.shoulder_l, 2) c9s2 = c9s3 := by
  funext i
  cases i <;>
    norm_num [stickUpdateQ, c9s2, c9s3, Function.update_apply, abs_of_nonneg,
      abs_of_nonpos] <;>
    simp

theorem c9e4 : stickUpdateQ (PtId.neck, PtId.shoulder_r, 2) c9s3 = c9s4 := by
  funext i
  cases i <;>
    norm_num [stickUpdateQ, c9s3, c9s4, Function.update_apply, abs_of_nonneg,
      abs_of_nonpos] <;>
    simp

theorem c9e5 : stickUpdateQ (PtId.shoulder_l, PtId.shoulder_r, 4) c9s4 = c9s5 := by
  funext i
  cases i <;>
    norm_num [stickUpdateQ, c9s4, c9s5, Function.update_apply, abs_of_nonneg,
      abs_of_nonpos] <;>
    simp

theorem c9e6 : stickUpdateQ (PtId.shoulder_l, PtId.hip, 7) c9s5 = c9s6 := by
  funext i
  cases i <;>
    norm_num [stickUpdateQ, c9s5, c9s6, Function.update_apply, abs_of_nonneg,
      abs_of_nonpos] <;>
    simp

theorem c9e7 : stickUpdateQ (PtId.shoulder_r, PtId.hip, 7) c9s6 = c9s7 := by
  funext i
  cases i <;>
    norm_num [stickUpdateQ, c9s6, c9s7, Function.update_apply, abs_of_nonneg,
      abs_of_nonpos] <;>
    simp

theorem c9e8 : stickUpdateQ (PtId.shoulder_l, PtId.hip_r, 8) c9s7 = c9s8 := by
  funext i
  cases i <;>
    norm_num [stickUpdateQ, c9s7, c9s8, Function.update_apply, abs_of_nonneg,
      abs_of_nonpos] <;>
    simp

theorem c9e9 : stickUpdateQ (PtId.shoulder_r, PtId.hip_l, 8) c9s8 = c9s9 := by
  funext i
  cases i <;>
    norm_num [stickUpdateQ, c9s8, c9s9, Function.update_apply, abs_of_nonneg,
      abs_of_nonpos] <;>
    simp

theorem c9e10 : stickUpdateQ (PtId.shoulder_l, PtId.elbow_l, 3) c9s9 = c9s10 := by
  funext i
  cases i <;>
    norm_num [stickUpdateQ, c9s9, c9s10, Function.update_apply, abs_of_nonneg,
      abs_of_nonpos] <;>
    simp

theorem c9e11 : stickUpdateQ (PtId.shoulder_r, PtId.elbow_r, 3) c9s10 = c9s11 := by
  funext i
  cases i <;>
    norm_num [stickUpdateQ, c9s10, c9s11, Function.update_apply, abs_of_nonneg,
      abs_of_nonpos] <;>
    simp

theorem c9e12 : stickUpdateQ (PtId.elbow_l, PtId.hand_l, 3) c9s11 = c9s12 := by
  funext i
  cases i <;>
    norm_num [stickUpdateQ, c9s11, c9s12, Function.update_apply, abs_of_nonneg,
      abs_of_nonpos] <;>
    simp

theorem c9e13 : stickUpdateQ (PtId.elbow_r, PtId.hand_r, 3) c9s12 = c9s13 := by
  funext i
  cases i <;>
    norm_num [stickUpdateQ, c9s12, c9s13, Function.update_apply, abs_of_nonneg,
      abs_of_nonpos] <;>
    simp

theorem c9e14 : stickUpdateQ (PtId.hip, PtId.hip_l, 1) c9s13 = c9s14 := by
  funext i
  cases i <;>
    norm_num [stickUpdateQ, c9s13, c9s14, Function.update_apply, abs_of_nonneg,
      abs_of_nonpos] <;>
    simp

theorem c9e15 : stickUpdateQ (PtId.hip, PtId.hip_r, 1) c9s14 = c9s15 := by
  funext i
  cases i <;>
    norm_num [stickUpdateQ, c9s14, c9s15, Function.update_apply, abs_of_nonneg,
      abs_of_nonpos] <;>
    simp

theorem c9e16 : stickUpdateQ (PtId.hip_l, PtId.hip_r, 2) c9s15 = c9s16 := by
  funext i
  cases i <;>
    norm_num [stickUpdateQ, c9s15, c9s16, Function.update_apply, abs_of_nonneg,
      abs_of_nonpos] <;>
    simp

theorem c9e17 : stickUpdateQ (PtId.hip_l, PtId.knee_l, 4) c9s16 = c9s17 := by
  funext i
  cases i <;>
    norm_num [stickUpdateQ, c9s16, c9s17, Function.update_apply, abs_of_nonneg,
      abs_of_nonpos] <;>
    simp

theorem c9e18 : stickUpdateQ (PtId.hip_r, PtId.knee_r, 4) c9s17 = c9s18 := by
  funext i
  cases i <;>
    norm_num [stickUpdateQ, c9s17, c9s18, Function.update_apply, abs_of_nonneg,
      abs_of_nonpos] <;>
    simp

theorem c9e19 : stickUpdateQ (PtId.knee_l, PtId.foot_l, 4) c9s18 = c9s19 := by
  funext i
  cases i <;>
    norm_num [stickUpdateQ, c9s18, c9s19, Function.update_apply, abs_of_nonneg,
      abs_of_nonpos] <;>
    simp

theorem c9e20 : stickUpdateQ (PtId.knee_r, PtId.foot_r, 4) c9s19 = c9s20 := by
  funext i
  cases i <;>
    norm_num [stickUpdateQ, c9s19, c9s20, Function.update_apply, abs_of_nonneg,
      abs_of_nonpos] <;>
    simp

theorem c9e21 : stickUpdateQ (PtId.hip_l, PtId.knee_r, 5) c9s20 = c9s21 := by
  funext i
  cases i <;>
    norm_num [stickUpdateQ, c9s20, c9s21, Function.update_apply, abs_of_nonneg,
      abs_of_nonpos] <;>
    simp

theorem c9e22 : stickUpdateQ (PtId.hip_r, PtId.knee_l, 5) c9s21 = c9s22 := by
  funext i
  cases i <;>
    norm_num [stickUpdateQ, c9s21, c9s22, Function.update_apply, abs_of_nonneg,
      abs_of_nonpos] <;>
    simp

theorem c9e23 : stickUpdateQ (PtId.head, PtId.neck, 5) c9s22 = c9s23 := by
  funext i
  cases i <;>
    norm_num [stickUpdateQ, c9s22, c9s23, Function.update_apply, abs_of_nonneg,
      abs_of_nonpos] <;>
    simp

theorem c9e24 : stickUpdateQ (PtId.neck, PtId.hip, 6) c9s23 = c9s24 := by
  funext i
  cases i <;>
    norm_num [stickUpdateQ, c9s23, c9s24, Function.update_apply, abs_of_nonneg,
      abs_of_nonpos] <;>
    simp

theorem c9e25 : stickUpdateQ (PtId.neck, PtId.shoulder_l, 2) c9s24 = c9s25 := by
  funext i
  cases i <;>
    norm_num [stickUpdateQ, c9s24, c9s25, Function.update_apply, abs_of_nonneg,
      abs_of_nonpos] <;>
    simp

theorem c9e26 : stickUpdateQ (PtId.neck, PtId.shoulder_r, 2) c9s25 = c9s26 := by
  funext i
  cases i <;>
    norm_num [stickUpdateQ, c9s25, c9s26, Function.update_apply, abs_of_nonneg,
      abs_of_nonpos] <;>
    simp

theorem c9e27 : stickUpdateQ (PtId.shoulder_l, PtId.shoulder_r, 4) c9s26 = c9s27 := by
  funext i
  cases i <;>
    norm_num [stickUpdateQ, c9s26, c9s27, Function.update_apply, abs_of_nonneg,
      abs_of_nonpos] <;>
    simp

theorem c9e28 : stickUpdateQ (PtId.shoulder_l, PtId.hip, 7) c9s27 = c9s28 := by
  funext i
  cases i <;>
    norm_num [stickUpdateQ, c9s27, c9s28, Function.update_apply, abs_of_nonneg,
      abs_of_nonpos] <;>
    simp

theorem c9e29 : stickUpdateQ (PtId.shoulder_r, PtId.hip, 7) c9s28 = c9s29 := by
  funext i
  cases i <;>
    norm_num [stickUpdateQ, c9s28, c9s29, Function.update_apply, abs_of_nonneg,
      abs_of_nonpos] <;>
    simp

theorem c9e30 : stickUpdateQ (PtId.shoulder_l, PtId.hip_r, 8) c9s29 = c9s30 := by
  funext i
  cases i <;>
    norm_num [stickUpdateQ, c9s29, c9s30, Function.update_apply, abs_of_nonneg,
      abs_of_nonpos] <;>
    simp

theorem c9e31 : stickUpdateQ (PtId.shoulder_r, PtId.hip_l, 8) c9s30 = c9s31 := by
  funext i
  cases i <;>
    norm_num [stickUpdateQ, c9s30, c9s31, Function.update_apply, abs_of_nonneg,
      abs_of_nonpos] <;>
    simp

theorem c9e32 : stickUpdateQ (PtId.shoulder_l, PtId.elbow_l, 3) c9s31 = c9s32 := by
  funext i
  cases i <;>
    norm_num [stickUpdateQ, c9s31, c9s32, Function.update_apply, abs_of_nonneg,
      abs_of_nonpos] <;>
    simp

theorem c9e33 : stickUpdateQ (PtId.shoulder_r, PtId.elbow_r, 3) c9s32 = c9s33 := by
  funext i
  cases i <;>
    norm_num [stickUpdateQ, c9s32, c9s33, Function.update_apply, abs_of_nonneg,
      abs_of_nonpos] <;>
    simp

theorem c9e34 : stickUpdateQ (PtId.elbow_l, PtId.hand_l, 3) c9s33 = c9s34 := by
  funext i
  cases i <;>
    norm_num [stickUpdateQ, c9s33, c9s34, Function.update_apply, abs_of_nonneg,
      abs_of_nonpos] <;>
    simp

theorem c9e35 : stickUpdateQ (PtId.elbow_r, PtId.hand_r, 3) c9s34 = c9s35 := by
  funext i
  cases i <;>
    norm_num [stickUpdateQ, c9s34, c9s35, Function.update_apply, abs_of_nonneg,
      abs_of_nonpos] <;>
    simp

theorem c9e36 : stickUpdateQ (PtId.hip, PtId.hip_l, 1) c9s35 = c9s36 := by
  funext i
  cases i <;>
    norm_num [stickUpdateQ, c9s35, c9s36, Function.update_apply, abs_of_nonneg,
      abs_of_nonpos] <;>
    simp

theorem c9e37 : stickUpdateQ (PtId.hip, PtId.hip_r, 1) c9s36 = c9s37 := by
  funext i
  cases i <;>
    norm_num [stickUpdateQ, c9s36, c9s37, Function.update_apply, abs_of_nonneg,
      abs_of_nonpos] <;>
    simp

theorem c9e38 : stickUpdateQ (PtId.hip_l, PtId.hip_r, 2) c9s37 = c9s38 := by
  funext i
  cases i <;>
    norm_num [stickUpdateQ, c9s37, c9s38, Function.update_apply, abs_of_nonneg,
      abs_of_nonpos] <;>
    simp

theorem c9e39 : stickUpdateQ (PtId.hip_l, PtId.knee_l, 4) c9s38 = c9s39 := by
  funext i
  cases i <;>
    norm_num [stickUpdateQ, c9s38, c9s39, Function.update_apply, abs_of_nonneg,
      abs_of_nonpos] <;>
    simp

theorem c9e40 : stickUpdateQ (PtId.hip_r, PtId.knee_r, 4) c9s39 = c9s40 := by
  funext i
  cases i <;>
    norm_num [stickUpdateQ, c9s39, c9s40, Function.update_apply, abs_of_nonneg,
      abs_of_nonpos] <;>
    simp

theorem c9e41 : stickUpdateQ (PtId.knee_l, PtId.foot_l, 4) c9s40 = c9s41 := by
  funext i
  cases i <;>
    norm_num [stickUpdateQ, c9s40, c9s41, Function.update_apply, abs_of_nonneg,
      abs_of_nonpos] <;>
    simp

theorem c9e42 : stickUpdateQ (PtId.knee_r, PtId.foot_r, 4) c9s41 = c9s42 := by
  funext i
  cases i <;>
    norm_num [stickUpdateQ, c9s41, c9s42, Function.update_apply, abs_of_nonneg,
      abs_of_nonpos] <;>
    simp

theorem c9e43 : stickUpdateQ (PtId.hip_l, PtId.knee_r, 5) c9s42 = c9s43 := by
  funext i
  cases i <;>
    norm_num [stickUpdateQ, c9s42, c9s43, Function.update_apply, abs_of_nonneg,
      abs_of_nonpos] <;>
    simp

theorem c9e44 : stickUpdateQ (PtId.hip_r, PtId.knee_l, 5) c9s43 = c9s44 := by
  funext i
  cases i <;>
    norm_num [stickUpdateQ, c9s43, c9s44, Function.update_apply, abs_of_nonneg,
      abs_of_nonpos] <;>
    simp

theorem c9pass1 : stickPassQ c9s0 = c9s22 := by
  simp only [stickPassQ, personSticks, List.foldl_cons, List.foldl_nil]
  rw [c9e1, c9e2, c9e3, c9e4, c9e5, c9e6, c9e7, c9e8, c9e9, c9e10, c9e11, c9e12, c9e13, c9e14, c9e15, c9e16, c9e17, c9e18, c9e19, c9e20, c9e21, c9e22]

theorem c9pass2 : stickPassQ c9s22 = c9s44 := by
  simp only [stickPassQ, personSticks, List.foldl_cons, List.foldl_nil]
  rw [c9e23, c9e24, c9e25, c9e26, c9e27, c9e28, c9e29, c9e30, c9e31, c9e32, c9e33, c9e34, c9e35, c9e36, c9e37, c9e38, c9e39, c9e40, c9e41, c9e42, c9e43, c9e44]

theorem c9err1 : totalErrQ c9s22 = 1089757/16384 := by
  norm_num [totalErrQ, personSticks, c9s22, abs_of_nonneg, abs_of_nonpos]

theorem c9err2 : totalErrQ c9s44 = 293302203/4194304 := by
  norm_num [totalErrQ, personSticks, c9s44, abs_of_nonneg, abs_of_nonpos]

/-- C9 — counterexample: the total stick constraint error is not
monotonically non-increasing pass-over-pass.  For the collinear unpinned
perturbation `c9s0` of the skeleton (zero gravity, zero external force),
the second relaxation pass strictly increases the total constraint
error. -/
theorem C9_total_error_not_monotone_cex :
    totalErr (stickPass (stickPass (liftQ c9s0))) > totalErr (stickPass (liftQ c9s0)) := by
  rw [liftQ_pass, c9pass1, liftQ_pass, c9pass2, totalErr_lift, totalErr_lift,
    c9err1, c9err2]
  exact_mod_cast (show (293302203/4194304 : ℚ) > 1089757/16384 from by norm_num)

/-- The algebra of one relaxation step: scaling the displacement so that
the endpoints move by `±(rest − dist) / dist / 2` of it lands them exactly
at distance `rest` (for a nondegenerate stick and nonnegative rest). -/
theorem relax_exact (x1 y1 x2 y2 r : ℝ) (hr : 0 ≤ r)
    (hd : hypot (x2 - x1) (y2 - y1) ≠ 0) :
    hypot
      ((x2 + (x2 - x1) * ((r - hypot (x2 - x1) (y2 - y1)) / hypot (x2 - x1) (y2 - y1) / 2)) -
        (x1 - (x2 - x1) * ((r - hypot (x2 - x1) (y2 - y1)) / hypot (x2 - x1) (y2 - y1) / 2)))
      ((y2 + (y2 - y1) * ((r - hypot (x2 - x1) (y2 - y1)) / hypot (x2 - x1) (y2 - y1) / 2)) -
        (y1 - (y2 - y1) * ((r - hypot (x2 - x1) (y2 - y1)) / hypot (x2 - x1) (y2 - y1) / 2))) =
      r := by
  set D := hypot (x2 - x1) (y2 - y1) with hD
  have hD0 : 0 ≤ D := Real.sqrt_nonneg _
  have hX : (x2 + (x2 - x1) * ((r - D) / D / 2)) - (x1 - (x2 - x1) * ((r - D) / D / 2)) =
      (x2 - x1) * (r / D) := by
    field_simp
    ring
  have hY : (y2 + (y2 - y1) * ((r - D) / D / 2)) - (y1 - (y2 - y1) * ((r - D) / D / 2)) =
      (y2 - y1) * (r / D) := by
    field_simp
    ring
  rw [hX, hY, hypot_smul (x2 - x1) (y2 - y1) (r / D), ← hD,
    abs_of_nonneg (div_nonneg hr hD0), div_mul_cancel₀ r hd]

/-- C9 (amended) — relaxation is exact stick by stick, not monotone in
total: one `Stick.update` on a stick with both endpoints unpinned, a
nonzero current distance and a nonnegative rest length brings that
stick's constraint error exactly to zero; but the total constraint error
over the skeleton need not decrease from one pass to the next, because an
update displaces joints shared with already-relaxed sticks. -/
theorem C9_stick_relaxation_exact (s : PtId × PtId × ℚ) (cfg : Config)
    (h1 : (cfg s.1).pinned = false) (h2 : (cfg s.2.1).pinned = false)
    (hne : s.1 ≠ s.2.1) (hr : 0 ≤ s.2.2)
    (hd : hypot ((cfg s.2.1).x - (cfg s.1).x) ((cfg s.2.1).y - (cfg s.1).y) ≠ 0) :
    stickErr s (stickUpdate s cfg) = 0 := by
  have e1 : (stickUpdate s cfg) s.1 =
      { cfg s.1 with
        x := (cfg s.1).x - ((cfg s.2.1).x - (cfg s.1).x) *
          (((s.2.2 : ℝ) -
              hypot ((cfg s.2.1).x - (cfg s.1).x) ((cfg s.2.1).y - (cfg s.1).y)) /
            hypot ((cfg s.2.1).x - (cfg s.1).x) ((cfg s.2.1).y - (cfg s.1).y) / 2),
        y := (cfg s.1).y - ((cfg s.2.1).y - (cfg s.1).y) *
          (((s.2.2 : ℝ) -
              hypot ((cfg s.2.1).x - (cfg s.1).x) ((cfg s.2.1).y - (cfg s.1).y)) /
            hypot ((cfg s.2.1).x - (cfg s.1).x) ((cfg s.2.1).y - (cfg s.1).y) / 2) } := by
    simp only [stickUpdate]
    rw [Function.update_noteq hne, Function.update_same]
    simp [h1]
  have e2 : (stickUpdate s cfg) s.2.1 =
      { cfg s.2.1 with
        x := (cfg s.2.1).x + ((cfg s.2.1).x - (cfg s.1).x) *
          (((s.2.2 : ℝ) -
              hypot ((cfg s.2.1).x - (cfg s.1).x) ((cfg s.2.1).y - (cfg s.1).y)) /
            hypot ((cfg s.2.1).x - (cfg s.1).x) ((cfg s.2.1).y - (cfg s.1).y) / 2),
        y := (cfg s.2.1).y + ((cfg s.2.1).y - (cfg s.1).y) *
          (((s.2.2 : ℝ) -
              hypot ((cfg s.2.1).x - (cfg s.1).x) ((cfg s.2.1).y - (cfg s.1).y)) /
            hypot ((cfg s.2.1).x - (cfg s.1).x) ((cfg s.2.1).y - (cfg s.1).y) / 2) } := by
    simp only [stickUpdate]
    rw [Function.update_same]
    simp [h2]
  unfold stickErr
  rw [e1, e2]
  show |hypot
      (((cfg s.2.1).x + ((cfg s.2.1).x - (cfg s.1).x) *
          (((s.2.2 : ℝ) -
              hypot ((cfg s.2.1).x - (cfg s.1).x) ((cfg s.2.1).y - (cfg s.1).y)) /
            hypot ((cfg s.2.1).x - (cfg s.1).x) ((cfg s.2.1).y - (cfg s.1).y) / 2)) -
        ((cfg s.1).x - ((cfg s.2.1).x - (cfg s.1).x) *
          (((s.2.2 : ℝ) -
              hypot ((cfg s.2.1).x - (cfg s.1).x) ((cfg s.2.1).y - (cfg s.1).y)) /
            hypot ((cfg s.2.1).x - (cfg s.1).x) ((cfg s.2.1).y - (cfg s.1).y) / 2)))
      (((cfg s.2.1).y + ((cfg s.2.1).y - (cfg s.1).y) *
          (((s.2.2 : ℝ) -
              hypot ((cfg s.2.1).x - (cfg s.1).x) ((cfg s.2.1).y - (cfg s.1).y)) /
            hypot ((cfg s.2.1).x - (cfg s.1).x) ((cfg s.2.1).y - (cfg s.1).y) / 2)) -
        ((cfg s.1).y - ((cfg s.2.1).y - (cfg s.1).y) *
          (((s.2.2 : ℝ) -
              hypot ((cfg s.2.1).x - (cfg s.1).x) ((cfg s.2.1).y - (cfg s.1).y)) /
            hypot ((cfg s.2.1).x - (cfg s.1).x) ((cfg s.2.1).y - (cfg s.1).y) / 2))) -
      (s.2.2 : ℝ)| = 0
  rw [relax_exact (cfg s.1).x (cfg s.1).y (cfg s.2.1).x (cfg s.2.1).y (s.2.2 : ℝ)
    (by exact_mod_cast hr) hd]
  simp

/-- Witness for the amended C9 at the head–neck stick of `cfg8` (current
distance 5, rest length 5). -/
theorem C9_stick_relaxation_exact_witness :
    (cfg8 s8.1).pinned = false ∧ (cfg8 s8.2.1).pinned = false ∧ s8.1 ≠ s8.2.1 ∧
    (0 : ℚ) ≤ s8.2.2 ∧
    hypot ((cfg8 s8.2.1).x - (cfg8 s8.1).x) ((cfg8 s8.2.1).y - (cfg8 s8.1).y) ≠ 0 ∧
    stickErr s8 (stickUpdate s8 cfg8) = 0 := by
  have hd : hypot ((cfg8 s8.2.1).x - (cfg8 s8.1).x) ((cfg8 s8.2.1).y - (cfg8 s8.1).y) ≠ 0 := by
    rw [show ((cfg8 s8.2.1).x - (cfg8 s8.1).x) = 3 from by simp [cfg8, s8],
      show ((cfg8 s8.2.1).y - (cfg8 s8.1).y) = 4 from by simp [cfg8, s8]]
    unfold hypot
    rw [Real.sqrt_ne_zero']
    norm_num
  exact ⟨rfl, rfl, by decide, by norm_num [s8], hd,
    C9_stick_relaxation_exact s8 cfg8 rfl rfl (by decide) (by norm_num [s8]) hd⟩

end Sand
